import Mathlib

/-!
# Lowering of exception constructs to goto programs

A shallow embedding of `src/goto-programs/goto_convert_exceptions.cpp`:
the procedures `convert_msc_try_finally`, `convert_msc_try_except`,
`convert_msc_leave`, `convert_try_catch`, `convert_CPROVER_try_catch`,
`convert_CPROVER_throw`, `convert_CPROVER_try_finally`, `exception_flag`
and `unwind_destructor_stack`, as state-passing functions over an explicit
`goto_convertt` state.  The nested statement lowering the procedures call
is a parameter of each of them, so every theorem about one procedure holds
for every nested lowering.
-/

namespace cbmc

/-! ## Structured statements (ireps) -/

abbrev irep_idt := String

/-- Source location tag of a statement or instruction; `none` is the nil location. -/
abbrev source_locationt := Option Nat

/-- Handle of a destructor-stack node; `0` is the sentinel root. -/
abbrev node_indext := Nat

/-- An irep tree: statements (`codet`) and the expressions that occur as their
operands share this representation, as in the source where `to_code` is a view
of an operand.  `named_sub` holds the string-valued attributes (statement kind,
identifier, exception id, ...). -/
inductive codet where
  | mk (id : irep_idt) (named_sub : List (irep_idt × irep_idt))
      (source_location : source_locationt) (operands : List codet)
  deriving Repr, Inhabited

mutual

/-- Decidable equality of statements. -/
def codet.decEq : (a b : codet) → Decidable (a = b)
  | .mk i1 n1 s1 o1, .mk i2 n2 s2 o2 =>
    if h1 : i1 = i2 then
      if h2 : n1 = n2 then
        if h3 : s1 = s2 then
          match codet.decEqList o1 o2 with
          | isTrue h4 => isTrue (by rw [h1, h2, h3, h4])
          | isFalse h4 => isFalse (fun h => h4 (by injection h))
        else isFalse (fun h => h3 (by injection h))
      else isFalse (fun h => h2 (by injection h))
    else isFalse (fun h => h1 (by injection h))

/-- Decidable equality of operand lists. -/
def codet.decEqList : (a b : List codet) → Decidable (a = b)
  | [], [] => isTrue rfl
  | [], _ :: _ => isFalse (fun h => by cases h)
  | _ :: _, [] => isFalse (fun h => by cases h)
  | a :: as, b :: bs =>
    match codet.decEq a b with
    | isTrue h1 =>
      match codet.decEqList as bs with
      | isTrue h2 => isTrue (by rw [h1, h2])
      | isFalse h2 => isFalse (fun h => h2 (by injection h))
    | isFalse h1 => isFalse (fun h => h1 (by injection h))
end

instance : DecidableEq codet := codet.decEq

abbrev exprt := codet

abbrev ID_code : irep_idt := "code"
abbrev ID_nil : irep_idt := "nil"
abbrev ID_statement : irep_idt := "statement"
abbrev ID_exception_id : irep_idt := "exception_id"
abbrev ID_identifier : irep_idt := "identifier"
abbrev ID_type : irep_idt := "type"
abbrev ID_value : irep_idt := "value"
abbrev ID_tag : irep_idt := "tag"
abbrev ID_symbol : irep_idt := "symbol"
abbrev ID_constant : irep_idt := "constant"
abbrev ID_bool : irep_idt := "bool"
abbrev ID_true : irep_idt := "true"
abbrev ID_block : irep_idt := "block"
abbrev ID_assign : irep_idt := "assign"
abbrev ID_ifthenelse : irep_idt := "ifthenelse"
abbrev ID_push_catch : irep_idt := "push_catch"
abbrev ID_pop_catch : irep_idt := "pop_catch"
abbrev ID_msc_try_finally : irep_idt := "msc_try_finally"
abbrev ID_msc_try_except : irep_idt := "msc_try_except"
abbrev ID_msc_leave : irep_idt := "msc_leave"
abbrev ID_try_catch : irep_idt := "try_catch"
abbrev ID_CPROVER_try_catch : irep_idt := "CPROVER_try_catch"
abbrev ID_CPROVER_throw : irep_idt := "CPROVER_throw"
abbrev ID_CPROVER_try_finally : irep_idt := "CPROVER_try_finally"

namespace codet

def id : codet → irep_idt
  | mk i _ _ _ => i

def named_sub : codet → List (irep_idt × irep_idt)
  | mk _ n _ _ => n

def source_location : codet → source_locationt
  | mk _ _ l _ => l

def operands : codet → List codet
  | mk _ _ _ o => o

/-- The nil irep. -/
def nil : codet := mk ID_nil [] none []

/-- Attribute lookup `get(name)`: the empty string when the attribute is absent. -/
def get (c : codet) (name : irep_idt) : irep_idt :=
  match c.named_sub.lookup name with
  | some v => v
  | none => ""

def get_statement (c : codet) : irep_idt := c.get ID_statement

/-- The assignment `c.add_source_location() = l`. -/
def add_source_location (c : codet) (l : source_locationt) : codet :=
  match c with
  | mk i n _ o => mk i n l o

def op0 (c : codet) : codet := c.operands.getD 0 nil

def op1 (c : codet) : codet := c.operands.getD 1 nil

end codet

/-- A statement `codet(statement)` with the given operands. -/
def code (statement : irep_idt) (source_location : source_locationt)
    (operands : List codet) : codet :=
  codet.mk ID_code [(ID_statement, statement)] source_location operands

def bool_typet : irep_idt := ID_bool

def symbol_exprt (identifier : irep_idt) (type : irep_idt) : exprt :=
  codet.mk ID_symbol [(ID_identifier, identifier), (ID_type, type)] none []

def true_exprt : exprt :=
  codet.mk ID_constant [(ID_value, ID_true), (ID_type, ID_bool)] none []

def code_assignt (lhs rhs : exprt) : codet := code ID_assign none [lhs, rhs]

/-- The two-argument `code_ifthenelset(condition, then_code)`: the else branch is nil. -/
def code_ifthenelset (condition : exprt) (then_code : codet) : codet :=
  code ID_ifthenelse none [condition, then_code, codet.nil]

def code_pop_catcht : codet := code ID_pop_catch none []

/-- An entry of the exception list of a CATCH-push statement. -/
def exception_list_entryt (tag : irep_idt) : codet :=
  codet.mk "" [(ID_tag, tag)] none []

/-- The statement `code_push_catcht` carrying its exception list. -/
def code_push_catcht (exception_list : List irep_idt) : codet :=
  code ID_push_catch none (exception_list.map exception_list_entryt)

/-- The exception list of a CATCH-push statement. -/
def codet.exception_list (c : codet) : List irep_idt :=
  c.operands.map (fun e => e.get ID_tag)

/-! ## Goto programs -/

inductive goto_program_instruction_typet where
  | NO_INSTRUCTION_TYPE | GOTO | OTHER | SKIP | ASSIGN | CATCH
  deriving DecidableEq, Repr

/-- A jump target `goto_programt::targett`: an iterator into an instruction list.
An iterator denotes a list node, modelled by the node's address; the
past-the-end iterator of a fragment denotes no instruction. -/
inductive targett where
  | instruction (address : Nat)
  | past_the_end
  deriving DecidableEq, Repr

/-- An instruction together with the identity (`address`) of the list node that
holds it.  The identity is stable under append and splice. -/
structure instructiont where
  address : Nat
  type : goto_program_instruction_typet
  code : codet
  source_location : source_locationt
  targets : List targett
  deriving DecidableEq, Repr

abbrev goto_programt := List instructiont

open goto_program_instruction_typet

/-- The default-constructed instruction. -/
def instructiont.default : instructiont :=
  { address := 0, type := NO_INSTRUCTION_TYPE, code := codet.nil,
    source_location := none, targets := [] }

/-- The effect of `make_catch()`: `clear(CATCH)`. -/
def instructiont.make_catch (i : instructiont) : instructiont :=
  { i with type := CATCH, targets := [], code := codet.nil }

def make_skip (l : source_locationt) : instructiont :=
  { instructiont.default with type := SKIP, source_location := l }

def make_goto (target : targett) (l : source_locationt) : instructiont :=
  { instructiont.default with type := GOTO, source_location := l, targets := [target] }

namespace goto_programt

/-- The iterator `instructions.begin()`. -/
def begin (p : goto_programt) : targett :=
  match p with
  | [] => targett.past_the_end
  | i :: _ => targett.instruction i.address

/-- Append instruction `i` in a new list node at address `address`. -/
def add (dest : goto_programt) (address : Nat) (i : instructiont) : goto_programt :=
  dest ++ [{ i with address := address }]

/-- Assignment through an iterator: apply `f` to the instruction held by the node
at `address`. -/
def update (dest : goto_programt) (address : Nat) (f : instructiont → instructiont) :
    goto_programt :=
  dest.map (fun i => if i.address = address then f i else i)

/-- The splice `dest.destructive_append(p)`; the emptied source is dropped. -/
def destructive_append (dest p : goto_programt) : goto_programt := dest ++ p

/-- The position in `p` of the instruction a target denotes, if it denotes one. -/
def position (p : goto_programt) (t : targett) : Option Nat :=
  match t with
  | targett.past_the_end => none
  | targett.instruction a =>
    match p.findIdx? (fun i => i.address = a) with
    | some k => some k
    | none => none

end goto_programt

/-! ## Destructor stack -/

structure destructor_nodet where
  parent : node_indext
  destructor : codet
  deriving DecidableEq, Repr

/-- Modelled from the spec: `destructor_treet` (declared in `destructor_tree.h`,
which is not among the sources).  An arena of nodes, each storing its parent
handle and its cleanup, and the handle of the current node.  The arena is kept
newest node first: the node with handle `k ≥ 1` is the `k`-th oldest entry, and
handle `0` is the sentinel root. -/
structure destructor_treet where
  nodes : List destructor_nodet
  current_node : node_indext
  deriving DecidableEq, Repr

/-- The cleanups met walking parent links from node `next` up to, not including,
node `end_index`; the walk also stops at the root. -/
def destructors_between : List destructor_nodet → node_indext → node_indext → List codet
  | [], _, _ => []
  | n :: rest, next, end_index =>
    if next = end_index then []
    else if next = rest.length + 1 then
      n.destructor :: destructors_between rest n.parent end_index
    else destructors_between rest next end_index

namespace destructor_treet

/-- The empty tree: only the root. -/
def empty : destructor_treet := { nodes := [], current_node := 0 }

def get_current_node (t : destructor_treet) : node_indext := t.current_node

def set_current_node (t : destructor_treet) (n : node_indext) : destructor_treet :=
  { t with current_node := n }

/-- Register one more cleanup: a new current node whose parent is the prior
current node. -/
def add (t : destructor_treet) (c : codet) : destructor_treet :=
  { nodes := { parent := t.current_node, destructor := c } :: t.nodes,
    current_node := t.nodes.length + 1 }

/-- The cleanups from `starting_index` (default: current node) up to but not
including `end_index` (default: root), innermost first. -/
def get_destructors (t : destructor_treet) (end_index starting_index : Option node_indext) :
    List codet :=
  destructors_between t.nodes (starting_index.getD t.current_node) (end_index.getD 0)

end destructor_treet

/-! ## Target context, symbol table and converter state -/

/-- Modelled from the spec: the members of `targetst` (declared in
`goto_convert_class.h`, which is not among the sources) that the exception
lowering reads or writes. -/
structure targetst where
  return_target : targett
  return_set : Bool
  throw_target : targett
  throw_set : Bool
  throw_stack_node : node_indext
  leave_target : targett
  leave_set : Bool
  leave_stack_node : node_indext
  destructor_stack : destructor_treet
  deriving DecidableEq, Repr

namespace targetst

/-- Establish a leave target, paired with the current destructor-stack node. -/
def set_leave (t : targetst) (target : targett) : targetst :=
  { t with leave_set := true, leave_target := target,
           leave_stack_node := t.destructor_stack.get_current_node }

/-- Establish a throw target, paired with the current destructor-stack node. -/
def set_throw (t : targetst) (target : targett) : targetst :=
  { t with throw_set := true, throw_target := target,
           throw_stack_node := t.destructor_stack.get_current_node }

end targetst

/-- Modelled from the spec: `leave_targett` (declared in `goto_convert_class.h`,
not among the sources), the saved leave target of an enclosing scope. -/
structure leave_targett where
  leave_target : targett
  leave_set : Bool
  leave_stack_node : node_indext
  deriving DecidableEq, Repr

/-- Modelled from the spec: `throw_targett` (declared in `goto_convert_class.h`,
not among the sources), the saved throw target of an enclosing scope. -/
structure throw_targett where
  throw_target : targett
  throw_set : Bool
  throw_stack_node : node_indext
  deriving DecidableEq, Repr

/-- The constructor `leave_targett(targets)`: remember the leave target in force. -/
def leave_targett.save (t : targetst) : leave_targett :=
  { leave_target := t.leave_target, leave_set := t.leave_set,
    leave_stack_node := t.leave_stack_node }

/-- Modelled from the spec: the prior leave target is put back when the scope of
the saved value ends (the source marks the place: "'leave' target gets
restored here"). -/
def leave_targett.restore (s : leave_targett) (t : targetst) : targetst :=
  { t with leave_target := s.leave_target, leave_set := s.leave_set,
           leave_stack_node := s.leave_stack_node }

/-- The constructor `throw_targett(targets)`: remember the throw target in force. -/
def throw_targett.save (t : targetst) : throw_targett :=
  { throw_target := t.throw_target, throw_set := t.throw_set,
    throw_stack_node := t.throw_stack_node }

/-- Modelled from the spec: the prior throw target is put back when the scope of
the saved value ends. -/
def throw_targett.restore (s : throw_targett) (t : targetst) : targetst :=
  { t with throw_target := s.throw_target, throw_set := s.throw_set,
           throw_stack_node := s.throw_stack_node }

structure symbolt where
  name : irep_idt
  base_name : irep_idt
  mode : irep_idt
  type : irep_idt
  is_lvalue : Bool
  is_thread_local : Bool
  is_file_local : Bool
  deriving DecidableEq, Repr

/-- The freshly constructed `symbolt`. -/
def symbolt.default : symbolt :=
  { name := "", base_name := "", mode := "", type := ID_nil,
    is_lvalue := false, is_thread_local := false, is_file_local := false }

abbrev symbol_tablet := List symbolt

/-- The lookup `symbols.find(id)`. -/
def symbol_tablet.find (t : symbol_tablet) (id : irep_idt) : Option symbolt :=
  List.find? (fun s => decide (s.name = id)) t

/-- The insertion `insert(symbol)`: no effect when the name is already present. -/
def symbol_tablet.insert (t : symbol_tablet) (s : symbolt) : symbol_tablet :=
  match symbol_tablet.find t s.name with
  | some _ => t
  | none => t ++ [s]

/-- The state of a `goto_convertt` object that the exception lowering touches:
the symbol table, the target context, and the next unused list-node address
(the allocator that gives every new instruction its identity). -/
structure goto_convertt where
  symbol_table : symbol_tablet
  targets : targetst
  next_address : Nat
  deriving DecidableEq, Repr

/-- The state after one list node has been allocated. -/
def goto_convertt.allocated (self : goto_convertt) : goto_convertt :=
  { self with next_address := self.next_address + 1 }

/-- Failure of a lowering call: a violated invariant (fatal), or the recursion
bound of the embedding reached. -/
inductive errort where
  | invariant_violation (message : String)
  | out_of_fuel
  deriving DecidableEq, Repr

deriving instance DecidableEq for Except

abbrev resultt := Except errort (goto_programt × goto_convertt)

/-- A statement lowering `convert(code, dest, mode)` on a converter state. -/
abbrev convertt := codet → goto_programt → irep_idt → goto_convertt → resultt

/-! ## The lowering procedures -/

open goto_program_instruction_typet

/-- The procedure `exception_flag(mode)`: the symbol expression of the synthetic
flag, and the state in which the symbol exists. -/
def exception_flag (mode : irep_idt) (self : goto_convertt) : exprt × goto_convertt :=
  let id : irep_idt := "$exception_flag"
  match symbol_tablet.find self.symbol_table id with
  | none =>
    let new_symbol : symbolt :=
      { symbolt.default with
        base_name := "$exception_flag", name := id, is_lvalue := true,
        is_thread_local := true, is_file_local := false, type := bool_typet,
        mode := mode }
    (symbol_exprt id bool_typet,
      { self with symbol_table := symbol_tablet.insert self.symbol_table new_symbol })
  | some _ => (symbol_exprt id bool_typet, self)

/-- The loop of `unwind_destructor_stack`: each cleanup is copied, given the
source location, and lowered into `dest`. -/
def unwind_each (convert : convertt) (source_location : source_locationt)
    (mode : irep_idt) : List codet → goto_programt → goto_convertt → resultt
  | [], dest, self => .ok (dest, self)
  | destructor :: stack, dest, self =>
    match convert (destructor.add_source_location source_location) dest mode self with
    | .error e => .error e
    | .ok r => unwind_each convert source_location mode stack r.1 r.2

/-- The six-argument `unwind_destructor_stack`, on an explicit destructor tree. -/
def unwind_destructor_stack_on (convert : convertt) (source_location : source_locationt)
    (dest : goto_programt) (destructor_stack : destructor_treet) (mode : irep_idt)
    (destructor_end_point destructor_start_point : Option node_indext)
    (self : goto_convertt) : Except errort (Bool × goto_programt × goto_convertt) :=
  let stack := destructor_stack.get_destructors destructor_end_point destructor_start_point
  match unwind_each convert source_location mode stack dest self with
  | .error e => .error e
  | .ok r => .ok (!stack.isEmpty, r.1, r.2)

/-- The five-argument `unwind_destructor_stack`: unwinds `targets.destructor_stack`. -/
def unwind_destructor_stack (convert : convertt) (source_location : source_locationt)
    (dest : goto_programt) (mode : irep_idt)
    (destructor_end_point destructor_start_point : Option node_indext)
    (self : goto_convertt) : Except errort (Bool × goto_programt × goto_convertt) :=
  unwind_destructor_stack_on convert source_location dest self.targets.destructor_stack mode
    destructor_end_point destructor_start_point self

def convert_msc_try_finally (convert : convertt) (code : codet) (dest : goto_programt)
    (mode : irep_idt) (self : goto_convertt) : resultt :=
  if code.operands.length ≠ 2 then
    .error (.invariant_violation "msc_try_finally expects two arguments")
  else
    -- goto_programt tmp; tmp.add_instruction(SKIP)->source_location = code.source_location()
    let tmp : goto_programt :=
      goto_programt.add [] self.next_address
        { instructiont.default with type := SKIP, source_location := code.source_location }
    let self := self.allocated
    -- save 'leave' target
    let leave_target := leave_targett.save self.targets
    let self := { self with targets := self.targets.set_leave tmp.begin }
    -- first put 'finally' code onto destructor stack
    let old_stack_top := self.targets.destructor_stack.get_current_node
    let self := { self with targets :=
      { self.targets with destructor_stack := self.targets.destructor_stack.add code.op1 } }
    -- do 'try' code
    match convert code.op0 dest mode self with
    | .error e => .error e
    | .ok r =>
      let dest := r.1
      let self := r.2
      -- pop 'finally' from destructor stack
      let self := { self with targets :=
        { self.targets with
          destructor_stack := self.targets.destructor_stack.set_current_node old_stack_top } }
      -- 'leave' target gets restored here
      let self := { self with targets := leave_target.restore self.targets }
      -- now add 'finally' code
      match convert code.op1 dest mode self with
      | .error e => .error e
      | .ok r =>
        -- this is the target for 'leave'
        .ok (goto_programt.destructive_append r.1 tmp, r.2)

def convert_msc_try_except (convert : convertt) (code : codet) (dest : goto_programt)
    (mode : irep_idt) (self : goto_convertt) : resultt :=
  if code.operands.length ≠ 3 then
    .error (.invariant_violation "msc_try_except expects three arguments")
  else
    convert code.op0 dest mode self

def convert_msc_leave (convert : convertt) (code : codet) (dest : goto_programt)
    (mode : irep_idt) (self : goto_convertt) : resultt :=
  if self.targets.leave_set = false then
    .error (.invariant_violation "leave without target")
  else
    -- need to process destructor stack
    match unwind_destructor_stack convert code.source_location dest mode
        (some self.targets.leave_stack_node) none self with
    | .error e => .error e
    | .ok r =>
      let dest := r.2.1
      let self := r.2.2
      .ok (goto_programt.add dest self.next_address
            (make_goto self.targets.leave_target code.source_location),
           self.allocated)

/-- The handler loop of `convert_try_catch` over the operands after the first:
`exception_list` is the list collected so far, `catch_push_instruction` the
address of the CATCH-push instruction, `end_target` the shared end. -/
def convert_try_catch_handlers (convert : convertt) (catch_push_instruction : Nat)
    (end_target : targett) (mode : irep_idt) :
    List codet → List irep_idt → goto_programt → goto_convertt →
      Except errort (List irep_idt × goto_programt × goto_convertt)
  | [], exception_list, dest, self => .ok (exception_list, dest, self)
  | block :: rest, exception_list, dest, self =>
    -- grab the ID and add to CATCH instruction
    let exception_list := exception_list ++ [block.get ID_exception_id]
    match convert block [] mode self with
    | .error e => .error e
    | .ok r =>
      let tmp := r.1
      let self := r.2
      let dest := goto_programt.update dest catch_push_instruction
        (fun i => { i with targets := i.targets ++ [tmp.begin] })
      let dest := goto_programt.destructive_append dest tmp
      -- add a goto to the end of the 'catch' block
      let dest := goto_programt.add dest self.next_address (make_goto end_target none)
      let self := self.allocated
      convert_try_catch_handlers convert catch_push_instruction end_target mode rest
        exception_list dest self

def convert_try_catch (convert : convertt) (code : codet) (dest : goto_programt)
    (mode : irep_idt) (self : goto_convertt) : resultt :=
  if code.operands.length < 2 then
    .error (.invariant_violation "try_catch expects at least two arguments")
  else
    -- add the CATCH-push instruction to 'dest'
    let catch_push_instruction := self.next_address
    let dest := goto_programt.add dest catch_push_instruction
      { instructiont.default.make_catch with source_location := code.source_location }
    let self := self.allocated
    -- add a SKIP target for the end of everything
    let end_ : goto_programt := goto_programt.add [] self.next_address (make_skip none)
    let end_target := targett.instruction self.next_address
    let self := self.allocated
    -- the first operand is the 'try' block
    match convert code.op0 dest mode self with
    | .error e => .error e
    | .ok r =>
      let dest := r.1
      let self := r.2
      -- add the CATCH-pop to the end of the 'try' block
      let dest := goto_programt.add dest self.next_address
        { instructiont.default.make_catch with code := code_pop_catcht }
      let self := self.allocated
      -- add a goto to the end of the 'try' block
      let dest := goto_programt.add dest self.next_address (make_goto end_target none)
      let self := self.allocated
      match convert_try_catch_handlers convert catch_push_instruction end_target mode
          code.operands.tail [] dest self with
      | .error e => .error e
      | .ok r =>
        let exception_list := r.1
        let dest := r.2.1
        let self := r.2.2
        let dest := goto_programt.update dest catch_push_instruction
          (fun i => { i with code := code_push_catcht exception_list })
        -- add the end-target
        .ok (goto_programt.destructive_append dest end_, self)

def convert_CPROVER_try_catch (convert : convertt) (code : codet) (dest : goto_programt)
    (mode : irep_idt) (self : goto_convertt) : resultt :=
  if code.operands.length ≠ 2 then
    .error (.invariant_violation "CPROVER_try_catch expects two arguments")
  else
    -- this is where we go after 'throw'
    let tmp : goto_programt :=
      goto_programt.add [] self.next_address
        { instructiont.default with type := SKIP, source_location := code.source_location }
    let self := self.allocated
    -- set 'throw' target
    let throw_target := throw_targett.save self.targets
    let self := { self with targets := self.targets.set_throw tmp.begin }
    -- now put 'catch' code onto destructor stack
    let flag := exception_flag mode self
    let self := flag.2
    let catch_code :=
      (code_ifthenelset flag.1 code.op1).add_source_location code.source_location
    -- Store the point before the temp catch code.
    let old_stack_top := self.targets.destructor_stack.get_current_node
    let self := { self with targets :=
      { self.targets with destructor_stack := self.targets.destructor_stack.add catch_code } }
    -- now convert 'try' code
    match convert code.op0 dest mode self with
    | .error e => .error e
    | .ok r =>
      let dest := r.1
      let self := r.2
      -- pop 'catch' code off stack
      let self := { self with targets :=
        { self.targets with
          destructor_stack := self.targets.destructor_stack.set_current_node old_stack_top } }
      -- add 'throw' target
      let dest := goto_programt.destructive_append dest tmp
      -- the saved throw target goes out of scope
      .ok (dest, { self with targets := throw_target.restore self.targets })

def convert_CPROVER_throw (convert : convertt) (code : codet) (dest : goto_programt)
    (mode : irep_idt) (self : goto_convertt) : resultt :=
  -- set the 'exception' flag
  let t_set_exception := self.next_address
  let self := self.allocated
  let flag := exception_flag mode self
  let self := flag.2
  let dest := goto_programt.add dest t_set_exception
    { instructiont.default with
      type := ASSIGN, source_location := code.source_location,
      code := code_assignt flag.1 true_exprt }
  -- do we catch locally?
  if self.targets.throw_set then
    -- need to process destructor stack
    match unwind_destructor_stack convert code.source_location dest mode
        (some self.targets.throw_stack_node) none self with
    | .error e => .error e
    | .ok r =>
      let dest := r.2.1
      let self := r.2.2
      -- add goto
      .ok (goto_programt.add dest self.next_address
            (make_goto self.targets.throw_target code.source_location),
           self.allocated)
  else
    -- need to process destructor stack
    match unwind_destructor_stack convert code.source_location dest mode none none self with
    | .error e => .error e
    | .ok r =>
      let dest := r.2.1
      let self := r.2.2
      -- add goto
      .ok (goto_programt.add dest self.next_address
            (make_goto self.targets.return_target code.source_location),
           self.allocated)

def convert_CPROVER_try_finally (convert : convertt) (code : codet) (dest : goto_programt)
    (mode : irep_idt) (self : goto_convertt) : resultt :=
  if code.operands.length ≠ 2 then
    .error (.invariant_violation "CPROVER_try_finally expects two arguments")
  else
    -- first put 'finally' code onto destructor stack
    let old_stack_top := self.targets.destructor_stack.get_current_node
    let self := { self with targets :=
      { self.targets with destructor_stack := self.targets.destructor_stack.add code.op1 } }
    -- do 'try' code
    match convert code.op0 dest mode self with
    | .error e => .error e
    | .ok r =>
      let dest := r.1
      let self := r.2
      -- pop 'finally' from destructor stack
      let self := { self with targets :=
        { self.targets with
          destructor_stack := self.targets.destructor_stack.set_current_node old_stack_top } }
      -- now add 'finally' code
      convert code.op1 dest mode self

/-- The lowering of the statements that are not exception constructs, given the
lowering to use for their sub-statements. -/
abbrev collaboratort := convertt → convertt

/-- Modelled from the spec: the general statement lowering `convert` (defined in
`goto_convert.cpp`, not among the sources).  It delegates the constructs of this
engine back into the engine and hands every other statement to the collaborator
`other`.  `fuel` bounds the depth of nested lowering calls. -/
def convert (other : collaboratort) : Nat → convertt
  | 0 => fun _ _ _ _ => .error .out_of_fuel
  | fuel + 1 => fun code dest mode self =>
    let statement := code.get_statement
    if statement = ID_msc_try_finally then
      convert_msc_try_finally (convert other fuel) code dest mode self
    else if statement = ID_msc_try_except then
      convert_msc_try_except (convert other fuel) code dest mode self
    else if statement = ID_msc_leave then
      convert_msc_leave (convert other fuel) code dest mode self
    else if statement = ID_try_catch then
      convert_try_catch (convert other fuel) code dest mode self
    else if statement = ID_CPROVER_try_catch then
      convert_CPROVER_try_catch (convert other fuel) code dest mode self
    else if statement = ID_CPROVER_throw then
      convert_CPROVER_throw (convert other fuel) code dest mode self
    else if statement = ID_CPROVER_try_finally then
      convert_CPROVER_try_finally (convert other fuel) code dest mode self
    else
      other (convert other fuel) code dest mode self

/-- The sub-statements of a block lowered one after the other into `dest`. -/
def convert_sequence (convert : convertt) (mode : irep_idt) :
    List codet → goto_programt → goto_convertt → resultt
  | [], dest, self => .ok (dest, self)
  | c :: rest, dest, self =>
    match convert c dest mode self with
    | .error e => .error e
    | .ok r => convert_sequence convert mode rest r.1 r.2

/-- Modelled from the spec: a collaborator for ordinary statements, used to run
the engine on concrete statements.  A block lowers its sub-statements in order;
any other ordinary statement passes through unchanged as one OTHER instruction
carrying it. -/
def ordinary : collaboratort := fun convert code dest mode self =>
  if code.get_statement = ID_block then
    convert_sequence convert mode code.operands dest self
  else
    .ok (goto_programt.add dest self.next_address
          { instructiont.default with
            type := OTHER, code := code, source_location := code.source_location },
         self.allocated)

/-! ## Reference shapes used to state the results -/

/-- The handlers of a try/catch lowered one after the other, each into a fresh
empty fragment, one list node being allocated after each for its closing jump.
Yields every fragment with the address of its closing jump. -/
def lower_handlers (convert : convertt) (mode : irep_idt) :
    List codet → goto_convertt → Except errort (List (goto_programt × Nat) × goto_convertt)
  | [], self => .ok ([], self)
  | block :: rest, self =>
    match convert block [] mode self with
    | .error e => .error e
    | .ok r =>
      match lower_handlers convert mode rest r.2.allocated with
      | .error e => .error e
      | .ok q => .ok ((r.1, r.2.next_address) :: q.1, q.2)

/-- The jump to `end_target` held by the list node at `address`. -/
def goto_at (address : Nat) (end_target : targett) : instructiont :=
  { address := address, type := GOTO, code := codet.nil, source_location := none,
    targets := [end_target] }

/-- The handler fragments in order, each followed by its jump to `end_target`. -/
def handler_region (end_target : targett) : List (goto_programt × Nat) → goto_programt
  | [] => []
  | f :: fs => f.1 ++ [goto_at f.2 end_target] ++ handler_region end_target fs

/-- The CATCH-push instruction as first appended: no targets, no payload yet. -/
def catch_push_initial (address : Nat) (l : source_locationt) : instructiont :=
  { address := address, type := CATCH, code := codet.nil, source_location := l, targets := [] }

/-- The CATCH-push instruction with its targets and exception list. -/
def catch_push (address : Nat) (l : source_locationt) (targets : List targett)
    (exception_list : List irep_idt) : instructiont :=
  { address := address, type := CATCH, code := code_push_catcht exception_list,
    source_location := l, targets := targets }

/-- The CATCH-pop instruction. -/
def catch_pop (address : Nat) : instructiont :=
  { address := address, type := CATCH, code := code_pop_catcht, source_location := none,
    targets := [] }

/-- A SKIP instruction with the given location. -/
def skip_at (address : Nat) (l : source_locationt) : instructiont :=
  { address := address, type := SKIP, code := codet.nil, source_location := l, targets := [] }

/-- The OTHER instruction that passes an ordinary statement through. -/
def other_at (address : Nat) (c : codet) : instructiont :=
  { address := address, type := OTHER, code := c, source_location := c.source_location,
    targets := [] }

/-- The state in which `convert_msc_try_finally` lowers the guarded block: the join's
list node is allocated, the join is the leave target, paired with the node that was
current, and the finally block `F` is registered as one more cleanup. -/
def msc_try_state (self : goto_convertt) (F : codet) : goto_convertt :=
  { symbol_table := self.symbol_table,
    next_address := self.next_address + 1,
    targets :=
      { self.targets with
        leave_set := true,
        leave_target := targett.instruction self.next_address,
        leave_stack_node := self.targets.destructor_stack.current_node,
        destructor_stack := self.targets.destructor_stack.add F } }

/-- The state in which `convert_msc_try_finally` lowers the fall-through copy of the
finally block: the state `selfS` the guarded block left, with the current node and the
leave target of the state `self` at entry put back. -/
def msc_finally_state (self selfS : goto_convertt) : goto_convertt :=
  { selfS with
    targets :=
      { selfS.targets with
        leave_set := self.targets.leave_set,
        leave_target := self.targets.leave_target,
        leave_stack_node := self.targets.leave_stack_node,
        destructor_stack :=
          { selfS.targets.destructor_stack with
            current_node := self.targets.destructor_stack.current_node } } }

/-- The unconditional jump to `target` with location `l`, held by the node at `address`. -/
def goto_located (address : Nat) (target : targett) (l : source_locationt) : instructiont :=
  { address := address, type := GOTO, code := codet.nil, source_location := l,
    targets := [target] }

/-- The statements `cs` are lowered one after the other, each appending its fragment of
`frags` to what is there, from state `self` to state `self'`. -/
def lowered_in_order (convert : convertt) (mode : irep_idt) :
    List codet → List goto_programt → goto_programt → goto_convertt → goto_convertt → Prop
  | [], [], _, self, self' => self' = self
  | c :: cs, f :: fs, dest, self, self' =>
    ∃ s1, convert c dest mode self = .ok (dest ++ f, s1)
      ∧ lowered_in_order convert mode cs fs (dest ++ f) s1 self'
  | [], _ :: _, _, _, _ => False
  | _ :: _, [], _, _, _ => False

/-- The fragments of a list one after the other. -/
def concat_fragments : List goto_programt → goto_programt
  | [] => []
  | f :: fs => f ++ concat_fragments fs

/-- The symbol of the synthetic exception flag as created in mode `mode`. -/
def exception_flag_symbol (mode : irep_idt) : symbolt :=
  { name := "$exception_flag", base_name := "$exception_flag", mode := mode,
    type := bool_typet, is_lvalue := true, is_thread_local := true, is_file_local := false }

/-- The ASSIGN instruction that sets the exception flag. -/
def assign_flag_at (address : Nat) (l : source_locationt) : instructiont :=
  { address := address, type := ASSIGN,
    code := code_assignt (symbol_exprt "$exception_flag" bool_typet) true_exprt,
    source_location := l, targets := [] }

/-- The cleanup `if (exception flag) handler` registered by `convert_CPROVER_try_catch`
for a statement located at `l`. -/
def catch_cleanup (handler : codet) (l : source_locationt) : codet :=
  (code_ifthenelset (symbol_exprt "$exception_flag" bool_typet) handler).add_source_location l

/-- Modelled from the spec: the platform try/except lowers only its guarded block; the
filter and the handler are accepted and not used. -/
def lower_guarded_block_only (convert : convertt) (guarded _filter _handler : codet)
    (dest : goto_programt) (mode : irep_idt) (self : goto_convertt) : resultt :=
  convert guarded dest mode self

/-- The state in which `convert_CPROVER_try_catch` lowers the guarded block of a
statement located at `l` with handler `H`: the join's list node is allocated, the join is
the throw target, paired with the node that was current, the flag symbol exists, and the
conditional handler is registered as one more cleanup. -/
def CPROVER_try_state (self : goto_convertt) (l : source_locationt) (H : codet)
    (mode : irep_idt) : goto_convertt :=
  { symbol_table := (exception_flag mode self).2.symbol_table,
    next_address := self.next_address + 1,
    targets :=
      { self.targets with
        throw_set := true,
        throw_target := targett.instruction self.next_address,
        throw_stack_node := self.targets.destructor_stack.current_node,
        destructor_stack := self.targets.destructor_stack.add (catch_cleanup H l) } }

/-- The state `convert_CPROVER_try_catch` returns: the state `selfS` the guarded block
left, with the current node and the throw target of the state `self` at entry put
back. -/
def CPROVER_catch_end_state (self selfS : goto_convertt) : goto_convertt :=
  { selfS with
    targets :=
      { selfS.targets with
        throw_set := self.targets.throw_set,
        throw_target := self.targets.throw_target,
        throw_stack_node := self.targets.throw_stack_node,
        destructor_stack :=
          { selfS.targets.destructor_stack with
            current_node := self.targets.destructor_stack.current_node } } }

/-- The state after `exception_flag` has been called once for each mode of a list, in
order. -/
def exception_flag_repeated : List irep_idt → goto_convertt → goto_convertt
  | [], self => self
  | mode :: modes, self => exception_flag_repeated modes (exception_flag mode self).2

/-! ## Properties of a nested lowering -/

/-- The ambient leave target and throw target of a state, each with its set flag and its
recorded destructor-stack node. -/
def ambient_targets (s : goto_convertt) : leave_targett × throw_targett :=
  (leave_targett.save s.targets, throw_targett.save s.targets)

/-- The nested lowering of statement `c` returns with the current destructor-stack node
it was entered with. -/
def keeps_current_node (convert : convertt) (c : codet) (mode : irep_idt) : Prop :=
  ∀ d s q, convert c d mode s = .ok q →
    q.2.targets.destructor_stack.current_node = s.targets.destructor_stack.current_node

/-- The nested lowering of statement `c` only adds nodes to the destructor tree. -/
def grows_arena (convert : convertt) (c : codet) (mode : irep_idt) : Prop :=
  ∀ d s q, convert c d mode s = .ok q →
    ∃ ext, q.2.targets.destructor_stack.nodes = ext ++ s.targets.destructor_stack.nodes

/-! ## Control flow of the emitted instructions -/

/-- Modelled from the spec: control flow of emitted instructions.  An unconditional jump
continues at the position of its target; every other instruction (markers and passed
through statements included) falls through to the next position.  `none` when there is
no instruction at `pc` or the jump's target is no instruction of the program. -/
def successor (p : goto_programt) (pc : Nat) : Option Nat :=
  match p[pc]? with
  | none => none
  | some i =>
    if i.type = GOTO then
      match i.targets with
      | [t] => goto_programt.position p t
      | _ => none
    else some (pc + 1)

/-- The positions control passes through from `pc`, at most `fuel` of them. -/
def path (p : goto_programt) : Nat → Nat → List Nat
  | 0, _ => []
  | fuel + 1, pc =>
    if pc < p.length then
      pc :: (match successor p pc with
             | some n => path p fuel n
             | none => [])
    else []

/-- The number of positions of a path at which the instruction is the passed-through
statement `c`, whatever its source location. -/
def executions (p : goto_programt) (positions : List Nat) (c : codet) : Nat :=
  (positions.filter (fun k =>
    match p[k]? with
    | some i => decide (i.type = OTHER ∧ i.code.add_source_location none
                          = c.add_source_location none)
    | none => false)).length

/-! ## Sample inputs -/

/-- A converter state at the start of a function body: empty symbol table, no
leave or throw target, an empty destructor stack, and the return target at
address `0`. -/
def initial_state : goto_convertt :=
  { symbol_table := [],
    targets :=
      { return_target := targett.instruction 0, return_set := true,
        throw_target := targett.past_the_end, throw_set := false, throw_stack_node := 0,
        leave_target := targett.past_the_end, leave_set := false, leave_stack_node := 0,
        destructor_stack := destructor_treet.empty },
    next_address := 1 }

/-- An ordinary (expression) statement tagged `n`, located at `n`. -/
def expression_statement (n : Nat) : codet :=
  codet.mk ID_code [(ID_statement, "expression"), (ID_identifier, toString n)] (some n) []

/-- A catch handler for exception kind `kind` with the given body statement. -/
def handler (kind : irep_idt) (n : Nat) : codet :=
  codet.mk ID_code [(ID_statement, "expression"), (ID_exception_id, kind)] (some n) []

/-- An empty block. -/
def empty_block : codet := code ID_block none []

/-- A handler for exception kind `kind` whose body is an empty block. -/
def empty_handler (kind : irep_idt) : codet :=
  codet.mk ID_code [(ID_statement, ID_block), (ID_exception_id, kind)] none []

/-- The statement `try { 1 } catch(KindA) { 2 } catch(KindB) { 3 }`, located at `7`. -/
def sample_try_catch : codet :=
  code ID_try_catch (some 7) [expression_statement 1, handler "KindA" 2, handler "KindB" 3]

/-- The state `initial_state` after list nodes up to `n - 1` have been allocated. -/
def initial_state_at (n : Nat) : goto_convertt := { initial_state with next_address := n }

/-- The statement `try { 1 } catch(KindA) { }`, located at `7`: the handler body is an
empty block. -/
def sample_try_catch_empty : codet :=
  code ID_try_catch (some 7) [expression_statement 1, empty_handler "KindA"]

/-- The statement `try { 1 } finally { 2 }` of the platform-specific form, located at `70`. -/
def sample_msc_try_finally : codet :=
  code ID_msc_try_finally (some 70) [expression_statement 1, expression_statement 2]

/-- A leave statement located at `50`. -/
def sample_leave : codet := code ID_msc_leave (some 50) []

/-- The statement `try { leave; } finally { 2 }`, located at `70`. -/
def sample_try_leave_finally : codet :=
  code ID_msc_try_finally (some 70) [sample_leave, expression_statement 2]

/-- A converter state inside an enclosing scope: the enclosing leave target `L` is the
instruction at address `1`, established at the root, and one cleanup (statement `9`) is
registered outside the construct to be lowered. -/
def enclosed_state : goto_convertt :=
  { symbol_table := [],
    targets :=
      { return_target := targett.instruction 0, return_set := true,
        throw_target := targett.past_the_end, throw_set := false, throw_stack_node := 0,
        leave_target := targett.instruction 1, leave_set := true, leave_stack_node := 0,
        destructor_stack := destructor_treet.empty.add (expression_statement 9) },
    next_address := 2 }

/-- A state whose destructor stack has cleanup `1` registered, then cleanup `2`. -/
def two_cleanups_state : goto_convertt :=
  { initial_state with
    targets :=
      { initial_state.targets with
        destructor_stack :=
          (destructor_treet.empty.add (expression_statement 1)).add (expression_statement 2) } }

/-- A throw statement located at `60`. -/
def sample_CPROVER_throw : codet := code ID_CPROVER_throw (some 60) []

/-- The statement `CPROVER_try_catch { throw; } { 3 }`, located at `80`. -/
def sample_CPROVER_try_catch : codet :=
  code ID_CPROVER_try_catch (some 80) [sample_CPROVER_throw, expression_statement 3]

/-- The statement `__try { 1 } __except(2) { 3 }`, located at `90`. -/
def sample_msc_try_except : codet :=
  code ID_msc_try_except (some 90)
    [expression_statement 1, expression_statement 2, expression_statement 3]

/-- The statement `CPROVER_try_finally { leave; } { 2 }`, located at `95`. -/
def sample_CPROVER_try_finally : codet :=
  code ID_CPROVER_try_finally (some 95) [sample_leave, expression_statement 2]

/-- The state `enclosed_state` with `nodes` registered after its own cleanup, the symbol
table `symbols`, and list nodes allocated up to `next - 1`; the current node is that of
`enclosed_state`. -/
def enclosed_state_after (nodes : List destructor_nodet) (symbols : symbol_tablet)
    (next : Nat) : goto_convertt :=
  { symbol_table := symbols,
    targets :=
      { enclosed_state.targets with
        destructor_stack :=
          { nodes := nodes ++ enclosed_state.targets.destructor_stack.nodes,
            current_node := enclosed_state.targets.destructor_stack.current_node } },
    next_address := next }

/-- The statement `CPROVER_try_catch { 1 } { 3 }`, located at `80`. -/
def sample_CPROVER_try_catch_plain : codet :=
  code ID_CPROVER_try_catch (some 80) [expression_statement 1, expression_statement 3]

/-- The statement `CPROVER_try_finally { 1 } { 2 }`, located at `95`. -/
def sample_CPROVER_try_finally_plain : codet :=
  code ID_CPROVER_try_finally (some 95) [expression_statement 1, expression_statement 2]

/-- The statement
`try { try { try { throw; } finally { 1 } } finally { leave; } } finally { 2 }`
of the platform-specific form. -/
def nested_finally_throw : codet :=
  code ID_msc_try_finally (some 70)
    [code ID_msc_try_finally (some 71)
      [code ID_msc_try_finally (some 72) [sample_CPROVER_throw, expression_statement 1],
       sample_leave],
     expression_statement 2]

/-- The output of lowering `nested_finally_throw` from `initial_state`. -/
def nested_finally_throw_output : goto_programt :=
  [assign_flag_at 4 (some 60),
   other_at 5 ((expression_statement 1).add_source_location (some 60)),
   other_at 6 ((expression_statement 1).add_source_location (some 60)),
   goto_located 7 (targett.instruction 3) (some 60),
   other_at 8 ((expression_statement 2).add_source_location (some 60)),
   goto_located 9 (targett.instruction 0) (some 60),
   other_at 10 (expression_statement 1),
   skip_at 3 (some 72),
   other_at 11 ((expression_statement 2).add_source_location (some 50)),
   goto_located 12 (targett.instruction 1) (some 50),
   skip_at 2 (some 71),
   other_at 13 (expression_statement 2),
   skip_at 1 (some 70)]

/-- The state after lowering `nested_finally_throw` from `initial_state`. -/
def nested_finally_throw_state : goto_convertt :=
  { symbol_table := [exception_flag_symbol "C"],
    targets :=
      { initial_state.targets with
        destructor_stack :=
          { nodes := [{ parent := 2, destructor := expression_statement 1 },
                      { parent := 1, destructor := sample_leave },
                      { parent := 0, destructor := expression_statement 2 }],
            current_node := 0 } },
    next_address := 14 }

/-- A state inside the guarded block of an internal try/catch: the throw target is the
instruction at address `1`, established when cleanup `1` was the current node, and
cleanup `2` has been registered since. -/
def catching_state : goto_convertt :=
  { symbol_table := [],
    targets :=
      { return_target := targett.instruction 0, return_set := true,
        throw_target := targett.instruction 1, throw_set := true, throw_stack_node := 1,
        leave_target := targett.past_the_end, leave_set := false, leave_stack_node := 0,
        destructor_stack :=
          (destructor_treet.empty.add (expression_statement 1)).add (expression_statement 2) },
    next_address := 2 }

/-- A nested lowering that returns on every statement: it passes the statement through
as one OTHER instruction. -/
def lower_as_other : convertt := fun code dest _ self =>
  .ok (dest ++ [other_at self.next_address code], self.allocated)

/-- The statement `__try { 1 } __except(2) { 3 }` with a fourth operand. -/
def malformed_statement : codet :=
  code ID_msc_try_except (some 90)
    [expression_statement 1, expression_statement 2, expression_statement 3,
     expression_statement 4]

/-- The statement `__try { 1 } __except(5) { 6 }`, located at `91`. -/
def sample_msc_try_except_other : codet :=
  code ID_msc_try_except (some 91)
    [expression_statement 1, expression_statement 5, expression_statement 6]

/-- The statement `try { leave; } finally { leave; }` of the platform-specific form. -/
def leave_in_finally : codet :=
  code ID_msc_try_finally (some 70) [sample_leave, sample_leave]

/-- The state in which `convert_CPROVER_try_finally` lowers the guarded block: the
finally block `F` is registered as one more cleanup, nothing else changes. -/
def CPROVER_finally_try_state (self : goto_convertt) (F : codet) : goto_convertt :=
  { self with
    targets :=
      { self.targets with destructor_stack := self.targets.destructor_stack.add F } }

/-- The state in which `convert_CPROVER_try_finally` lowers the finally block: the state
`selfS` the guarded block left, with the current node of the state `self` at entry put
back. -/
def CPROVER_finally_state (self selfS : goto_convertt) : goto_convertt :=
  { selfS with
    targets :=
      { selfS.targets with
        destructor_stack :=
          { selfS.targets.destructor_stack with
            current_node := self.targets.destructor_stack.current_node } } }

/-- The output of lowering `sample_CPROVER_try_finally`, that is
`CPROVER_try_finally { leave; } { 2 }`, from `enclosed_state`. -/
def sample_CPROVER_try_finally_output : goto_programt :=
  [other_at 2 ((expression_statement 2).add_source_location (some 50)),
   other_at 3 ((expression_statement 9).add_source_location (some 50)),
   goto_located 4 (targett.instruction 1) (some 50),
   other_at 5 (expression_statement 2)]

/-- The statement `__try { throw; } __finally { 1 }`. -/
def sample_finally_throw : codet :=
  code ID_msc_try_finally (some 70) [sample_CPROVER_throw, expression_statement 1]

/-- The statement `CPROVER_try_catch { __try { throw; } __finally { 1 } } { 3 }`. -/
def sample_catch_finally_throw : codet :=
  code ID_CPROVER_try_catch (some 80) [sample_finally_throw, expression_statement 3]

/-- The statement `sample_catch_finally_throw` guarded by one more internal try/catch,
whose handler is `4`. -/
def sample_outer_catch : codet :=
  code ID_CPROVER_try_catch (some 81) [sample_catch_finally_throw, expression_statement 4]

/-- The output of lowering `sample_outer_catch` from `initial_state`. -/
def sample_outer_catch_output : goto_programt :=
  [assign_flag_at 4 (some 60),
   other_at 5 ((expression_statement 1).add_source_location (some 60)),
   other_at 6 ((catch_cleanup (expression_statement 3) (some 80)).add_source_location (some 60)),
   goto_located 7 (targett.instruction 2) (some 60),
   other_at 8 (expression_statement 1),
   skip_at 3 (some 70),
   skip_at 2 (some 80),
   skip_at 1 (some 81)]

/-- The state after lowering `sample_outer_catch` from `initial_state`. -/
def sample_outer_catch_state : goto_convertt :=
  { symbol_table := [exception_flag_symbol "C"],
    targets :=
      { initial_state.targets with
        destructor_stack :=
          { nodes := [{ parent := 2, destructor := expression_statement 1 },
                      { parent := 1,
                        destructor := catch_cleanup (expression_statement 3) (some 80) },
                      { parent := 0,
                        destructor := catch_cleanup (expression_statement 4) (some 81) }],
            current_node := 0 } },
    next_address := 9 }

/-- The state in which the throw of `sample_catch_finally_throw` is lowered when the
whole statement is lowered from `catching_state`. -/
def nested_throw_state : goto_convertt :=
  msc_try_state (CPROVER_try_state catching_state (some 80) (expression_statement 3) "C")
    (expression_statement 1)

/-! ## Independence of the mode -/

/-- A symbol with its mode field cleared when it is the exception flag; any other
symbol is unchanged. -/
def symbolt.without_flag_mode (s : symbolt) : symbolt :=
  if s.name = "$exception_flag" then { s with mode := "" } else s

/-- A symbol table with the mode field of the exception flag cleared. -/
def symbol_tablet.without_flag_mode (t : symbol_tablet) : symbol_tablet :=
  t.map symbolt.without_flag_mode

/-- Two converter states that agree on the targets (leave, throw and return targets and
the destructor stack), on the allocator, and on the symbol table except possibly for the
mode field of the flag symbol. -/
def same_up_to_mode (s1 s2 : goto_convertt) : Prop :=
  s1.targets = s2.targets ∧ s1.next_address = s2.next_address
    ∧ s1.symbol_table.without_flag_mode = s2.symbol_table.without_flag_mode

/-- Two results of a lowering that fail alike, or return the same instruction sequence
and states that are `same_up_to_mode`. -/
def same_result : resultt → resultt → Prop
  | .ok r1, .ok r2 => r1.1 = r2.1 ∧ same_up_to_mode r1.2 r2.2
  | .error e1, .error e2 => e1 = e2
  | .ok _, .error _ => False
  | .error _, .ok _ => False

/-- Two results of `unwind_destructor_stack` that fail alike, or return the same flag,
the same instruction sequence and states that are `same_up_to_mode`. -/
def same_unwind_result :
    Except errort (Bool × goto_programt × goto_convertt) →
    Except errort (Bool × goto_programt × goto_convertt) → Prop
  | .ok r1, .ok r2 => r1.1 = r2.1 ∧ r1.2.1 = r2.2.1 ∧ same_up_to_mode r1.2.2 r2.2.2
  | .error e1, .error e2 => e1 = e2
  | .ok _, .error _ => False
  | .error _, .ok _ => False

/-- Two results of the handler loop of `convert_try_catch` that fail alike, or return
the same exception list, the same instruction sequence and states that are
`same_up_to_mode`. -/
def same_handlers_result :
    Except errort (List irep_idt × goto_programt × goto_convertt) →
    Except errort (List irep_idt × goto_programt × goto_convertt) → Prop
  | .ok r1, .ok r2 => r1.1 = r2.1 ∧ r1.2.1 = r2.2.1 ∧ same_up_to_mode r1.2.2 r2.2.2
  | .error e1, .error e2 => e1 = e2
  | .ok _, .error _ => False
  | .error _, .ok _ => False

/-- A lowering whose control-flow shape does not depend on the mode: on two modes and two
states that are `same_up_to_mode` its results are `same_result`. -/
def mode_independent (conv : convertt) : Prop :=
  ∀ (code : codet) (dest : goto_programt) (m1 m2 : irep_idt) (s1 s2 : goto_convertt),
    same_up_to_mode s1 s2 → same_result (conv code dest m1 s1) (conv code dest m2 s2)

/-! ## Failures with the state at the point of failure -/

/-- A failed lowering call, with what the instruction list `dest` of the failing call and
the converter hold at the moment the failure is raised. -/
structure failuret where
  error : errort
  dest : goto_programt
  self : goto_convertt
  deriving DecidableEq, Repr

/-- The result of a lowering call whose failures are `failuret` records. -/
abbrev traced_resultt := Except failuret (goto_programt × goto_convertt)

/-- A statement lowering whose failures report the state at the point of failure. -/
abbrev traced_convertt := codet → goto_programt → irep_idt → goto_convertt → traced_resultt

/-- The result with the state at the point of failure forgotten. -/
def traced_resultt.forget : traced_resultt → resultt
  | .error f => .error f.error
  | .ok r => .ok r

/-- The lowering with the state at the point of failure forgotten. -/
def traced_convertt.forget (convert : traced_convertt) : convertt :=
  fun code dest mode self => traced_resultt.forget (convert code dest mode self)

/-- The loop of `unwind_destructor_stack`, reporting the state at a failure. -/
def unwind_each_traced (convert : traced_convertt) (source_location : source_locationt)
    (mode : irep_idt) : List codet → goto_programt → goto_convertt → traced_resultt
  | [], dest, self => .ok (dest, self)
  | destructor :: stack, dest, self =>
    match convert (destructor.add_source_location source_location) dest mode self with
    | .error f => .error f
    | .ok r => unwind_each_traced convert source_location mode stack r.1 r.2

/-- The six-argument `unwind_destructor_stack`, reporting the state at a failure. -/
def unwind_destructor_stack_on_traced (convert : traced_convertt)
    (source_location : source_locationt) (dest : goto_programt)
    (destructor_stack : destructor_treet) (mode : irep_idt)
    (destructor_end_point destructor_start_point : Option node_indext)
    (self : goto_convertt) : Except failuret (Bool × goto_programt × goto_convertt) :=
  let stack := destructor_stack.get_destructors destructor_end_point destructor_start_point
  match unwind_each_traced convert source_location mode stack dest self with
  | .error f => .error f
  | .ok r => .ok (!stack.isEmpty, r.1, r.2)

/-- The five-argument `unwind_destructor_stack`, reporting the state at a failure. -/
def unwind_destructor_stack_traced (convert : traced_convertt)
    (source_location : source_locationt) (dest : goto_programt) (mode : irep_idt)
    (destructor_end_point destructor_start_point : Option node_indext)
    (self : goto_convertt) : Except failuret (Bool × goto_programt × goto_convertt) :=
  unwind_destructor_stack_on_traced convert source_location dest
    self.targets.destructor_stack mode destructor_end_point destructor_start_point self

/-- The procedure `convert_msc_try_finally`, reporting the state at a failure. -/
def convert_msc_try_finally_traced (convert : traced_convertt) (code : codet)
    (dest : goto_programt) (mode : irep_idt) (self : goto_convertt) : traced_resultt :=
  if code.operands.length ≠ 2 then
    .error
      { error := .invariant_violation "msc_try_finally expects two arguments",
        dest := dest, self := self }
  else
    let tmp : goto_programt :=
      goto_programt.add [] self.next_address
        { instructiont.default with type := SKIP, source_location := code.source_location }
    let self := self.allocated
    -- save 'leave' target
    let leave_target := leave_targett.save self.targets
    let self := { self with targets := self.targets.set_leave tmp.begin }
    -- first put 'finally' code onto destructor stack
    let old_stack_top := self.targets.destructor_stack.get_current_node
    let self := { self with targets :=
      { self.targets with destructor_stack := self.targets.destructor_stack.add code.op1 } }
    -- do 'try' code
    match convert code.op0 dest mode self with
    | .error f => .error f
    | .ok r =>
      let dest := r.1
      let self := r.2
      -- pop 'finally' from destructor stack
      let self := { self with targets :=
        { self.targets with
          destructor_stack := self.targets.destructor_stack.set_current_node old_stack_top } }
      -- 'leave' target gets restored here
      let self := { self with targets := leave_target.restore self.targets }
      -- now add 'finally' code
      match convert code.op1 dest mode self with
      | .error f => .error f
      | .ok r =>
        -- this is the target for 'leave'
        .ok (goto_programt.destructive_append r.1 tmp, r.2)

/-- The procedure `convert_msc_try_except`, reporting the state at a failure. -/
def convert_msc_try_except_traced (convert : traced_convertt) (code : codet)
    (dest : goto_programt) (mode : irep_idt) (self : goto_convertt) : traced_resultt :=
  if code.operands.length ≠ 3 then
    .error
      { error := .invariant_violation "msc_try_except expects three arguments",
        dest := dest, self := self }
  else
    convert code.op0 dest mode self

/-- The procedure `convert_msc_leave`, reporting the state at a failure. -/
def convert_msc_leave_traced (convert : traced_convertt) (code : codet)
    (dest : goto_programt) (mode : irep_idt) (self : goto_convertt) : traced_resultt :=
  if self.targets.leave_set = false then
    .error
      { error := .invariant_violation "leave without target", dest := dest, self := self }
  else
    -- need to process destructor stack
    match unwind_destructor_stack_traced convert code.source_location dest mode
        (some self.targets.leave_stack_node) none self with
    | .error f => .error f
    | .ok r =>
      let dest := r.2.1
      let self := r.2.2
      .ok (goto_programt.add dest self.next_address
            (make_goto self.targets.leave_target code.source_location),
           self.allocated)

/-- The handler loop of `convert_try_catch`, reporting the state at a failure.  A handler
is lowered into a fresh list, so a failure inside it finds `dest` as the loop holds
it. -/
def convert_try_catch_handlers_traced (convert : traced_convertt)
    (catch_push_instruction : Nat) (end_target : targett) (mode : irep_idt) :
    List codet → List irep_idt → goto_programt → goto_convertt →
      Except failuret (List irep_idt × goto_programt × goto_convertt)
  | [], exception_list, dest, self => .ok (exception_list, dest, self)
  | block :: rest, exception_list, dest, self =>
    -- grab the ID and add to CATCH instruction
    let exception_list := exception_list ++ [block.get ID_exception_id]
    match convert block [] mode self with
    | .error f => .error { f with dest := dest }
    | .ok r =>
      let tmp := r.1
      let self := r.2
      let dest := goto_programt.update dest catch_push_instruction
        (fun i => { i with targets := i.targets ++ [tmp.begin] })
      let dest := goto_programt.destructive_append dest tmp
      -- add a goto to the end of the 'catch' block
      let dest := goto_programt.add dest self.next_address (make_goto end_target none)
      let self := self.allocated
      convert_try_catch_handlers_traced convert catch_push_instruction end_target mode rest
        exception_list dest self

/-- The procedure `convert_try_catch`, reporting the state at a failure. -/
def convert_try_catch_traced (convert : traced_convertt) (code : codet)
    (dest : goto_programt) (mode : irep_idt) (self : goto_convertt) : traced_resultt :=
  if code.operands.length < 2 then
    .error
      { error := .invariant_violation "try_catch expects at least two arguments",
        dest := dest, self := self }
  else
    -- add the CATCH-push instruction to 'dest'
    let catch_push_instruction := self.next_address
    let dest := goto_programt.add dest catch_push_instruction
      { instructiont.default.make_catch with source_location := code.source_location }
    let self := self.allocated
    -- add a SKIP target for the end of everything
    let end_ : goto_programt := goto_programt.add [] self.next_address (make_skip none)
    let end_target := targett.instruction self.next_address
    let self := self.allocated
    -- the first operand is the 'try' block
    match convert code.op0 dest mode self with
    | .error f => .error f
    | .ok r =>
      let dest := r.1
      let self := r.2
      -- add the CATCH-pop to the end of the 'try' block
      let dest := goto_programt.add dest self.next_address
        { instructiont.default.make_catch with code := code_pop_catcht }
      let self := self.allocated
      -- add a goto to the end of the 'try' block
      let dest := goto_programt.add dest self.next_address (make_goto end_target none)
      let self := self.allocated
      match convert_try_catch_handlers_traced convert catch_push_instruction end_target mode
          code.operands.tail [] dest self with
      | .error f => .error f
      | .ok r =>
        let exception_list := r.1
        let dest := r.2.1
        let self := r.2.2
        let dest := goto_programt.update dest catch_push_instruction
          (fun i => { i with code := code_push_catcht exception_list })
        -- add the end-target
        .ok (goto_programt.destructive_append dest end_, self)

/-- The procedure `convert_CPROVER_try_catch`, reporting the state at a failure. -/
def convert_CPROVER_try_catch_traced (convert : traced_convertt) (code : codet)
    (dest : goto_programt) (mode : irep_idt) (self : goto_convertt) : traced_resultt :=
  if code.operands.length ≠ 2 then
    .error
      { error := .invariant_violation "CPROVER_try_catch expects two arguments",
        dest := dest, self := self }
  else
    -- this is where we go after 'throw'
    let tmp : goto_programt :=
      goto_programt.add [] self.next_address
        { instructiont.default with type := SKIP, source_location := code.source_location }
    let self := self.allocated
    -- set 'throw' target
    let throw_target := throw_targett.save self.targets
    let self := { self with targets := self.targets.set_throw tmp.begin }
    -- now put 'catch' code onto destructor stack
    let flag := exception_flag mode self
    let self := flag.2
    let catch_code :=
      (code_ifthenelset flag.1 code.op1).add_source_location code.source_location
    -- Store the point before the temp catch code.
    let old_stack_top := self.targets.destructor_stack.get_current_node
    let self := { self with targets :=
      { self.targets with destructor_stack := self.targets.destructor_stack.add catch_code } }
    -- now convert 'try' code
    match convert code.op0 dest mode self with
    | .error f => .error f
    | .ok r =>
      let dest := r.1
      let self := r.2
      -- pop 'catch' code off stack
      let self := { self with targets :=
        { self.targets with
          destructor_stack := self.targets.destructor_stack.set_current_node old_stack_top } }
      -- add 'throw' target
      let dest := goto_programt.destructive_append dest tmp
      -- the saved throw target goes out of scope
      .ok (dest, { self with targets := throw_target.restore self.targets })

/-- The procedure `convert_CPROVER_try_finally`, reporting the state at a failure. -/
def convert_CPROVER_try_finally_traced (convert : traced_convertt) (code : codet)
    (dest : goto_programt) (mode : irep_idt) (self : goto_convertt) : traced_resultt :=
  if code.operands.length ≠ 2 then
    .error
      { error := .invariant_violation "CPROVER_try_finally expects two arguments",
        dest := dest, self := self }
  else
    -- first put 'finally' code onto destructor stack
    let old_stack_top := self.targets.destructor_stack.get_current_node
    let self := { self with targets :=
      { self.targets with destructor_stack := self.targets.destructor_stack.add code.op1 } }
    -- do 'try' code
    match convert code.op0 dest mode self with
    | .error f => .error f
    | .ok r =>
      let dest := r.1
      let self := r.2
      -- pop 'finally' from destructor stack
      let self := { self with targets :=
        { self.targets with
          destructor_stack := self.targets.destructor_stack.set_current_node old_stack_top } }
      -- now add 'finally' code
      convert code.op1 dest mode self

/-- A nested lowering that emits the statement as one OTHER instruction and then fails
when the statement is the expression statement `0`; it passes every other statement
through as one OTHER instruction. -/
def failing_on_zero : traced_convertt := fun code dest _ self =>
  if code = expression_statement 0 then
    .error
      { error := .invariant_violation "nested failure",
        dest := dest ++ [other_at self.next_address code], self := self.allocated }
  else
    .ok (dest ++ [other_at self.next_address code], self.allocated)

/-- The statement `__try { 0 } __finally { 2 }`, whose guarded block `failing_on_zero`
fails on. -/
def failing_guarded_block : codet :=
  code ID_msc_try_finally (some 70) [expression_statement 0, expression_statement 2]

/-- The statement `__try { 1 }` with one operand. -/
def one_operand_try : codet := code ID_msc_try_finally (some 91) [expression_statement 1]

/-! ## Assignments to the exception flag -/

/-- A statement that assigns to the exception flag: an assignment whose left-hand side
is a symbol expression with the identifier of the flag. -/
def flag_assignment (c : codet) : Bool :=
  decide (c.get_statement = ID_assign) && decide (c.op0.id = ID_symbol)
    && decide (c.op0.get ID_identifier = "$exception_flag")

/-- An instruction that assigns to the exception flag: an ASSIGN whose statement is a
`flag_assignment`. -/
def assigns_flag (i : instructiont) : Bool :=
  decide (i.type = ASSIGN) && flag_assignment i.code

/-- An instruction that resets the exception flag: it assigns to the flag a value other
than the constant true. -/
def clears_flag (i : instructiont) : Bool :=
  assigns_flag i && decide (i.code.op1 ≠ true_exprt)

/-- A class `bad` of ASSIGN instructions that is told from the instruction type and the
statement alone and contains no instruction whose statement is a CATCH-push
statement. -/
def class_of_assignments (bad : instructiont → Bool) : Prop :=
  (∀ i : instructiont, i.type ≠ ASSIGN → bad i = false)
    ∧ (∀ i j : instructiont, i.type = j.type → i.code = j.code → bad i = bad j)
    ∧ (∀ (i : instructiont) (exception_list : List irep_idt),
        bad { i with code := code_push_catcht exception_list } = false)

/-- No instruction of the list is in the class `bad`. -/
def free_of (bad : instructiont → Bool) (p : goto_programt) : Prop :=
  ∀ i ∈ p, bad i = false

/-- A lowering that puts no instruction of the class `bad` into a list free of them. -/
def emits_none (bad : instructiont → Bool) (conv : convertt) : Prop :=
  ∀ (code : codet) (dest : goto_programt) (mode : irep_idt) (self : goto_convertt)
    (r : goto_programt × goto_convertt),
    free_of bad dest → conv code dest mode self = .ok r → free_of bad r.1

/-- The statement `CPROVER_try_catch { throw; } { 3 }` followed by a second throw, in one
block guarded by an enclosing internal try/catch with handler `4`. -/
def throw_after_catch : codet :=
  code ID_CPROVER_try_catch (some 81)
    [code ID_block (some 82) [sample_CPROVER_try_catch, sample_CPROVER_throw],
     expression_statement 4]

/-- The output of lowering `throw_after_catch` from `initial_state`. -/
def throw_after_catch_output : goto_programt :=
  [assign_flag_at 3 (some 60),
   other_at 4 ((catch_cleanup (expression_statement 3) (some 80)).add_source_location (some 60)),
   goto_located 5 (targett.instruction 2) (some 60),
   skip_at 2 (some 80),
   assign_flag_at 6 (some 60),
   other_at 7 ((catch_cleanup (expression_statement 4) (some 81)).add_source_location (some 60)),
   goto_located 8 (targett.instruction 1) (some 60),
   skip_at 1 (some 81)]

/-- The state after lowering `throw_after_catch` from `initial_state`. -/
def throw_after_catch_state : goto_convertt :=
  { symbol_table := [exception_flag_symbol "C"],
    targets :=
      { initial_state.targets with
        destructor_stack :=
          { nodes := [{ parent := 1,
                        destructor := catch_cleanup (expression_statement 3) (some 80) },
                      { parent := 0,
                        destructor := catch_cleanup (expression_statement 4) (some 81) }],
            current_node := 0 } },
    next_address := 9 }

/-! # Theorems -/

/-! ## Lemmas on instruction lists -/

theorem update_append (d1 d2 : goto_programt) (a : Nat) (f : instructiont → instructiont) :
    goto_programt.update (d1 ++ d2) a f
      = goto_programt.update d1 a f ++ goto_programt.update d2 a f := by
  simp [goto_programt.update]

theorem update_other (d : goto_programt) (a : Nat) (f : instructiont → instructiont)
    (h : ∀ i ∈ d, i.address ≠ a) : goto_programt.update d a f = d := by
  induction d with
  | nil => rfl
  | cons x xs ih =>
    have hx : x.address ≠ a := h x (List.mem_cons_self x xs)
    have hxs : ∀ i ∈ xs, i.address ≠ a := fun i hi => h i (List.mem_cons_of_mem x hi)
    have ih2 := ih hxs
    simp only [goto_programt.update] at ih2 ⊢
    simp [hx, ih2]

theorem update_single (a : Nat) (i : instructiont) (f : instructiont → instructiont)
    (h : i.address = a) : goto_programt.update [i] a f = [f i] := by
  simp [goto_programt.update, h]

theorem update_middle (d1 d2 : goto_programt) (p : instructiont) (a : Nat)
    (f : instructiont → instructiont) (h1 : ∀ i ∈ d1, i.address ≠ a)
    (h2 : ∀ i ∈ d2, i.address ≠ a) (hp : p.address = a) :
    goto_programt.update (d1 ++ [p] ++ d2) a f = d1 ++ [f p] ++ d2 := by
  rw [update_append, update_append, update_other d1 a f h1, update_other d2 a f h2,
    update_single a p f hp]

/-! ## Structural try/catch -/

theorem convert_try_catch_handlers_eq (convert : convertt) (a : Nat) (e : targett)
    (mode : irep_idt) :
    ∀ (Hs : List codet) (el : List irep_idt) (d1 : goto_programt) (p : instructiont)
      (d2 : goto_programt) (self self' : goto_convertt) (frags : List (goto_programt × Nat)),
      p.address = a →
      (∀ i ∈ d1 ++ d2 ++ handler_region e frags, i.address ≠ a) →
      lower_handlers convert mode Hs self = .ok (frags, self') →
      convert_try_catch_handlers convert a e mode Hs el (d1 ++ [p] ++ d2) self
        = .ok (el ++ Hs.map (fun b => b.get ID_exception_id),
               d1 ++ [{ p with targets := p.targets ++ frags.map (fun f => f.1.begin) }] ++ d2
                 ++ handler_region e frags,
               self') := by
  intro Hs
  induction Hs with
  | nil =>
    intro el d1 p d2 self self' frags hp hu hl
    simp only [lower_handlers, Except.ok.injEq, Prod.mk.injEq] at hl
    obtain ⟨hf, hs⟩ := hl
    subst hf; subst hs
    simp [convert_try_catch_handlers, handler_region]
  | cons block rest ih =>
    intro el d1 p d2 self self' frags hp hu hl
    simp only [lower_handlers] at hl
    cases hc : convert block [] mode self with
    | error err => simp [hc] at hl
    | ok r =>
      simp only [hc] at hl
      cases hr : lower_handlers convert mode rest r.2.allocated with
      | error err => simp [hr] at hl
      | ok q =>
        simp only [hr, Except.ok.injEq, Prod.mk.injEq] at hl
        obtain ⟨hf, hs⟩ := hl
        subst hf
        have hq : lower_handlers convert mode rest r.2.allocated = .ok (q.1, self') := by
          rw [hr, ← hs]
        have hd1 : ∀ i ∈ d1, i.address ≠ a := fun i hi => hu i (by simp [hi])
        have hd2 : ∀ i ∈ d2, i.address ≠ a := fun i hi => hu i (by simp [hi])
        have htmp : ∀ i ∈ r.1, i.address ≠ a := fun i hi => hu i (by simp [handler_region, hi])
        have hg : r.2.next_address ≠ a := by
          have := hu (goto_at r.2.next_address e) (by simp [handler_region])
          simpa [goto_at] using this
        have hrest : ∀ i ∈ handler_region e q.1, i.address ≠ a :=
          fun i hi => hu i (by simp [handler_region, hi])
        simp only [convert_try_catch_handlers, hc]
        have hupd : goto_programt.update (d1 ++ [p] ++ d2) a
              (fun i => { i with targets := i.targets ++ [goto_programt.begin r.1] })
            = d1 ++ [{ p with targets := p.targets ++ [goto_programt.begin r.1] }] ++ d2 := by
          rw [update_append, update_append, update_other d1 a _ hd1, update_other d2 a _ hd2,
            update_single a p _ hp]
        rw [hupd]
        have key := ih (el ++ [block.get ID_exception_id]) d1
          { p with targets := p.targets ++ [goto_programt.begin r.1] }
          (d2 ++ r.1 ++ [goto_at r.2.next_address e]) r.2.allocated self' q.1 hp
          (by
            intro i hi
            simp only [List.mem_append, List.mem_singleton] at hi
            rcases hi with ((h | (h | h) | h) | h)
            · exact hd1 i h
            · exact hd2 i h
            · exact htmp i h
            · subst h; simpa [goto_at] using hg
            · exact hrest i h) hq
        have hshape : goto_programt.add
              (goto_programt.destructive_append
                (d1 ++ [{ p with targets := p.targets ++ [goto_programt.begin r.1] }] ++ d2) r.1)
              r.2.next_address (make_goto e none)
            = d1 ++ [{ p with targets := p.targets ++ [goto_programt.begin r.1] }]
                ++ (d2 ++ r.1 ++ [goto_at r.2.next_address e]) := by
          simp [goto_programt.add, goto_programt.destructive_append, make_goto, goto_at,
            instructiont.default]
        rw [hshape, key]
        simp [handler_region, List.append_assoc]

theorem convert_try_catch_eq (convert : convertt) (code S : codet) (Hs : List codet)
    (dest S' : goto_programt) (mode : irep_idt) (self selfS self' : goto_convertt)
    (frags : List (goto_programt × Nat))
    (hops : code.operands = S :: Hs) (hn : Hs ≠ [])
    (hS : convert S (dest ++ [catch_push_initial self.next_address code.source_location]) mode
            self.allocated.allocated
          = .ok (dest ++ [catch_push_initial self.next_address code.source_location] ++ S',
                 selfS))
    (hH : lower_handlers convert mode Hs selfS.allocated.allocated = .ok (frags, self'))
    (huniq : ∀ i ∈ dest ++ S'
                ++ [catch_pop selfS.next_address,
                    goto_at (selfS.next_address + 1) (targett.instruction (self.next_address + 1))]
                ++ handler_region (targett.instruction (self.next_address + 1)) frags,
              i.address ≠ self.next_address) :
    convert_try_catch convert code dest mode self
      = .ok (dest
              ++ [catch_push self.next_address code.source_location
                    (frags.map (fun f => f.1.begin)) (Hs.map (fun b => b.get ID_exception_id))]
              ++ S'
              ++ [catch_pop selfS.next_address,
                  goto_at (selfS.next_address + 1) (targett.instruction (self.next_address + 1))]
              ++ handler_region (targett.instruction (self.next_address + 1)) frags
              ++ [skip_at (self.next_address + 1) none],
             self') := by
  have hlen : ¬ (code.operands.length < 2) := by
    rw [hops]
    cases Hs with
    | nil => exact absurd rfl hn
    | cons h t => simp
  have hop0 : code.op0 = S := by simp [codet.op0, hops]
  have hpush : goto_programt.add dest self.next_address
      { instructiont.default.make_catch with source_location := code.source_location }
      = dest ++ [catch_push_initial self.next_address code.source_location] := by
    simp [goto_programt.add, instructiont.make_catch, instructiont.default, catch_push_initial]
  unfold convert_try_catch
  rw [if_neg hlen]
  simp only [hop0, hpush, hS, hops, List.tail_cons]
  have hshape : goto_programt.add
        (goto_programt.add
          (dest ++ [catch_push_initial self.next_address code.source_location] ++ S')
          selfS.next_address { instructiont.default.make_catch with code := code_pop_catcht })
        selfS.allocated.next_address
        (make_goto (targett.instruction self.allocated.next_address) none)
      = dest ++ [catch_push_initial self.next_address code.source_location]
          ++ (S' ++ [catch_pop selfS.next_address,
                goto_at (selfS.next_address + 1) (targett.instruction (self.next_address + 1))]) := by
    simp [goto_programt.add, instructiont.make_catch, instructiont.default, catch_pop, goto_at,
      make_goto, goto_convertt.allocated]
  rw [hshape]
  have hend : self.allocated.next_address = self.next_address + 1 := rfl
  have key := convert_try_catch_handlers_eq convert self.next_address
    (targett.instruction (self.next_address + 1)) mode Hs [] dest
    (catch_push_initial self.next_address code.source_location)
    (S' ++ [catch_pop selfS.next_address,
        goto_at (selfS.next_address + 1) (targett.instruction (self.next_address + 1))])
    selfS.allocated.allocated self' frags rfl
    (by
      intro i hi
      apply huniq i
      simpa [List.append_assoc] using hi)
    hH
  rw [hend, key]
  have hd : ∀ i ∈ dest, i.address ≠ self.next_address := fun i hi => huniq i (by simp [hi])
  have hr : ∀ i ∈ S' ++ [catch_pop selfS.next_address,
        goto_at (selfS.next_address + 1) (targett.instruction (self.next_address + 1))]
        ++ handler_region (targett.instruction (self.next_address + 1)) frags,
      i.address ≠ self.next_address := fun i hi => huniq i (by
        simp only [List.mem_append] at hi ⊢
        tauto)
  have hu := update_middle dest
    (S' ++ [catch_pop selfS.next_address,
        goto_at (selfS.next_address + 1) (targett.instruction (self.next_address + 1))]
        ++ handler_region (targett.instruction (self.next_address + 1)) frags)
    { catch_push_initial self.next_address code.source_location with
      targets := (catch_push_initial self.next_address code.source_location).targets
        ++ frags.map (fun f => f.1.begin) }
    self.next_address
    (fun i => { i with code := code_push_catcht ([] ++ Hs.map (fun b => b.get ID_exception_id)) })
    hd hr rfl
  simp only [List.append_assoc] at hu ⊢
  rw [hu]
  simp [goto_programt.destructive_append, goto_programt.add, catch_push_initial, catch_push,
    make_skip, skip_at, instructiont.default]

theorem lower_handlers_length (convert : convertt) (mode : irep_idt) :
    ∀ (Hs : List codet) (self self' : goto_convertt) (frags : List (goto_programt × Nat)),
      lower_handlers convert mode Hs self = .ok (frags, self') → frags.length = Hs.length := by
  intro Hs
  induction Hs with
  | nil =>
    intro self self' frags h
    simp only [lower_handlers, Except.ok.injEq, Prod.mk.injEq] at h
    obtain ⟨h1, _⟩ := h
    subst h1
    rfl
  | cons block rest ih =>
    intro self self' frags h
    simp only [lower_handlers] at h
    cases hc : convert block [] mode self with
    | error err => simp [hc] at h
    | ok r =>
      simp only [hc] at h
      cases hr : lower_handlers convert mode rest r.2.allocated with
      | error err => simp [hr] at h
      | ok q =>
        simp only [hr, Except.ok.injEq, Prod.mk.injEq] at h
        rw [← h.1]
        simp [ih r.2.allocated q.2 q.1 (by rw [hr])]

theorem exception_list_code_push_catcht (l : List irep_idt) :
    (code_push_catcht l).exception_list = l := by
  have h : ∀ t : irep_idt, (exception_list_entryt t).get ID_tag = t := by
    intro t
    simp [exception_list_entryt, codet.get, codet.named_sub, List.lookup]
  simp only [code_push_catcht, codet.exception_list, code, codet.operands, List.map_map]
  conv_rhs => rw [← List.map_id l]
  apply List.map_congr_left
  intro t _
  exact h t

/-- C1: for a try_catch statement with guarded block `S` and handlers `Hs` (at least
one), `convert_try_catch` appends to `dest` exactly: the CATCH-push instruction, the
lowered `S`, the CATCH-pop instruction, a GOTO to END, then for each handler in
declaration order its lowered fragment followed by a GOTO to END, and last the SKIP
instruction END; every GOTO has the address of that final SKIP as its only target. -/
theorem convert_try_catch_emits (convert : convertt) (code S : codet) (Hs : List codet)
    (dest S' : goto_programt) (mode : irep_idt) (self selfS self' : goto_convertt)
    (frags : List (goto_programt × Nat))
    (hops : code.operands = S :: Hs) (hn : Hs ≠ [])
    (hS : convert S (dest ++ [catch_push_initial self.next_address code.source_location]) mode
            self.allocated.allocated
          = .ok (dest ++ [catch_push_initial self.next_address code.source_location] ++ S',
                 selfS))
    (hH : lower_handlers convert mode Hs selfS.allocated.allocated = .ok (frags, self'))
    (huniq : ∀ i ∈ dest ++ S'
                ++ [catch_pop selfS.next_address,
                    goto_at (selfS.next_address + 1) (targett.instruction (self.next_address + 1))]
                ++ handler_region (targett.instruction (self.next_address + 1)) frags,
              i.address ≠ self.next_address) :
    convert_try_catch convert code dest mode self
      = .ok (dest
              ++ [catch_push self.next_address code.source_location
                    (frags.map (fun f => f.1.begin)) (Hs.map (fun b => b.get ID_exception_id))]
              ++ S'
              ++ [catch_pop selfS.next_address,
                  goto_at (selfS.next_address + 1) (targett.instruction (self.next_address + 1))]
              ++ handler_region (targett.instruction (self.next_address + 1)) frags
              ++ [skip_at (self.next_address + 1) none],
             self') :=
  convert_try_catch_eq convert code S Hs dest S' mode self selfS self' frags hops hn hS hH huniq

/-- The shape of the output for `try { 1 } catch(KindA) { 2 } catch(KindB) { 3 }`. -/
theorem convert_try_catch_emits_witness :
    convert_try_catch (convert ordinary 1) sample_try_catch [] "C" initial_state
      = .ok ([catch_push 1 (some 7) [targett.instruction 6, targett.instruction 8]
                ["KindA", "KindB"],
              other_at 3 (expression_statement 1),
              catch_pop 4, goto_at 5 (targett.instruction 2),
              other_at 6 (handler "KindA" 2), goto_at 7 (targett.instruction 2),
              other_at 8 (handler "KindB" 3), goto_at 9 (targett.instruction 2),
              skip_at 2 none],
             initial_state_at 10) :=
  convert_try_catch_emits (convert ordinary 1) sample_try_catch (expression_statement 1)
    [handler "KindA" 2, handler "KindB" 3] [] [other_at 3 (expression_statement 1)] "C"
    initial_state (initial_state_at 4) (initial_state_at 10)
    [([other_at 6 (handler "KindA" 2)], 7), ([other_at 8 (handler "KindB" 3)], 9)]
    rfl (by simp) (by decide) (by decide) (by decide)
theorem getElem?_append_cons_length {α : Type} (l : List α) (a : α) (r : List α) :
    (l ++ a :: r)[l.length]? = some a := by
  induction l with
  | nil => simp
  | cons x xs ih => simpa using ih

/-- C2: for a try_catch statement with handlers `Hs`, after `convert_try_catch` the
CATCH-push instruction (the instruction appended first) has a target list and an
exception list both of length `Hs.length`, which is the operand count minus one, and
the `i`-th entry of the exception list is the `exception_id` of the `i`-th handler
operand. -/
theorem convert_try_catch_push_lists (convert : convertt) (code S : codet) (Hs : List codet)
    (dest S' : goto_programt) (mode : irep_idt) (self selfS self' : goto_convertt)
    (frags : List (goto_programt × Nat))
    (hops : code.operands = S :: Hs) (hn : Hs ≠ [])
    (hS : convert S (dest ++ [catch_push_initial self.next_address code.source_location]) mode
            self.allocated.allocated
          = .ok (dest ++ [catch_push_initial self.next_address code.source_location] ++ S',
                 selfS))
    (hH : lower_handlers convert mode Hs selfS.allocated.allocated = .ok (frags, self'))
    (huniq : ∀ i ∈ dest ++ S'
                ++ [catch_pop selfS.next_address,
                    goto_at (selfS.next_address + 1) (targett.instruction (self.next_address + 1))]
                ++ handler_region (targett.instruction (self.next_address + 1)) frags,
              i.address ≠ self.next_address) :
    ∃ (dest' : goto_programt) (push : instructiont),
      convert_try_catch convert code dest mode self = .ok (dest', self')
      ∧ dest'[dest.length]? = some push
      ∧ push.address = self.next_address
      ∧ push.type = CATCH
      ∧ push.targets.length = Hs.length
      ∧ push.code.exception_list.length = Hs.length
      ∧ Hs.length = code.operands.length - 1
      ∧ ∀ i : Nat, push.code.exception_list[i]?
          = (code.operands[i + 1]?).map (fun b => b.get ID_exception_id) := by
  refine ⟨_, catch_push self.next_address code.source_location
      (frags.map (fun f => f.1.begin)) (Hs.map (fun b => b.get ID_exception_id)),
    convert_try_catch_eq convert code S Hs dest S' mode self selfS self' frags hops hn hS hH
      huniq, ?_, rfl, rfl, ?_, ?_, ?_, ?_⟩
  · simp only [List.append_assoc, List.singleton_append]
    exact getElem?_append_cons_length dest _ _
  · simp [catch_push, lower_handlers_length convert mode Hs _ _ _ hH]
  · simp [catch_push, exception_list_code_push_catcht]
  · simp [hops]
  · intro i
    simp [catch_push, exception_list_code_push_catcht, hops]

/-- The lists of the CATCH-push instruction for `try { 1 } catch(KindA) { 2 } catch(KindB) { 3 }`. -/
theorem convert_try_catch_push_lists_witness :
    ∃ (dest' : goto_programt) (push : instructiont),
      convert_try_catch (convert ordinary 1) sample_try_catch [] "C" initial_state
        = .ok (dest', initial_state_at 10)
      ∧ dest'[([] : goto_programt).length]? = some push
      ∧ push.address = initial_state.next_address
      ∧ push.type = CATCH
      ∧ push.targets.length = [handler "KindA" 2, handler "KindB" 3].length
      ∧ push.code.exception_list.length = [handler "KindA" 2, handler "KindB" 3].length
      ∧ [handler "KindA" 2, handler "KindB" 3].length = sample_try_catch.operands.length - 1
      ∧ ∀ i : Nat, push.code.exception_list[i]?
          = (sample_try_catch.operands[i + 1]?).map (fun b => b.get ID_exception_id) :=
  convert_try_catch_push_lists (convert ordinary 1) sample_try_catch (expression_statement 1)
    [handler "KindA" 2, handler "KindB" 3] [] [other_at 3 (expression_statement 1)] "C"
    initial_state (initial_state_at 4) (initial_state_at 10)
    [([other_at 6 (handler "KindA" 2)], 7), ([other_at 8 (handler "KindB" 3)], 9)]
    rfl (by simp) (by decide) (by decide) (by decide)

/-- With the sample collaborator, which emits nothing for an empty block, the handler of
`try { 1 } catch(KindA) { }` lowers to the empty fragment: the target recorded for it on
the CATCH-push instruction is the `begin()` of that fragment, its past-the-end position,
which denotes no instruction of the output. -/
theorem convert_try_catch_empty_handler_target :
    convert ordinary 1 (empty_handler "KindA") [] "C" (initial_state_at 6)
      = .ok ([], initial_state_at 6)
    ∧ ∃ (dest' : goto_programt) (push : instructiont),
        convert_try_catch (convert ordinary 1) sample_try_catch_empty [] "C" initial_state
          = .ok (dest', initial_state_at 7)
        ∧ dest'[0]? = some push
        ∧ push.type = CATCH
        ∧ push.targets = [targett.past_the_end]
        ∧ goto_programt.position dest' targett.past_the_end = none
        ∧ ¬ ∃ first ∈ dest', push.targets[0]? = some (targett.instruction first.address) := by
  refine ⟨by decide,
    [catch_push 1 (some 7) [targett.past_the_end] ["KindA"],
      other_at 3 (expression_statement 1), catch_pop 4, goto_at 5 (targett.instruction 2),
      goto_at 6 (targett.instruction 2), skip_at 2 none],
    catch_push 1 (some 7) [targett.past_the_end] ["KindA"],
    by decide, by decide, by decide, by decide, by decide, by decide⟩

/-! ## Platform try/finally and leave -/

theorem convert_msc_try_finally_eq (convert : convertt) (code S F : codet)
    (dest : goto_programt) (mode : irep_idt) (self : goto_convertt)
    (hops : code.operands = [S, F]) :
    convert_msc_try_finally convert code dest mode self
      = match convert S dest mode (msc_try_state self F) with
        | .error e => .error e
        | .ok r =>
          match convert F r.1 mode (msc_finally_state self r.2) with
          | .error e => .error e
          | .ok q => .ok (q.1 ++ [skip_at self.next_address code.source_location], q.2) := by
  have hlen : ¬ (code.operands.length ≠ 2) := by simp [hops]
  have hop0 : code.op0 = S := by simp [codet.op0, hops]
  have hop1 : code.op1 = F := by simp [codet.op1, hops]
  unfold convert_msc_try_finally
  rw [if_neg hlen]
  simp only [hop0, hop1]
  rfl

theorem convert_msc_leave_eq (convert : convertt) (code : codet) (dest : goto_programt)
    (mode : irep_idt) (self : goto_convertt) (hset : self.targets.leave_set = true) :
    convert_msc_leave convert code dest mode self
      = match unwind_each convert code.source_location mode
            (self.targets.destructor_stack.get_destructors
              (some self.targets.leave_stack_node) none) dest self with
        | .error e => .error e
        | .ok r =>
          .ok (r.1 ++ [goto_located r.2.next_address r.2.targets.leave_target
                        code.source_location], r.2.allocated) := by
  unfold convert_msc_leave
  rw [if_neg (by simp [hset])]
  simp only [unwind_destructor_stack, unwind_destructor_stack_on]
  cases unwind_each convert code.source_location mode
      (self.targets.destructor_stack.get_destructors
        (some self.targets.leave_stack_node) none) dest self with
  | error e => rfl
  | ok r => rfl

theorem get_destructors_add (t : destructor_treet) (c : codet) (e : node_indext)
    (he : e ≤ t.nodes.length) :
    (t.add c).get_destructors (some e) none = c :: t.get_destructors (some e) none := by
  have h : t.nodes.length + 1 ≠ e := Nat.ne_of_gt (Nat.lt_succ_of_le he)
  simp [destructor_treet.get_destructors, destructor_treet.add, destructors_between, h]

theorem get_destructors_add_root (t : destructor_treet) (c : codet) :
    (t.add c).get_destructors none none = c :: t.get_destructors none none := by
  simp [destructor_treet.get_destructors, destructor_treet.add, destructors_between]

theorem destructors_between_self :
    ∀ (nodes : List destructor_nodet) (n : node_indext), destructors_between nodes n n = [] := by
  intro nodes
  induction nodes with
  | nil => intro n; rfl
  | cons x xs ih => intro n; simp [destructors_between]

theorem unwind_each_preserves {α : Type} (proj : goto_convertt → α) (convert : convertt)
    (location : source_locationt) (mode : irep_idt)
    (h : ∀ c d s q, convert c d mode s = .ok q → proj q.2 = proj s) :
    ∀ (stack : List codet) (dest : goto_programt) (self : goto_convertt)
      (r : goto_programt × goto_convertt),
      unwind_each convert location mode stack dest self = .ok r → proj r.2 = proj self := by
  intro stack
  induction stack with
  | nil =>
    intro dest self r hr
    simp only [unwind_each, Except.ok.injEq] at hr
    rw [← hr]
  | cons c cs ih =>
    intro dest self r hr
    simp only [unwind_each] at hr
    cases hc : convert (c.add_source_location location) dest mode self with
    | error e => simp [hc] at hr
    | ok q =>
      simp only [hc] at hr
      rw [ih q.1 q.2 r hr, h _ _ _ _ hc]

/-- C5: for a two-operand msc_try_finally statement with guarded block `S` and finally
block `F`, `convert_msc_try_finally` appends to `dest` exactly the lowering of `S`, then
the lowering of `F`, then the join SKIP as last instruction.  `S` is lowered in a state
where `F` is the innermost registered cleanup and the join is the leave target; the join
carries the statement's source location; and a leave lowered in that state ends with a
GOTO to the join. -/
theorem convert_msc_try_finally_emits (convert : convertt) (code S F : codet)
    (dest S' F' : goto_programt) (mode : irep_idt) (self selfS selfF : goto_convertt)
    (hops : code.operands = [S, F])
    (hS : convert S dest mode (msc_try_state self F) = .ok (dest ++ S', selfS))
    (hF : convert F (dest ++ S') mode (msc_finally_state self selfS)
          = .ok (dest ++ S' ++ F', selfF)) :
    convert_msc_try_finally convert code dest mode self
      = .ok (dest ++ S' ++ F' ++ [skip_at self.next_address code.source_location], selfF)
    ∧ (skip_at self.next_address code.source_location).source_location = code.source_location
    ∧ (msc_try_state self F).targets.leave_set = true
    ∧ (msc_try_state self F).targets.leave_target
        = targett.instruction (skip_at self.next_address code.source_location).address
    ∧ (msc_try_state self F).targets.destructor_stack.get_destructors none none
        = F :: self.targets.destructor_stack.get_destructors none none
    ∧ ∀ (convert' : convertt) (lv : codet) (d : goto_programt)
        (r : goto_programt × goto_convertt),
        (∀ c d0 s0 q, convert' c d0 mode s0 = .ok q
          → q.2.targets.leave_target = s0.targets.leave_target) →
        convert_msc_leave convert' lv d mode (msc_try_state self F) = .ok r →
        ∃ (pre : goto_programt) (a : Nat),
          r.1 = pre ++ [goto_located a
                  (targett.instruction (skip_at self.next_address code.source_location).address)
                  lv.source_location] := by
  refine ⟨?_, rfl, rfl, rfl, ?_, ?_⟩
  · rw [convert_msc_try_finally_eq convert code S F dest mode self hops]
    simp only [hS, hF]
  · exact get_destructors_add_root _ _
  · intro convert' lv d r hkeep hr
    rw [convert_msc_leave_eq convert' lv d mode (msc_try_state self F) rfl] at hr
    cases hu : unwind_each convert' lv.source_location mode
        ((msc_try_state self F).targets.destructor_stack.get_destructors
          (some (msc_try_state self F).targets.leave_stack_node) none) d
        (msc_try_state self F) with
    | error e => simp [hu] at hr
    | ok q =>
      simp only [hu, Except.ok.injEq] at hr
      have hl := unwind_each_preserves (fun s => s.targets.leave_target) convert'
        lv.source_location mode hkeep _ _ _ _ hu
      refine ⟨q.1, q.2.next_address, ?_⟩
      rw [← hr]
      simp only at hl
      rw [hl]
      rfl

/-- The output for `try { 1 } finally { 2 }`. -/
theorem convert_msc_try_finally_emits_witness :
    convert_msc_try_finally (convert ordinary 1) sample_msc_try_finally [] "C" initial_state
      = .ok ([] ++ [other_at 2 (expression_statement 1)] ++ [other_at 3 (expression_statement 2)]
              ++ [skip_at initial_state.next_address sample_msc_try_finally.source_location],
             (msc_finally_state initial_state
               (msc_try_state initial_state (expression_statement 2)).allocated).allocated)
    ∧ (skip_at initial_state.next_address sample_msc_try_finally.source_location).source_location
        = sample_msc_try_finally.source_location
    ∧ (msc_try_state initial_state (expression_statement 2)).targets.leave_set = true
    ∧ (msc_try_state initial_state (expression_statement 2)).targets.leave_target
        = targett.instruction
            (skip_at initial_state.next_address sample_msc_try_finally.source_location).address
    ∧ (msc_try_state initial_state
          (expression_statement 2)).targets.destructor_stack.get_destructors none none
        = expression_statement 2
            :: initial_state.targets.destructor_stack.get_destructors none none
    ∧ ∀ (convert' : convertt) (lv : codet) (d : goto_programt)
        (r : goto_programt × goto_convertt),
        (∀ c d0 s0 q, convert' c d0 "C" s0 = .ok q
          → q.2.targets.leave_target = s0.targets.leave_target) →
        convert_msc_leave convert' lv d "C" (msc_try_state initial_state (expression_statement 2))
          = .ok r →
        ∃ (pre : goto_programt) (a : Nat),
          r.1 = pre ++ [goto_located a
                  (targett.instruction
                    (skip_at initial_state.next_address
                      sample_msc_try_finally.source_location).address)
                  lv.source_location] :=
  convert_msc_try_finally_emits (convert ordinary 1) sample_msc_try_finally
    (expression_statement 1) (expression_statement 2) []
    [other_at 2 (expression_statement 1)] [other_at 3 (expression_statement 2)] "C"
    initial_state
    (msc_try_state initial_state (expression_statement 2)).allocated
    (msc_finally_state initial_state
      (msc_try_state initial_state (expression_statement 2)).allocated).allocated
    rfl (by decide) (by decide)

theorem convert_leave_dispatch (other : collaboratort) (fuel : Nat) (lv : codet)
    (dest : goto_programt) (mode : irep_idt) (self : goto_convertt)
    (hlv : lv.get_statement = ID_msc_leave) :
    convert other (fuel + 1) lv dest mode self
      = convert_msc_leave (convert other fuel) lv dest mode self := by
  have h1 : ID_msc_leave ≠ ID_msc_try_finally := by decide
  have h2 : ID_msc_leave ≠ ID_msc_try_except := by decide
  simp only [convert, hlv, if_neg h1, if_neg h2, if_true]

theorem msc_try_state_unwind_list (self : goto_convertt) (F : codet)
    (hcur : self.targets.destructor_stack.current_node
              ≤ self.targets.destructor_stack.nodes.length) :
    (msc_try_state self F).targets.destructor_stack.get_destructors
        (some (msc_try_state self F).targets.leave_stack_node) none = [F] := by
  simp only [msc_try_state]
  rw [get_destructors_add _ _ _ hcur]
  simp [destructor_treet.get_destructors, destructors_between_self]

theorem msc_try_state_leave (other : collaboratort) (fuel : Nat) (lv F : codet)
    (dest Fu : goto_programt) (mode : irep_idt) (self selfU : goto_convertt)
    (hlv : lv.get_statement = ID_msc_leave)
    (hcur : self.targets.destructor_stack.current_node
              ≤ self.targets.destructor_stack.nodes.length)
    (hU : convert other fuel (F.add_source_location lv.source_location) dest mode
            (msc_try_state self F) = .ok (dest ++ Fu, selfU))
    (hUl : selfU.targets.leave_target = (msc_try_state self F).targets.leave_target) :
    convert other (fuel + 1) lv dest mode (msc_try_state self F)
      = .ok (dest ++ Fu ++ [goto_located selfU.next_address
                (targett.instruction self.next_address) lv.source_location],
             selfU.allocated) := by
  rw [convert_leave_dispatch other fuel lv dest mode _ hlv,
    convert_msc_leave_eq _ lv dest mode (msc_try_state self F) rfl,
    msc_try_state_unwind_list self F hcur]
  simp only [unwind_each, hU, hUl]
  rfl

/-- C6: lowering `try { leave; } finally { F }` inside an enclosing leave target `L`:
the cleanups the leave unwinds are exactly `[F]`, so the guarded block's leave lowers to
the lowered `F` followed by one GOTO; the GOTO's target is the address of the
construct's own join, the SKIP that ends the construct's output, and is not `L`. -/
theorem msc_try_finally_leave_lowering (other : collaboratort) (fuel : Nat)
    (code lv F : codet) (dest Fu F' : goto_programt) (mode : irep_idt)
    (self selfU selfF : goto_convertt)
    (hops : code.operands = [lv, F])
    (hlv : lv.get_statement = ID_msc_leave)
    (hset : self.targets.leave_set = true)
    (hLold : ∀ a, self.targets.leave_target = targett.instruction a → a < self.next_address)
    (hcur : self.targets.destructor_stack.current_node
              ≤ self.targets.destructor_stack.nodes.length)
    (hU : convert other fuel (F.add_source_location lv.source_location) dest mode
            (msc_try_state self F) = .ok (dest ++ Fu, selfU))
    (hUl : selfU.targets.leave_target = (msc_try_state self F).targets.leave_target)
    (hF : convert other (fuel + 1) F
            (dest ++ Fu ++ [goto_located selfU.next_address
                (targett.instruction self.next_address) lv.source_location])
            mode (msc_finally_state self selfU.allocated)
          = .ok (dest ++ Fu ++ [goto_located selfU.next_address
                    (targett.instruction self.next_address) lv.source_location] ++ F',
                 selfF)) :
    (msc_try_state self F).targets.destructor_stack.get_destructors
        (some (msc_try_state self F).targets.leave_stack_node) none = [F]
    ∧ convert other (fuel + 1) lv dest mode (msc_try_state self F)
        = .ok (dest ++ Fu ++ [goto_located selfU.next_address
                  (targett.instruction self.next_address) lv.source_location],
               selfU.allocated)
    ∧ convert_msc_try_finally (convert other (fuel + 1)) code dest mode self
        = .ok (dest ++ Fu
                ++ [goto_located selfU.next_address
                      (targett.instruction (skip_at self.next_address code.source_location).address)
                      lv.source_location]
                ++ F' ++ [skip_at self.next_address code.source_location],
               selfF)
    ∧ targett.instruction (skip_at self.next_address code.source_location).address
        ≠ self.targets.leave_target := by
  have _ := hset
  have hleave := msc_try_state_leave other fuel lv F dest Fu mode self selfU hlv hcur hU hUl
  refine ⟨msc_try_state_unwind_list self F hcur, hleave, ?_, ?_⟩
  · rw [convert_msc_try_finally_eq _ code lv F dest mode self hops]
    simp only [hleave, hF]
    rfl
  · intro h
    have := hLold self.next_address h.symm
    simp [skip_at] at this

/-- The lowering of the leave of `try { leave; } finally { 2 }` inside an enclosing scope. -/
theorem msc_try_finally_leave_lowering_witness :
    (msc_try_state enclosed_state (expression_statement 2)).targets.destructor_stack.get_destructors
        (some (msc_try_state enclosed_state (expression_statement 2)).targets.leave_stack_node)
        none = [expression_statement 2]
    ∧ convert ordinary (1 + 1) sample_leave [] "C"
          (msc_try_state enclosed_state (expression_statement 2))
        = .ok ([] ++ [other_at 3 ((expression_statement 2).add_source_location (some 50))]
                ++ [goto_located
                      (msc_try_state enclosed_state (expression_statement 2)).allocated.next_address
                      (targett.instruction enclosed_state.next_address)
                      sample_leave.source_location],
               (msc_try_state enclosed_state (expression_statement 2)).allocated.allocated)
    ∧ convert_msc_try_finally (convert ordinary (1 + 1)) sample_try_leave_finally [] "C"
          enclosed_state
        = .ok ([] ++ [other_at 3 ((expression_statement 2).add_source_location (some 50))]
                ++ [goto_located
                      (msc_try_state enclosed_state (expression_statement 2)).allocated.next_address
                      (targett.instruction
                        (skip_at enclosed_state.next_address
                          sample_try_leave_finally.source_location).address)
                      sample_leave.source_location]
                ++ [other_at 5 (expression_statement 2)]
                ++ [skip_at enclosed_state.next_address
                      sample_try_leave_finally.source_location],
               (msc_finally_state enclosed_state
                 (msc_try_state enclosed_state
                   (expression_statement 2)).allocated.allocated).allocated)
    ∧ targett.instruction
          (skip_at enclosed_state.next_address sample_try_leave_finally.source_location).address
        ≠ enclosed_state.targets.leave_target :=
  msc_try_finally_leave_lowering ordinary 1 sample_try_leave_finally sample_leave
    (expression_statement 2) []
    [other_at 3 ((expression_statement 2).add_source_location (some 50))]
    [other_at 5 (expression_statement 2)] "C" enclosed_state
    (msc_try_state enclosed_state (expression_statement 2)).allocated
    (msc_finally_state enclosed_state
      (msc_try_state enclosed_state (expression_statement 2)).allocated.allocated).allocated
    rfl (by decide) rfl (by intro a h; cases h; decide) (by decide) (by decide) rfl (by decide)

/-- C7, as amended: in the output of `convert_msc_try_finally` for
`try { leave; } finally { F }` the leave's GOTO is followed by the lowered `F` again (the
normal-path copy) and then by the construct's own join, which is the instruction the
GOTO targets and the last instruction of the output. -/
theorem msc_try_finally_leave_output (other : collaboratort) (fuel : Nat)
    (code lv F : codet) (dest Fu F' : goto_programt) (mode : irep_idt)
    (self selfU selfF : goto_convertt)
    (hops : code.operands = [lv, F])
    (hlv : lv.get_statement = ID_msc_leave)
    (hcur : self.targets.destructor_stack.current_node
              ≤ self.targets.destructor_stack.nodes.length)
    (hU : convert other fuel (F.add_source_location lv.source_location) dest mode
            (msc_try_state self F) = .ok (dest ++ Fu, selfU))
    (hUl : selfU.targets.leave_target = (msc_try_state self F).targets.leave_target)
    (hF : convert other (fuel + 1) F
            (dest ++ Fu ++ [goto_located selfU.next_address
                (targett.instruction self.next_address) lv.source_location])
            mode (msc_finally_state self selfU.allocated)
          = .ok (dest ++ Fu ++ [goto_located selfU.next_address
                    (targett.instruction self.next_address) lv.source_location] ++ F',
                 selfF)) :
    ∃ (dest' : goto_programt) (g join : instructiont),
      convert_msc_try_finally (convert other (fuel + 1)) code dest mode self
        = .ok (dest', selfF)
      ∧ dest' = dest ++ Fu ++ [g] ++ F' ++ [join]
      ∧ g.type = GOTO
      ∧ g.targets = [targett.instruction join.address]
      ∧ join.type = SKIP
      ∧ join.source_location = code.source_location
      ∧ dest'.getLast? = some join := by
  have hleave := msc_try_state_leave other fuel lv F dest Fu mode self selfU hlv hcur hU hUl
  refine ⟨_, goto_located selfU.next_address (targett.instruction self.next_address)
      lv.source_location, skip_at self.next_address code.source_location, ?_, rfl, rfl, rfl,
    rfl, rfl, ?_⟩
  · rw [convert_msc_try_finally_eq _ code lv F dest mode self hops]
    simp only [hleave, hF]
  · exact List.getLast?_concat _

/-- The output for `try { leave; } finally { 2 }` inside an enclosing scope. -/
theorem msc_try_finally_leave_output_witness :
    ∃ (dest' : goto_programt) (g join : instructiont),
      convert_msc_try_finally (convert ordinary (1 + 1)) sample_try_leave_finally [] "C"
          enclosed_state
        = .ok (dest',
               (msc_finally_state enclosed_state
                 (msc_try_state enclosed_state
                   (expression_statement 2)).allocated.allocated).allocated)
      ∧ dest' = [] ++ [other_at 3 ((expression_statement 2).add_source_location (some 50))]
                  ++ [g] ++ [other_at 5 (expression_statement 2)] ++ [join]
      ∧ g.type = GOTO
      ∧ g.targets = [targett.instruction join.address]
      ∧ join.type = SKIP
      ∧ join.source_location = sample_try_leave_finally.source_location
      ∧ dest'.getLast? = some join :=
  msc_try_finally_leave_output ordinary 1 sample_try_leave_finally sample_leave
    (expression_statement 2) []
    [other_at 3 ((expression_statement 2).add_source_location (some 50))]
    [other_at 5 (expression_statement 2)] "C" enclosed_state
    (msc_try_state enclosed_state (expression_statement 2)).allocated
    (msc_finally_state enclosed_state
      (msc_try_state enclosed_state (expression_statement 2)).allocated.allocated).allocated
    rfl (by decide) (by decide) (by decide) rfl (by decide)

/-- C7, as stated, fails: lowering `try { leave; } finally { 2 }` gives four
instructions; the leave's GOTO (position 1) targets the SKIP at position 3, which is the
construct's own join and the last instruction: nothing follows it, and the normal-path
copy of the finally block stands before it, at position 2. -/
theorem msc_try_finally_leave_join_is_last :
    ∃ (dest' : goto_programt) (self' : goto_convertt) (g : instructiont) (t : targett),
      convert_msc_try_finally (convert ordinary 2) sample_try_leave_finally [] "C"
          enclosed_state = .ok (dest', self')
      ∧ dest' = [other_at 3 ((expression_statement 2).add_source_location (some 50)),
                 goto_located 4 (targett.instruction 2) (some 50),
                 other_at 5 (expression_statement 2),
                 skip_at 2 (some 70)]
      ∧ dest'[1]? = some g
      ∧ g.type = GOTO
      ∧ g.targets = [t]
      ∧ goto_programt.position dest' t = some 3
      ∧ dest'[3 + 1]? = none
      ∧ dest'[2]? = some (other_at 5 (expression_statement 2)) := by
  refine ⟨_,
    (msc_finally_state enclosed_state
      (msc_try_state enclosed_state (expression_statement 2)).allocated.allocated).allocated,
    goto_located 4 (targett.instruction 2) (some 50), targett.instruction 2,
    by decide, rfl, by decide, by decide, by decide, by decide, by decide, by decide⟩

/-! ## Unwinding -/

theorem unwind_each_eq (convert : convertt) (location : source_locationt) (mode : irep_idt) :
    ∀ (stack : List codet) (frags : List goto_programt) (dest : goto_programt)
      (self self' : goto_convertt),
      lowered_in_order convert mode (stack.map (fun c => c.add_source_location location))
        frags dest self self' →
      unwind_each convert location mode stack dest self
        = .ok (dest ++ concat_fragments frags, self') := by
  intro stack
  induction stack with
  | nil =>
    intro frags dest self self' h
    cases frags with
    | nil =>
      simp only [List.map_nil, lowered_in_order] at h
      simp [unwind_each, concat_fragments, h]
    | cons f fs => simp [lowered_in_order] at h
  | cons c cs ih =>
    intro frags dest self self' h
    cases frags with
    | nil => simp [lowered_in_order] at h
    | cons f fs =>
      simp only [List.map_cons, lowered_in_order] at h
      obtain ⟨s1, h1, h2⟩ := h
      simp only [unwind_each, h1]
      rw [ih fs (dest ++ f) s1 self' h2]
      simp [concat_fragments]

/-- C8: `unwind_destructor_stack` emits the concatenation of the lowered cleanups in
exactly the order of the list `get_destructors` returns for the given end and start
nodes, each cleanup carrying the location argument, and reports whether the list was
non-empty.  On a stack on which `C1` was registered and then `C2`, that list from the
current node starts `C2, C1`: the inner cleanup is lowered before the outer one. -/
theorem unwind_destructor_stack_order (convert : convertt) (location : source_locationt)
    (dest : goto_programt) (mode : irep_idt)
    (destructor_end_point destructor_start_point : Option node_indext)
    (self self' : goto_convertt) (frags : List goto_programt)
    (h : lowered_in_order convert mode
          ((self.targets.destructor_stack.get_destructors destructor_end_point
              destructor_start_point).map (fun c => c.add_source_location location))
          frags dest self self') :
    unwind_destructor_stack convert location dest mode destructor_end_point
        destructor_start_point self
      = .ok (!(self.targets.destructor_stack.get_destructors destructor_end_point
                destructor_start_point).isEmpty,
             dest ++ concat_fragments frags, self')
    ∧ (∀ (t : destructor_treet) (C1 C2 : codet),
        ((t.add C1).add C2).get_destructors none none
          = C2 :: C1 :: t.get_destructors none none)
    ∧ (∀ (t : destructor_treet) (C1 C2 : codet) (e : node_indext), e ≤ t.nodes.length →
        ((t.add C1).add C2).get_destructors (some e) none
          = C2 :: C1 :: t.get_destructors (some e) none) := by
  refine ⟨?_, ?_, ?_⟩
  · simp only [unwind_destructor_stack, unwind_destructor_stack_on]
    rw [unwind_each_eq convert location mode _ frags dest self self' h]
  · intro t C1 C2
    rw [get_destructors_add_root, get_destructors_add_root]
  · intro t C1 C2 e he
    have he' : e ≤ (t.add C1).nodes.length := Nat.le_succ_of_le he
    rw [get_destructors_add _ _ _ he', get_destructors_add _ _ _ he]

/-- Unwinding a stack with cleanup `1` registered before cleanup `2` lowers `2` first. -/
theorem unwind_destructor_stack_order_witness :
    unwind_destructor_stack (convert ordinary 1) (some 60) [] "C" none none two_cleanups_state
      = .ok (!(two_cleanups_state.targets.destructor_stack.get_destructors none none).isEmpty,
             [] ++ concat_fragments
               [[other_at 1 ((expression_statement 2).add_source_location (some 60))],
                [other_at 2 ((expression_statement 1).add_source_location (some 60))]],
             two_cleanups_state.allocated.allocated)
    ∧ (∀ (t : destructor_treet) (C1 C2 : codet),
        ((t.add C1).add C2).get_destructors none none
          = C2 :: C1 :: t.get_destructors none none)
    ∧ (∀ (t : destructor_treet) (C1 C2 : codet) (e : node_indext), e ≤ t.nodes.length →
        ((t.add C1).add C2).get_destructors (some e) none
          = C2 :: C1 :: t.get_destructors (some e) none) :=
  unwind_destructor_stack_order (convert ordinary 1) (some 60) [] "C" none none
    two_cleanups_state two_cleanups_state.allocated.allocated
    [[other_at 1 ((expression_statement 2).add_source_location (some 60))],
     [other_at 2 ((expression_statement 1).add_source_location (some 60))]]
    ⟨two_cleanups_state.allocated, by decide, two_cleanups_state.allocated.allocated,
      by decide, rfl⟩

/-! ## Restoration of the ambient targets -/

theorem exception_flag_targets (mode : irep_idt) (self : goto_convertt) :
    (exception_flag mode self).2.targets = self.targets := by
  simp only [exception_flag]
  cases symbol_tablet.find self.symbol_table "$exception_flag" <;> rfl

theorem exception_flag_next_address (mode : irep_idt) (self : goto_convertt) :
    (exception_flag mode self).2.next_address = self.next_address := by
  simp only [exception_flag]
  cases symbol_tablet.find self.symbol_table "$exception_flag" <;> rfl

theorem destructors_between_extend (nodes : List destructor_nodet) (c e : node_indext)
    (hc : c ≤ nodes.length) :
    ∀ ext : List destructor_nodet,
      destructors_between (ext ++ nodes) c e = destructors_between nodes c e := by
  intro ext
  induction ext with
  | nil => rfl
  | cons x xs ih =>
    by_cases hce : c = e
    · subst hce
      rw [destructors_between_self, destructors_between_self]
    · have hne : c ≠ (xs ++ nodes).length + 1 := by
        have : nodes.length ≤ (xs ++ nodes).length := by simp
        exact Nat.ne_of_lt (Nat.lt_succ_of_le (Nat.le_trans hc this))
      have hstep : destructors_between (x :: (xs ++ nodes)) c e
          = destructors_between (xs ++ nodes) c e := by
        simp only [destructors_between, if_neg hce, if_neg hne]
      rw [List.cons_append, hstep]
      exact ih

theorem get_destructors_extend (t t' : destructor_treet) (ext : List destructor_nodet)
    (hn : t'.nodes = ext ++ t.nodes) (hcur : t'.current_node = t.current_node)
    (hc : t.current_node ≤ t.nodes.length) :
    t'.get_destructors none none = t.get_destructors none none := by
  simp only [destructor_treet.get_destructors, Option.getD_none, hn, hcur]
  exact destructors_between_extend t.nodes t.current_node 0 hc ext

theorem convert_ordinary_expression (n : Nat) (d : goto_programt) (m : irep_idt)
    (s : goto_convertt) :
    convert ordinary 1 (expression_statement n) d m s
      = .ok (d ++ [other_at s.next_address (expression_statement n)], s.allocated) := by
  have h : (expression_statement n).get_statement = "expression" := rfl
  have h1 : ("expression" : irep_idt) ≠ ID_msc_try_finally := by decide
  have h2 : ("expression" : irep_idt) ≠ ID_msc_try_except := by decide
  have h3 : ("expression" : irep_idt) ≠ ID_msc_leave := by decide
  have h4 : ("expression" : irep_idt) ≠ ID_try_catch := by decide
  have h5 : ("expression" : irep_idt) ≠ ID_CPROVER_try_catch := by decide
  have h6 : ("expression" : irep_idt) ≠ ID_CPROVER_throw := by decide
  have h7 : ("expression" : irep_idt) ≠ ID_CPROVER_try_finally := by decide
  have h8 : ("expression" : irep_idt) ≠ ID_block := by decide
  simp only [convert, ordinary, h, if_neg h1, if_neg h2, if_neg h3, if_neg h4, if_neg h5,
    if_neg h6, if_neg h7, if_neg h8]
  rfl

theorem keeps_current_node_expression (n : Nat) (m : irep_idt) :
    keeps_current_node (convert ordinary 1) (expression_statement n) m := by
  intro d s q h
  rw [convert_ordinary_expression, Except.ok.injEq] at h
  subst h
  rfl

theorem grows_arena_expression (n : Nat) (m : irep_idt) :
    grows_arena (convert ordinary 1) (expression_statement n) m := by
  intro d s q h
  rw [convert_ordinary_expression, Except.ok.injEq] at h
  subst h
  exact ⟨[], rfl⟩

/-- C10: for `convert_msc_try_finally`, `convert_CPROVER_try_catch` and
`convert_CPROVER_try_finally` the current destructor-stack node after the call is the
one before the call, whatever the lowering of the guarded block did to it, given that
lowering the fall-through finally block keeps the current node; and, the nested
lowerings only adding nodes to the tree, the cleanups on the path from the current node
to the root are again exactly those before the call: the cleanup the construct
registered is not among them. -/
theorem destructor_stack_restored (convert : convertt) (codeA codeB codeC : codet)
    (dest : goto_programt) (mode : irep_idt) (self : goto_convertt)
    (rA rB rC : goto_programt × goto_convertt)
    (hkeepA : keeps_current_node convert codeA.op1 mode)
    (hkeepC : keeps_current_node convert codeC.op1 mode)
    (hgrowA0 : grows_arena convert codeA.op0 mode)
    (hgrowA1 : grows_arena convert codeA.op1 mode)
    (hgrowB0 : grows_arena convert codeB.op0 mode)
    (hgrowC0 : grows_arena convert codeC.op0 mode)
    (hgrowC1 : grows_arena convert codeC.op1 mode)
    (hvalid : self.targets.destructor_stack.current_node
                ≤ self.targets.destructor_stack.nodes.length)
    (hA : convert_msc_try_finally convert codeA dest mode self = .ok rA)
    (hB : convert_CPROVER_try_catch convert codeB dest mode self = .ok rB)
    (hC : convert_CPROVER_try_finally convert codeC dest mode self = .ok rC) :
    (rA.2.targets.destructor_stack.current_node = self.targets.destructor_stack.current_node
      ∧ rA.2.targets.destructor_stack.get_destructors none none
          = self.targets.destructor_stack.get_destructors none none)
    ∧ (rB.2.targets.destructor_stack.current_node
          = self.targets.destructor_stack.current_node
      ∧ rB.2.targets.destructor_stack.get_destructors none none
          = self.targets.destructor_stack.get_destructors none none)
    ∧ (rC.2.targets.destructor_stack.current_node
          = self.targets.destructor_stack.current_node
      ∧ rC.2.targets.destructor_stack.get_destructors none none
          = self.targets.destructor_stack.get_destructors none none) := by
  refine ⟨?_, ?_, ?_⟩
  · unfold convert_msc_try_finally at hA
    split at hA
    · simp at hA
    · simp only at hA
      split at hA
      · simp at hA
      · rename_i r1 h1
        split at hA
        · simp at hA
        · rename_i r2 h2
          simp only [Except.ok.injEq] at hA
          subst hA
          have k2 := hkeepA _ _ _ h2
          obtain ⟨e1, g1⟩ := hgrowA0 _ _ _ h1
          obtain ⟨e2, g2⟩ := hgrowA1 _ _ _ h2
          simp only [leave_targett.restore, destructor_treet.set_current_node,
            destructor_treet.get_current_node, targetst.set_leave,
            goto_convertt.allocated, destructor_treet.add] at k2 g1 g2
          refine ⟨k2, ?_⟩
          refine get_destructors_extend _ _
            (e2 ++ e1 ++ [{ parent := self.targets.destructor_stack.current_node,
                            destructor := codeA.op1 }]) ?_ k2 hvalid
          rw [g2, g1]
          simp
  · unfold convert_CPROVER_try_catch at hB
    split at hB
    · simp at hB
    · simp only at hB
      split at hB
      · simp at hB
      · rename_i r1 h1
        simp only [Except.ok.injEq] at hB
        subst hB
        obtain ⟨e1, g1⟩ := hgrowB0 _ _ _ h1
        simp only [throw_targett.restore, destructor_treet.set_current_node,
          destructor_treet.get_current_node, targetst.set_throw,
          goto_convertt.allocated, destructor_treet.add, exception_flag_targets] at g1 ⊢
        refine ⟨trivial, ?_⟩
        refine get_destructors_extend _ _
          (e1 ++ [{ parent := self.targets.destructor_stack.current_node,
                    destructor := catch_cleanup codeB.op1 codeB.source_location }]) ?_ ?_ hvalid
        · show r1.2.targets.destructor_stack.nodes = _
          rw [g1]
          simp [catch_cleanup, exception_flag]
          split <;> rfl
        · rfl
  · unfold convert_CPROVER_try_finally at hC
    split at hC
    · simp at hC
    · simp only at hC
      split at hC
      · simp at hC
      · rename_i r1 h1
        have k2 := hkeepC _ _ _ hC
        obtain ⟨e1, g1⟩ := hgrowC0 _ _ _ h1
        obtain ⟨e2, g2⟩ := hgrowC1 _ _ _ hC
        simp only [destructor_treet.set_current_node, destructor_treet.get_current_node,
          destructor_treet.add] at k2 g1 g2
        refine ⟨k2, ?_⟩
        refine get_destructors_extend _ _
          (e2 ++ e1 ++ [{ parent := self.targets.destructor_stack.current_node,
                          destructor := codeC.op1 }]) ?_ k2 hvalid
        rw [g2, g1]
        simp

/-- The destructor stack after lowering the three sample constructs inside an enclosing scope. -/
theorem destructor_stack_restored_witness :
    ((([other_at 3 (expression_statement 1), other_at 4 (expression_statement 2),
          skip_at 2 (some 70)],
        enclosed_state_after [{ parent := 1, destructor := expression_statement 2 }] [] 5)
          : goto_programt × goto_convertt).2.targets.destructor_stack.current_node
        = enclosed_state.targets.destructor_stack.current_node
      ∧ (([other_at 3 (expression_statement 1), other_at 4 (expression_statement 2),
            skip_at 2 (some 70)],
          enclosed_state_after [{ parent := 1, destructor := expression_statement 2 }] [] 5)
            : goto_programt × goto_convertt).2.targets.destructor_stack.get_destructors
            none none
          = enclosed_state.targets.destructor_stack.get_destructors none none)
    ∧ ((([other_at 3 (expression_statement 1), skip_at 2 (some 80)],
          enclosed_state_after
            [{ parent := 1, destructor := catch_cleanup (expression_statement 3) (some 80) }]
            [exception_flag_symbol "C"] 4)
            : goto_programt × goto_convertt).2.targets.destructor_stack.current_node
          = enclosed_state.targets.destructor_stack.current_node
      ∧ (([other_at 3 (expression_statement 1), skip_at 2 (some 80)],
          enclosed_state_after
            [{ parent := 1, destructor := catch_cleanup (expression_statement 3) (some 80) }]
            [exception_flag_symbol "C"] 4)
            : goto_programt × goto_convertt).2.targets.destructor_stack.get_destructors
            none none
          = enclosed_state.targets.destructor_stack.get_destructors none none)
    ∧ ((([other_at 2 (expression_statement 1), other_at 3 (expression_statement 2)],
          enclosed_state_after [{ parent := 1, destructor := expression_statement 2 }] [] 4)
            : goto_programt × goto_convertt).2.targets.destructor_stack.current_node
          = enclosed_state.targets.destructor_stack.current_node
      ∧ (([other_at 2 (expression_statement 1), other_at 3 (expression_statement 2)],
          enclosed_state_after [{ parent := 1, destructor := expression_statement 2 }] [] 4)
            : goto_programt × goto_convertt).2.targets.destructor_stack.get_destructors
            none none
          = enclosed_state.targets.destructor_stack.get_destructors none none) :=
  destructor_stack_restored (convert ordinary 1) sample_msc_try_finally
    sample_CPROVER_try_catch_plain sample_CPROVER_try_finally_plain [] "C" enclosed_state
    _ _ _
    (keeps_current_node_expression 2 "C") (keeps_current_node_expression 2 "C")
    (grows_arena_expression 1 "C") (grows_arena_expression 2 "C")
    (grows_arena_expression 1 "C") (grows_arena_expression 1 "C")
    (grows_arena_expression 2 "C") (by decide) (by decide) (by decide) (by decide)

/-! ## Finally blocks on exit paths -/

/-- C4 fails on the code: in the lowering of
`try { try { try { throw; } finally { 1 } } finally { leave; } } finally { 2 }` the throw
in the innermost guarded block is not caught inside it, and the path from the throw's
first instruction (position 0) passes through the lowered finally block `1` twice
(positions 1 and 2) before it reaches the innermost construct's join (position 7) and
goes on beyond it. -/
theorem finally_block_lowered_twice_on_throw_path :
    convert ordinary 6 nested_finally_throw [] "C" initial_state
      = .ok (nested_finally_throw_output, nested_finally_throw_state)
    ∧ path nested_finally_throw_output 20 0 = [0, 1, 2, 3, 7, 8, 9, 12]
    ∧ nested_finally_throw_output[7]? = some (skip_at 3 (some 72))
    ∧ executions nested_finally_throw_output [0, 1, 2, 3] (expression_statement 1) = 2
    ∧ executions nested_finally_throw_output (path nested_finally_throw_output 20 0)
        (expression_statement 1) = 2 := by
  refine ⟨by decide!, by decide!, by decide!, by decide!, by decide!⟩

/-! ## Throw and leave -/

theorem exception_flag_expression (mode : irep_idt) (self : goto_convertt) :
    (exception_flag mode self).1 = symbol_exprt "$exception_flag" bool_typet := by
  simp only [exception_flag]
  cases symbol_tablet.find self.symbol_table "$exception_flag" <;> rfl

theorem convert_CPROVER_throw_eq (convert : convertt) (code : codet) (dest : goto_programt)
    (mode : irep_idt) (self : goto_convertt) :
    convert_CPROVER_throw convert code dest mode self
      = match unwind_each convert code.source_location mode
            (self.targets.destructor_stack.get_destructors
              (if self.targets.throw_set then some self.targets.throw_stack_node else none)
              none)
            (dest ++ [assign_flag_at self.next_address code.source_location])
            (exception_flag mode self.allocated).2 with
        | .error e => .error e
        | .ok r =>
          .ok (r.1 ++ [goto_located r.2.next_address
                        (if self.targets.throw_set then r.2.targets.throw_target
                         else r.2.targets.return_target)
                        code.source_location], r.2.allocated) := by
  have hadd : goto_programt.add dest self.next_address
      { instructiont.default with
        type := ASSIGN, source_location := code.source_location,
        code := code_assignt (exception_flag mode self.allocated).1 true_exprt }
      = dest ++ [assign_flag_at self.next_address code.source_location] := by
    rw [exception_flag_expression]
    rfl
  unfold convert_CPROVER_throw
  simp only [hadd, exception_flag_targets, unwind_destructor_stack, unwind_destructor_stack_on]
  have hs : self.allocated.targets = self.targets := rfl
  rw [hs]
  cases hset : self.targets.throw_set with
  | true =>
    simp only [if_true]
    cases unwind_each convert code.source_location mode
      (self.targets.destructor_stack.get_destructors (some self.targets.throw_stack_node) none)
      (dest ++ [assign_flag_at self.next_address code.source_location])
      (exception_flag mode self.allocated).2 with
    | error e => rfl
    | ok r => rfl
  | false =>
    simp only [Bool.false_eq_true, if_false]
    cases unwind_each convert code.source_location mode
      (self.targets.destructor_stack.get_destructors none none)
      (dest ++ [assign_flag_at self.next_address code.source_location])
      (exception_flag mode self.allocated).2 with
    | error e => rfl
    | ok r => rfl

/-- C11: in a state with no throw target set, `convert_CPROVER_throw` appends the ASSIGN
of true to the exception flag, then the lowering of every cleanup on the path from the
current destructor-stack node to the root, innermost first, then one GOTO to the return
target. -/
theorem convert_CPROVER_throw_propagates (convert : convertt) (code : codet)
    (dest : goto_programt) (mode : irep_idt) (self selfU : goto_convertt)
    (frags : List goto_programt)
    (hset : self.targets.throw_set = false)
    (hU : lowered_in_order convert mode
            ((self.targets.destructor_stack.get_destructors none none).map
              (fun c => c.add_source_location code.source_location))
            frags (dest ++ [assign_flag_at self.next_address code.source_location])
            (exception_flag mode self.allocated).2 selfU)
    (hret : selfU.targets.return_target = self.targets.return_target) :
    convert_CPROVER_throw convert code dest mode self
      = .ok (dest ++ [assign_flag_at self.next_address code.source_location]
              ++ concat_fragments frags
              ++ [goto_located selfU.next_address self.targets.return_target
                    code.source_location],
             selfU.allocated) := by
  rw [convert_CPROVER_throw_eq, hset]
  simp only [Bool.false_eq_true, if_false]
  rw [unwind_each_eq convert code.source_location mode _ frags _ _ selfU hU]
  simp only [hret]

/-- Throwing in a state with cleanup `1` registered before cleanup `2` and no throw
target. -/
theorem convert_CPROVER_throw_propagates_witness :
    convert_CPROVER_throw (convert ordinary 1) sample_CPROVER_throw [] "C" two_cleanups_state
      = .ok ([] ++ [assign_flag_at two_cleanups_state.next_address
                      sample_CPROVER_throw.source_location]
              ++ concat_fragments
                  [[other_at 2 ((expression_statement 2).add_source_location (some 60))],
                   [other_at 3 ((expression_statement 1).add_source_location (some 60))]]
              ++ [goto_located
                    (exception_flag "C" two_cleanups_state.allocated).2.allocated.allocated.next_address
                    two_cleanups_state.targets.return_target
                    sample_CPROVER_throw.source_location],
             (exception_flag "C" two_cleanups_state.allocated).2.allocated.allocated.allocated) :=
  convert_CPROVER_throw_propagates (convert ordinary 1) sample_CPROVER_throw [] "C"
    two_cleanups_state (exception_flag "C" two_cleanups_state.allocated).2.allocated.allocated
    [[other_at 2 ((expression_statement 2).add_source_location (some 60))],
     [other_at 3 ((expression_statement 1).add_source_location (some 60))]]
    rfl
    ⟨(exception_flag "C" two_cleanups_state.allocated).2.allocated, by decide,
      (exception_flag "C" two_cleanups_state.allocated).2.allocated.allocated, by decide, rfl⟩
    rfl

/-- C12: in a state with a throw target set, `convert_CPROVER_throw` appends first the
ASSIGN of true to the exception flag, then the lowering of exactly the cleanups between
the current destructor-stack node (included) and the node recorded with the throw target
(excluded), then one GOTO to the throw target; no jump to the return target is emitted
however the return target is set. -/
theorem convert_CPROVER_throw_caught (convert : convertt) (code : codet)
    (dest : goto_programt) (mode : irep_idt) (self selfU : goto_convertt)
    (frags : List goto_programt)
    (hset : self.targets.throw_set = true)
    (hU : lowered_in_order convert mode
            ((self.targets.destructor_stack.get_destructors
                (some self.targets.throw_stack_node) none).map
              (fun c => c.add_source_location code.source_location))
            frags (dest ++ [assign_flag_at self.next_address code.source_location])
            (exception_flag mode self.allocated).2 selfU)
    (hthrow : selfU.targets.throw_target = self.targets.throw_target) :
    convert_CPROVER_throw convert code dest mode self
      = .ok (dest ++ [assign_flag_at self.next_address code.source_location]
              ++ concat_fragments frags
              ++ [goto_located selfU.next_address self.targets.throw_target
                    code.source_location],
             selfU.allocated)
    ∧ (self.targets.throw_target ≠ selfU.targets.return_target →
        (goto_located selfU.next_address self.targets.throw_target
            code.source_location).targets ≠ [selfU.targets.return_target]) := by
  refine ⟨?_, ?_⟩
  · rw [convert_CPROVER_throw_eq, hset]
    simp only [if_true]
    rw [unwind_each_eq convert code.source_location mode _ frags _ _ selfU hU]
    simp only [hthrow]
  · intro hne h
    simp only [goto_located, List.cons.injEq, and_true] at h
    exact hne h

/-- Throwing in a state whose throw target was established before cleanup `2` was
registered. -/
theorem convert_CPROVER_throw_caught_witness :
    convert_CPROVER_throw (convert ordinary 1) sample_CPROVER_throw [] "C" catching_state
      = .ok ([] ++ [assign_flag_at catching_state.next_address
                      sample_CPROVER_throw.source_location]
              ++ concat_fragments
                  [[other_at 3 ((expression_statement 2).add_source_location (some 60))]]
              ++ [goto_located
                    (exception_flag "C" catching_state.allocated).2.allocated.next_address
                    catching_state.targets.throw_target
                    sample_CPROVER_throw.source_location],
             (exception_flag "C" catching_state.allocated).2.allocated.allocated)
    ∧ (catching_state.targets.throw_target
          ≠ (exception_flag "C" catching_state.allocated).2.allocated.targets.return_target →
        (goto_located (exception_flag "C" catching_state.allocated).2.allocated.next_address
            catching_state.targets.throw_target
            sample_CPROVER_throw.source_location).targets
          ≠ [(exception_flag "C" catching_state.allocated).2.allocated.targets.return_target]) :=
  convert_CPROVER_throw_caught (convert ordinary 1) sample_CPROVER_throw [] "C"
    catching_state (exception_flag "C" catching_state.allocated).2.allocated
    [[other_at 3 ((expression_statement 2).add_source_location (some 60))]]
    rfl
    ⟨(exception_flag "C" catching_state.allocated).2.allocated, by decide, rfl⟩
    rfl

/-- C13: in a state with a leave target set, `convert_msc_leave` appends the lowering of
exactly the cleanups between the current destructor-stack node (included) and the node
recorded with the leave target (excluded), innermost first, followed by exactly one
unconditional GOTO to the leave target that carries the leave statement's source
location. -/
theorem convert_msc_leave_emits (convert : convertt) (code : codet)
    (dest : goto_programt) (mode : irep_idt) (self selfU : goto_convertt)
    (frags : List goto_programt)
    (hset : self.targets.leave_set = true)
    (hU : lowered_in_order convert mode
            ((self.targets.destructor_stack.get_destructors
                (some self.targets.leave_stack_node) none).map
              (fun c => c.add_source_location code.source_location))
            frags dest self selfU)
    (hleave : selfU.targets.leave_target = self.targets.leave_target) :
    convert_msc_leave convert code dest mode self
      = .ok (dest ++ concat_fragments frags
              ++ [goto_located selfU.next_address self.targets.leave_target
                    code.source_location],
             selfU.allocated) := by
  rw [convert_msc_leave_eq convert code dest mode self hset,
    unwind_each_eq convert code.source_location mode _ frags _ _ selfU hU]
  simp only [hleave]

/-- A leave inside an enclosing scope with one cleanup registered since the leave target
was established. -/
theorem convert_msc_leave_emits_witness :
    convert_msc_leave (convert ordinary 1) sample_leave [] "C" enclosed_state
      = .ok ([] ++ concat_fragments
                [[other_at 2 ((expression_statement 9).add_source_location (some 50))]]
              ++ [goto_located enclosed_state.allocated.next_address
                    enclosed_state.targets.leave_target sample_leave.source_location],
             enclosed_state.allocated.allocated) :=
  convert_msc_leave_emits (convert ordinary 1) sample_leave [] "C" enclosed_state
    enclosed_state.allocated
    [[other_at 2 ((expression_statement 9).add_source_location (some 50))]]
    rfl ⟨enclosed_state.allocated, by decide, rfl⟩ rfl

/-- C14: `convert_msc_leave` fails with the invariant violation 'leave without target'
if and only if no leave target is set (the lowering of the pending cleanups not raising
that violation itself), and when that lowering returns, the leave returns if and only if
a leave target is set.  In particular a leave lowered at the start of a function body,
outside every guarded block, fails, and the state in which `convert_msc_try_finally`
lowers its guarded block has a leave target, so that
`try { leave; } finally { 2 }` is lowered. -/
theorem convert_msc_leave_fails_iff (convert : convertt) (code : codet)
    (dest : goto_programt) (mode : irep_idt) (self : goto_convertt)
    (hU : unwind_each convert code.source_location mode
            (self.targets.destructor_stack.get_destructors
              (some self.targets.leave_stack_node) none) dest self
          ≠ .error (.invariant_violation "leave without target")) :
    (convert_msc_leave convert code dest mode self
        = .error (.invariant_violation "leave without target")
      ↔ self.targets.leave_set = false)
    ∧ (∀ r, unwind_each convert code.source_location mode
              (self.targets.destructor_stack.get_destructors
                (some self.targets.leave_stack_node) none) dest self = .ok r →
          ((∃ q, convert_msc_leave convert code dest mode self = .ok q)
            ↔ self.targets.leave_set = true))
    ∧ (∀ F : codet, (msc_try_state self F).targets.leave_set = true)
    ∧ cbmc.convert ordinary 1 sample_leave [] "C" initial_state
        = .error (.invariant_violation "leave without target")
    ∧ convert_msc_try_finally (cbmc.convert ordinary 2) sample_try_leave_finally [] "C"
          initial_state
        = .ok ([other_at 2 ((expression_statement 2).add_source_location (some 50)),
                goto_located 3 (targett.instruction 1) (some 50),
                other_at 4 (expression_statement 2),
                skip_at 1 (some 70)],
               (msc_finally_state initial_state
                 (msc_try_state initial_state
                   (expression_statement 2)).allocated.allocated).allocated) := by
  refine ⟨?_, ?_, fun _ => rfl, by decide, by decide⟩
  · constructor
    · intro h
      cases hset : self.targets.leave_set with
      | false => rfl
      | true =>
        rw [convert_msc_leave_eq convert code dest mode self hset] at h
        cases hu : unwind_each convert code.source_location mode
            (self.targets.destructor_stack.get_destructors
              (some self.targets.leave_stack_node) none) dest self with
        | error e =>
          rw [hu] at h
          simp only [Except.error.injEq] at h
          rw [h] at hu
          exact absurd hu hU
        | ok r =>
          rw [hu] at h
          simp at h
    · intro hset
      unfold convert_msc_leave
      rw [if_pos hset]
  · intro r hr
    constructor
    · rintro ⟨q, hq⟩
      cases hset : self.targets.leave_set with
      | true => rfl
      | false =>
        unfold convert_msc_leave at hq
        rw [if_pos hset] at hq
        simp at hq
    · intro hset
      rw [convert_msc_leave_eq convert code dest mode self hset, hr]
      exact ⟨_, rfl⟩

/-- A leave inside an enclosing scope passes the check and returns. -/
theorem convert_msc_leave_fails_iff_witness :
    (convert_msc_leave (convert ordinary 1) sample_leave [] "C" enclosed_state
        = .error (.invariant_violation "leave without target")
      ↔ enclosed_state.targets.leave_set = false)
    ∧ (∀ r, unwind_each (convert ordinary 1) sample_leave.source_location "C"
              (enclosed_state.targets.destructor_stack.get_destructors
                (some enclosed_state.targets.leave_stack_node) none) [] enclosed_state
              = .ok r →
          ((∃ q, convert_msc_leave (convert ordinary 1) sample_leave [] "C" enclosed_state
                  = .ok q)
            ↔ enclosed_state.targets.leave_set = true))
    ∧ (∀ F : codet, (msc_try_state enclosed_state F).targets.leave_set = true)
    ∧ convert ordinary 1 sample_leave [] "C" initial_state
        = .error (.invariant_violation "leave without target")
    ∧ convert_msc_try_finally (convert ordinary 2) sample_try_leave_finally [] "C"
          initial_state
        = .ok ([other_at 2 ((expression_statement 2).add_source_location (some 50)),
                goto_located 3 (targett.instruction 1) (some 50),
                other_at 4 (expression_statement 2),
                skip_at 1 (some 70)],
               (msc_finally_state initial_state
                 (msc_try_state initial_state
                   (expression_statement 2)).allocated.allocated).allocated) :=
  convert_msc_leave_fails_iff (convert ordinary 1) sample_leave [] "C" enclosed_state
    (by decide)

/-! ## Malformed input -/

theorem handlers_total (convert : convertt)
    (htotal : ∀ c d m s, ∃ r, convert c d m s = .ok r) (a : Nat) (e : targett)
    (mode : irep_idt) :
    ∀ (Hs : List codet) (el : List irep_idt) (dest : goto_programt) (self : goto_convertt),
      ∃ r, convert_try_catch_handlers convert a e mode Hs el dest self = .ok r := by
  intro Hs
  induction Hs with
  | nil => intro el dest self; exact ⟨_, rfl⟩
  | cons b rest ih =>
    intro el dest self
    obtain ⟨r, hr⟩ := htotal b [] mode self
    simp only [convert_try_catch_handlers, hr]
    exact ih _ _ _

/-- C15: with a nested lowering that returns on every statement,
`convert_msc_try_finally` fails if and only if the statement does not have exactly two
operands, `convert_try_catch` if and only if it has fewer than two, and
`convert_msc_try_except` if and only if it does not have exactly three; the failure is
the invariant violation with the procedure's message. -/
theorem malformed_input_rejected (convert : convertt) (code : codet) (dest : goto_programt)
    (mode : irep_idt) (self : goto_convertt)
    (htotal : ∀ c d m s, ∃ r, convert c d m s = .ok r) :
    ((∃ e, convert_msc_try_finally convert code dest mode self = .error e)
        ↔ code.operands.length ≠ 2)
    ∧ ((∃ e, convert_try_catch convert code dest mode self = .error e)
        ↔ code.operands.length < 2)
    ∧ ((∃ e, convert_msc_try_except convert code dest mode self = .error e)
        ↔ code.operands.length ≠ 3)
    ∧ (code.operands.length ≠ 2 →
        convert_msc_try_finally convert code dest mode self
          = .error (.invariant_violation "msc_try_finally expects two arguments"))
    ∧ (code.operands.length < 2 →
        convert_try_catch convert code dest mode self
          = .error (.invariant_violation "try_catch expects at least two arguments"))
    ∧ (code.operands.length ≠ 3 →
        convert_msc_try_except convert code dest mode self
          = .error (.invariant_violation "msc_try_except expects three arguments")) := by
  have hA : code.operands.length ≠ 2 →
      convert_msc_try_finally convert code dest mode self
        = .error (.invariant_violation "msc_try_finally expects two arguments") := by
    intro h
    unfold convert_msc_try_finally
    rw [if_pos h]
  have hB : code.operands.length < 2 →
      convert_try_catch convert code dest mode self
        = .error (.invariant_violation "try_catch expects at least two arguments") := by
    intro h
    unfold convert_try_catch
    rw [if_pos h]
  have hC : code.operands.length ≠ 3 →
      convert_msc_try_except convert code dest mode self
        = .error (.invariant_violation "msc_try_except expects three arguments") := by
    intro h
    unfold convert_msc_try_except
    rw [if_pos h]
  refine ⟨⟨?_, fun h => ⟨_, hA h⟩⟩, ⟨?_, fun h => ⟨_, hB h⟩⟩, ⟨?_, fun h => ⟨_, hC h⟩⟩,
    hA, hB, hC⟩
  · rintro ⟨e, he⟩ hlen
    unfold convert_msc_try_finally at he
    rw [if_neg (by simp [hlen])] at he
    simp only at he
    obtain ⟨r1, h1⟩ := htotal code.op0 dest mode _
    rw [h1] at he
    simp only at he
    obtain ⟨r2, h2⟩ := htotal code.op1 r1.1 mode _
    rw [h2] at he
    simp at he
  · rintro ⟨e, he⟩
    by_contra hlen
    unfold convert_try_catch at he
    rw [if_neg hlen] at he
    simp only at he
    obtain ⟨r1, h1⟩ := htotal code.op0 _ mode _
    rw [h1] at he
    simp only at he
    obtain ⟨r2, h2⟩ := handlers_total convert htotal _ _ mode code.operands.tail [] _ _
    rw [h2] at he
    simp at he
  · rintro ⟨e, he⟩ hlen
    unfold convert_msc_try_except at he
    rw [if_neg (by simp [hlen])] at he
    obtain ⟨r1, h1⟩ := htotal code.op0 dest mode self
    rw [h1] at he
    simp at he

/-- A statement with four operands is rejected by `convert_msc_try_finally` and
`convert_msc_try_except` and accepted by `convert_try_catch`. -/
theorem malformed_input_rejected_witness :
    ((∃ e, convert_msc_try_finally lower_as_other malformed_statement [] "C" initial_state
            = .error e)
        ↔ malformed_statement.operands.length ≠ 2)
    ∧ ((∃ e, convert_try_catch lower_as_other malformed_statement [] "C" initial_state
            = .error e)
        ↔ malformed_statement.operands.length < 2)
    ∧ ((∃ e, convert_msc_try_except lower_as_other malformed_statement [] "C" initial_state
            = .error e)
        ↔ malformed_statement.operands.length ≠ 3)
    ∧ (malformed_statement.operands.length ≠ 2 →
        convert_msc_try_finally lower_as_other malformed_statement [] "C" initial_state
          = .error (.invariant_violation "msc_try_finally expects two arguments"))
    ∧ (malformed_statement.operands.length < 2 →
        convert_try_catch lower_as_other malformed_statement [] "C" initial_state
          = .error (.invariant_violation "try_catch expects at least two arguments"))
    ∧ (malformed_statement.operands.length ≠ 3 →
        convert_msc_try_except lower_as_other malformed_statement [] "C" initial_state
          = .error (.invariant_violation "msc_try_except expects three arguments")) :=
  malformed_input_rejected lower_as_other malformed_statement [] "C" initial_state
    (fun _ _ _ _ => ⟨_, rfl⟩)

/-! ## Platform try/except and internal try/catch -/

/-- C16: for a three-operand msc_try_except statement `convert_msc_try_except` is the
lowering of the guarded block alone: its result (instructions, targets, destructor
stack) is that of lowering the first operand, and two statements with the same guarded
block give the same result whatever their filter and handler. -/
theorem convert_msc_try_except_guarded_only (convert : convertt)
    (code code' S filter handler filter' handler' : codet) (dest : goto_programt)
    (mode : irep_idt) (self : goto_convertt)
    (hops : code.operands = [S, filter, handler])
    (hops' : code'.operands = [S, filter', handler']) :
    convert_msc_try_except convert code dest mode self
      = lower_guarded_block_only convert S filter handler dest mode self
    ∧ convert_msc_try_except convert code dest mode self = convert S dest mode self
    ∧ convert_msc_try_except convert code dest mode self
        = convert_msc_try_except convert code' dest mode self := by
  have h : ∀ (c f h : codet), c.operands = [S, f, h] →
      convert_msc_try_except convert c dest mode self = convert S dest mode self := by
    intro c f h hc
    unfold convert_msc_try_except
    rw [if_neg (by simp [hc])]
    simp [codet.op0, hc]
  exact ⟨h code filter handler hops, h code filter handler hops,
    (h code filter handler hops).trans (h code' filter' handler' hops').symm⟩

/-- Two try/except statements with the same guarded block and different filters and
handlers. -/
theorem convert_msc_try_except_guarded_only_witness :
    convert_msc_try_except (convert ordinary 1) sample_msc_try_except [] "C" initial_state
      = lower_guarded_block_only (convert ordinary 1) (expression_statement 1)
          (expression_statement 2) (expression_statement 3) [] "C" initial_state
    ∧ convert_msc_try_except (convert ordinary 1) sample_msc_try_except [] "C" initial_state
        = convert ordinary 1 (expression_statement 1) [] "C" initial_state
    ∧ convert_msc_try_except (convert ordinary 1) sample_msc_try_except [] "C" initial_state
        = convert_msc_try_except (convert ordinary 1) sample_msc_try_except_other [] "C"
            initial_state :=
  convert_msc_try_except_guarded_only (convert ordinary 1) sample_msc_try_except
    sample_msc_try_except_other (expression_statement 1) (expression_statement 2)
    (expression_statement 3) (expression_statement 5) (expression_statement 6) [] "C"
    initial_state rfl rfl

theorem exception_flag_symbol_table (mode : irep_idt) (self : goto_convertt) :
    (exception_flag mode self).2.symbol_table
      = match symbol_tablet.find self.symbol_table "$exception_flag" with
        | none => symbol_tablet.insert self.symbol_table (exception_flag_symbol mode)
        | some _ => self.symbol_table := by
  simp only [exception_flag]
  cases symbol_tablet.find self.symbol_table "$exception_flag" <;> rfl

theorem convert_CPROVER_try_catch_eq (convert : convertt) (code S H : codet)
    (dest : goto_programt) (mode : irep_idt) (self : goto_convertt)
    (hops : code.operands = [S, H]) :
    convert_CPROVER_try_catch convert code dest mode self
      = match convert S dest mode (CPROVER_try_state self code.source_location H mode) with
        | .error e => .error e
        | .ok r =>
          .ok (r.1 ++ [skip_at self.next_address code.source_location],
               CPROVER_catch_end_state self r.2) := by
  have hlen : ¬ (code.operands.length ≠ 2) := by simp [hops]
  have hop0 : code.op0 = S := by simp [codet.op0, hops]
  have hop1 : code.op1 = H := by simp [codet.op1, hops]
  unfold convert_CPROVER_try_catch
  rw [if_neg hlen]
  simp only [hop0, hop1, exception_flag_targets, exception_flag_next_address,
    exception_flag_expression, exception_flag_symbol_table, CPROVER_try_state]
  rfl

/-- C17: for a two-operand CPROVER_try_catch statement with guarded block `S` and
handler `H`, `convert_CPROVER_try_catch` appends exactly the lowering of `S` followed by
the join SKIP, which carries the statement's source location.  While `S` is lowered the
throw target is the join and the destructor stack has exactly one more node, holding
`if (exception flag) H` with a nil else branch.  `H` is never handed to the nested
lowering: the result depends on the nested lowering only through the lowering of `S`. -/
theorem convert_CPROVER_try_catch_emits (convert : convertt) (code S H : codet)
    (dest S' : goto_programt) (mode : irep_idt) (self selfS : goto_convertt)
    (hops : code.operands = [S, H])
    (hS : convert S dest mode (CPROVER_try_state self code.source_location H mode)
          = .ok (dest ++ S', selfS)) :
    convert_CPROVER_try_catch convert code dest mode self
      = .ok (dest ++ S' ++ [skip_at self.next_address code.source_location],
             CPROVER_catch_end_state self selfS)
    ∧ (skip_at self.next_address code.source_location).source_location = code.source_location
    ∧ (CPROVER_try_state self code.source_location H mode).targets.throw_set = true
    ∧ (CPROVER_try_state self code.source_location H mode).targets.throw_target
        = targett.instruction (skip_at self.next_address code.source_location).address
    ∧ (CPROVER_try_state self code.source_location H mode).targets.destructor_stack.nodes
        = { parent := self.targets.destructor_stack.current_node,
            destructor := catch_cleanup H code.source_location }
          :: self.targets.destructor_stack.nodes
    ∧ (catch_cleanup H code.source_location).get_statement = ID_ifthenelse
    ∧ (catch_cleanup H code.source_location).operands
        = [symbol_exprt "$exception_flag" bool_typet, H, codet.nil]
    ∧ ∀ convert' : convertt,
        convert' S dest mode (CPROVER_try_state self code.source_location H mode)
          = convert S dest mode (CPROVER_try_state self code.source_location H mode) →
        convert_CPROVER_try_catch convert' code dest mode self
          = convert_CPROVER_try_catch convert code dest mode self := by
  refine ⟨?_, rfl, rfl, rfl, rfl, rfl, rfl, ?_⟩
  · rw [convert_CPROVER_try_catch_eq convert code S H dest mode self hops, hS]
  · intro convert' h
    rw [convert_CPROVER_try_catch_eq convert code S H dest mode self hops,
      convert_CPROVER_try_catch_eq convert' code S H dest mode self hops, h]

/-- The output for `CPROVER_try_catch { 1 } { 3 }`: the guarded block and the join, no
instruction from the handler. -/
theorem convert_CPROVER_try_catch_emits_witness :
    convert_CPROVER_try_catch (convert ordinary 1) sample_CPROVER_try_catch_plain [] "C"
        initial_state
      = .ok ([] ++ [other_at 2 (expression_statement 1)]
              ++ [skip_at initial_state.next_address
                    sample_CPROVER_try_catch_plain.source_location],
             CPROVER_catch_end_state initial_state
               (CPROVER_try_state initial_state sample_CPROVER_try_catch_plain.source_location
                 (expression_statement 3) "C").allocated)
    ∧ (skip_at initial_state.next_address
          sample_CPROVER_try_catch_plain.source_location).source_location
        = sample_CPROVER_try_catch_plain.source_location
    ∧ (CPROVER_try_state initial_state sample_CPROVER_try_catch_plain.source_location
          (expression_statement 3) "C").targets.throw_set = true
    ∧ (CPROVER_try_state initial_state sample_CPROVER_try_catch_plain.source_location
          (expression_statement 3) "C").targets.throw_target
        = targett.instruction
            (skip_at initial_state.next_address
              sample_CPROVER_try_catch_plain.source_location).address
    ∧ (CPROVER_try_state initial_state sample_CPROVER_try_catch_plain.source_location
          (expression_statement 3) "C").targets.destructor_stack.nodes
        = { parent := initial_state.targets.destructor_stack.current_node,
            destructor := catch_cleanup (expression_statement 3)
              sample_CPROVER_try_catch_plain.source_location }
          :: initial_state.targets.destructor_stack.nodes
    ∧ (catch_cleanup (expression_statement 3)
          sample_CPROVER_try_catch_plain.source_location).get_statement = ID_ifthenelse
    ∧ (catch_cleanup (expression_statement 3)
          sample_CPROVER_try_catch_plain.source_location).operands
        = [symbol_exprt "$exception_flag" bool_typet, expression_statement 3, codet.nil]
    ∧ ∀ convert' : convertt,
        convert' (expression_statement 1) [] "C"
            (CPROVER_try_state initial_state sample_CPROVER_try_catch_plain.source_location
              (expression_statement 3) "C")
          = convert ordinary 1 (expression_statement 1) [] "C"
              (CPROVER_try_state initial_state sample_CPROVER_try_catch_plain.source_location
                (expression_statement 3) "C") →
        convert_CPROVER_try_catch convert' sample_CPROVER_try_catch_plain [] "C" initial_state
          = convert_CPROVER_try_catch (convert ordinary 1) sample_CPROVER_try_catch_plain []
              "C" initial_state :=
  convert_CPROVER_try_catch_emits (convert ordinary 1) sample_CPROVER_try_catch_plain
    (expression_statement 1) (expression_statement 3) [] [other_at 2 (expression_statement 1)]
    "C" initial_state
    (CPROVER_try_state initial_state sample_CPROVER_try_catch_plain.source_location
      (expression_statement 3) "C").allocated
    rfl (by decide)

/-! ## Result of unwinding -/

theorem destructors_between_nonempty :
    ∀ (nodes : List destructor_nodet) (start e : node_indext),
      start ≠ e → 1 ≤ start → start ≤ nodes.length → destructors_between nodes start e ≠ [] := by
  intro nodes
  induction nodes with
  | nil =>
    intro start e _ h1 h2
    exact absurd (Nat.le_trans h1 h2) (by simp)
  | cons n rest ih =>
    intro start e hne h1 h2
    by_cases hs : start = rest.length + 1
    · simp only [destructors_between, if_neg hne, if_pos hs]
      simp
    · have h3 : start ≤ rest.length := by
        have : start ≤ rest.length + 1 := h2
        exact Nat.le_of_lt_succ (Nat.lt_of_le_of_ne this hs)
      simp only [destructors_between, if_neg hne, if_neg hs]
      exact ih start e hne h1 h3

/-- C18: `unwind_destructor_stack` returns true if and only if the list of cleanups
between the start node and the end node is non-empty; with an empty list it returns
false at once and has appended nothing.  For a start node of the tree that is the root
only when the end is, the list is empty exactly when start and end coincide. -/
theorem unwind_destructor_stack_result (convert : convertt) (location : source_locationt)
    (dest : goto_programt) (mode : irep_idt)
    (destructor_end_point destructor_start_point : Option node_indext)
    (self : goto_convertt)
    (hstart : destructor_start_point.getD self.targets.destructor_stack.current_node
                ≤ self.targets.destructor_stack.nodes.length)
    (hrange : destructor_start_point.getD self.targets.destructor_stack.current_node = 0
                → destructor_end_point.getD 0 = 0) :
    (self.targets.destructor_stack.get_destructors destructor_end_point
          destructor_start_point = [] →
        unwind_destructor_stack convert location dest mode destructor_end_point
          destructor_start_point self = .ok (false, dest, self))
    ∧ (∀ r, unwind_destructor_stack convert location dest mode destructor_end_point
              destructor_start_point self = .ok r →
          (r.1 = true ↔ self.targets.destructor_stack.get_destructors destructor_end_point
                          destructor_start_point ≠ []))
    ∧ (∀ r, unwind_destructor_stack convert location dest mode destructor_end_point
              destructor_start_point self = .ok r →
          r.1 = false → r.2.1 = dest ∧ r.2.2 = self)
    ∧ (self.targets.destructor_stack.get_destructors destructor_end_point
          destructor_start_point = []
        ↔ destructor_start_point.getD self.targets.destructor_stack.current_node
            = destructor_end_point.getD 0) := by
  have hempty : self.targets.destructor_stack.get_destructors destructor_end_point
        destructor_start_point = [] →
      unwind_destructor_stack convert location dest mode destructor_end_point
        destructor_start_point self = .ok (false, dest, self) := by
    intro h
    simp only [unwind_destructor_stack, unwind_destructor_stack_on, h, unwind_each]
    rfl
  have hbool : ∀ r, unwind_destructor_stack convert location dest mode destructor_end_point
        destructor_start_point self = .ok r →
      r.1 = !(self.targets.destructor_stack.get_destructors destructor_end_point
                destructor_start_point).isEmpty := by
    intro r hr
    simp only [unwind_destructor_stack, unwind_destructor_stack_on] at hr
    split at hr
    · simp at hr
    · simp only [Except.ok.injEq] at hr
      rw [← hr]
  refine ⟨hempty, ?_, ?_, ?_⟩
  · intro r hr
    rw [hbool r hr]
    cases self.targets.destructor_stack.get_destructors destructor_end_point
        destructor_start_point <;> simp
  · intro r hr hfalse
    have hb := hbool r hr
    rw [hfalse] at hb
    have hl : self.targets.destructor_stack.get_destructors destructor_end_point
        destructor_start_point = [] := by
      cases hlist : self.targets.destructor_stack.get_destructors destructor_end_point
          destructor_start_point with
      | nil => rfl
      | cons x xs => rw [hlist] at hb; simp at hb
    have := hempty hl
    rw [hr, Except.ok.injEq] at this
    rw [this]
    exact ⟨rfl, rfl⟩
  · simp only [destructor_treet.get_destructors]
    constructor
    · intro h
      by_contra hne
      by_cases h0 : destructor_start_point.getD self.targets.destructor_stack.current_node = 0
      · exact hne (by rw [h0, hrange h0])
      · exact destructors_between_nonempty _ _ _ hne (Nat.pos_of_ne_zero h0) hstart h
    · intro h
      rw [h]
      exact destructors_between_self _ _

/-- Unwinding from the current node to itself: the list is empty, the result is false
and nothing is appended. -/
theorem unwind_destructor_stack_result_witness :
    (two_cleanups_state.targets.destructor_stack.get_destructors (some 2) none = [] →
        unwind_destructor_stack (convert ordinary 1) (some 60) [] "C" (some 2) none
          two_cleanups_state = .ok (false, [], two_cleanups_state))
    ∧ (∀ r, unwind_destructor_stack (convert ordinary 1) (some 60) [] "C" (some 2) none
              two_cleanups_state = .ok r →
          (r.1 = true ↔ two_cleanups_state.targets.destructor_stack.get_destructors
                          (some 2) none ≠ []))
    ∧ (∀ r, unwind_destructor_stack (convert ordinary 1) (some 60) [] "C" (some 2) none
              two_cleanups_state = .ok r →
          r.1 = false → r.2.1 = [] ∧ r.2.2 = two_cleanups_state)
    ∧ (two_cleanups_state.targets.destructor_stack.get_destructors (some 2) none = []
        ↔ (none : Option node_indext).getD
              two_cleanups_state.targets.destructor_stack.current_node
            = (some 2 : Option node_indext).getD 0) :=
  unwind_destructor_stack_result (convert ordinary 1) (some 60) [] "C" (some 2) none
    two_cleanups_state (by decide) (by decide)

/-! ## The synthetic exception flag -/

theorem find_append_absent (t : symbol_tablet) (s : symbolt)
    (h : symbol_tablet.find t s.name = none) :
    symbol_tablet.find (t ++ [s]) s.name = some s := by
  simp only [symbol_tablet.find] at h ⊢
  rw [List.find?_append, h]
  simp [List.find?]

theorem exception_flag_absent (mode : irep_idt) (self : goto_convertt)
    (habsent : symbol_tablet.find self.symbol_table "$exception_flag" = none) :
    exception_flag mode self
      = (symbol_exprt "$exception_flag" bool_typet,
         { self with symbol_table := self.symbol_table ++ [exception_flag_symbol mode] }) := by
  have hins : symbol_tablet.insert self.symbol_table (exception_flag_symbol mode)
      = self.symbol_table ++ [exception_flag_symbol mode] := by
    simp only [symbol_tablet.insert]
    have hn : (exception_flag_symbol mode).name = "$exception_flag" := rfl
    rw [hn, habsent]
  simp only [exception_flag, habsent]
  rw [← hins]
  rfl

theorem exception_flag_present (mode : irep_idt) (self : goto_convertt) (s : symbolt)
    (hpresent : symbol_tablet.find self.symbol_table "$exception_flag" = some s) :
    exception_flag mode self = (symbol_exprt "$exception_flag" bool_typet, self) := by
  simp only [exception_flag, hpresent]

theorem exception_flag_twice (mode mode' : irep_idt) (self : goto_convertt) :
    (exception_flag mode' (exception_flag mode self).2).2 = (exception_flag mode self).2 := by
  cases h : symbol_tablet.find self.symbol_table "$exception_flag" with
  | none =>
    rw [exception_flag_absent mode self h]
    have hf := find_append_absent self.symbol_table (exception_flag_symbol mode) h
    rw [exception_flag_present mode' _ (exception_flag_symbol mode) hf]
  | some s =>
    rw [exception_flag_present mode self s h, exception_flag_present mode' self s h]

theorem exception_flag_repeated_fixed (mode : irep_idt) (self : goto_convertt) :
    ∀ modes : List irep_idt,
      exception_flag_repeated modes (exception_flag mode self).2
        = (exception_flag mode self).2 := by
  intro modes
  induction modes with
  | nil => rfl
  | cons m ms ih =>
    simp only [exception_flag_repeated]
    rw [exception_flag_twice, ih]

/-- C19: on a symbol table without the flag, the first call of `exception_flag` inserts
exactly one symbol, named `$exception_flag`; every later call, with the same or another
mode, leaves the state unchanged, so after any number of calls the table still is the
old one with that one symbol, which keeps the mode of its creation; and every call
returns the same symbol expression.  In every state a second call changes nothing. -/
theorem exception_flag_idempotent (mode mode' : irep_idt) (modes : List irep_idt)
    (self : goto_convertt)
    (habsent : symbol_tablet.find self.symbol_table "$exception_flag" = none) :
    (exception_flag mode self).2.symbol_table
        = self.symbol_table ++ [exception_flag_symbol mode]
    ∧ (exception_flag_symbol mode).name = "$exception_flag"
    ∧ (exception_flag mode' (exception_flag mode self).2).2 = (exception_flag mode self).2
    ∧ exception_flag_repeated modes (exception_flag mode self).2
        = (exception_flag mode self).2
    ∧ symbol_tablet.find
          (exception_flag_repeated modes (exception_flag mode self).2).symbol_table
          "$exception_flag"
        = some (exception_flag_symbol mode)
    ∧ (exception_flag mode'
          (exception_flag_repeated modes (exception_flag mode self).2)).1
        = (exception_flag mode self).1
    ∧ ∀ (m1 m2 : irep_idt) (s : goto_convertt),
        (exception_flag m2 (exception_flag m1 s).2).2 = (exception_flag m1 s).2
        ∧ (exception_flag m2 (exception_flag m1 s).2).1 = (exception_flag m1 s).1 := by
  refine ⟨?_, rfl, exception_flag_twice mode mode' self,
    exception_flag_repeated_fixed mode self modes, ?_, ?_, ?_⟩
  · rw [exception_flag_absent mode self habsent]
  · rw [exception_flag_repeated_fixed, exception_flag_absent mode self habsent]
    exact find_append_absent self.symbol_table (exception_flag_symbol mode) habsent
  · rw [exception_flag_expression, exception_flag_expression]
  · intro m1 m2 s
    exact ⟨exception_flag_twice m1 m2 s,
      by rw [exception_flag_expression, exception_flag_expression]⟩

/-- Calls in modes `C`, then `cpp`, then `java`, `C` from the empty symbol table. -/
theorem exception_flag_idempotent_witness :
    (exception_flag "C" initial_state).2.symbol_table
        = initial_state.symbol_table ++ [exception_flag_symbol "C"]
    ∧ (exception_flag_symbol "C").name = "$exception_flag"
    ∧ (exception_flag "cpp" (exception_flag "C" initial_state).2).2
        = (exception_flag "C" initial_state).2
    ∧ exception_flag_repeated ["java", "C"] (exception_flag "C" initial_state).2
        = (exception_flag "C" initial_state).2
    ∧ symbol_tablet.find
          (exception_flag_repeated ["java", "C"]
            (exception_flag "C" initial_state).2).symbol_table
          "$exception_flag"
        = some (exception_flag_symbol "C")
    ∧ (exception_flag "cpp"
          (exception_flag_repeated ["java", "C"] (exception_flag "C" initial_state).2)).1
        = (exception_flag "C" initial_state).1
    ∧ ∀ (m1 m2 : irep_idt) (s : goto_convertt),
        (exception_flag m2 (exception_flag m1 s).2).2 = (exception_flag m1 s).2
        ∧ (exception_flag m2 (exception_flag m1 s).2).1 = (exception_flag m1 s).1 :=
  exception_flag_idempotent "C" "cpp" ["java", "C"] initial_state (by decide)

/-- C20: the symbol `exception_flag` inserts on first use is boolean-typed, thread-local
and an lvalue, with name and base name `$exception_flag`, and in the mode of the call;
the expression returned is a boolean-typed symbol expression with that identifier. -/
theorem exception_flag_symbol_attributes (mode : irep_idt) (self : goto_convertt)
    (habsent : symbol_tablet.find self.symbol_table "$exception_flag" = none) :
    ∃ symbol : symbolt,
      (exception_flag mode self).2.symbol_table = self.symbol_table ++ [symbol]
      ∧ symbol_tablet.find (exception_flag mode self).2.symbol_table "$exception_flag"
          = some symbol
      ∧ symbol.type = bool_typet
      ∧ symbol.is_thread_local = true
      ∧ symbol.is_lvalue = true
      ∧ symbol.name = "$exception_flag"
      ∧ symbol.base_name = "$exception_flag"
      ∧ symbol.mode = mode
      ∧ (exception_flag mode self).1 = symbol_exprt "$exception_flag" bool_typet
      ∧ (exception_flag mode self).1.id = ID_symbol
      ∧ (exception_flag mode self).1.get ID_type = ID_bool
      ∧ (exception_flag mode self).1.get ID_identifier = symbol.name := by
  refine ⟨exception_flag_symbol mode, ?_, ?_, rfl, rfl, rfl, rfl, rfl, rfl,
    exception_flag_expression mode self, ?_, ?_, ?_⟩
  · rw [exception_flag_absent mode self habsent]
  · rw [exception_flag_absent mode self habsent]
    exact find_append_absent self.symbol_table (exception_flag_symbol mode) habsent
  · rw [exception_flag_expression]; rfl
  · rw [exception_flag_expression]; decide
  · rw [exception_flag_expression]
    show codet.get (symbol_exprt "$exception_flag" bool_typet) ID_identifier = "$exception_flag"
    decide

/-- The symbol created by the first call in mode `C` from the empty symbol table. -/
theorem exception_flag_symbol_attributes_witness :
    ∃ symbol : symbolt,
      (exception_flag "C" initial_state).2.symbol_table
        = initial_state.symbol_table ++ [symbol]
      ∧ symbol_tablet.find (exception_flag "C" initial_state).2.symbol_table
          "$exception_flag" = some symbol
      ∧ symbol.type = bool_typet
      ∧ symbol.is_thread_local = true
      ∧ symbol.is_lvalue = true
      ∧ symbol.name = "$exception_flag"
      ∧ symbol.base_name = "$exception_flag"
      ∧ symbol.mode = "C"
      ∧ (exception_flag "C" initial_state).1 = symbol_exprt "$exception_flag" bool_typet
      ∧ (exception_flag "C" initial_state).1.id = ID_symbol
      ∧ (exception_flag "C" initial_state).1.get ID_type = ID_bool
      ∧ (exception_flag "C" initial_state).1.get ID_identifier = symbol.name :=
  exception_flag_symbol_attributes "C" initial_state (by decide)

/-- C21, as amended: the symbol `exception_flag` inserts on first use is thread-local
and is not marked file-local. -/
theorem exception_flag_not_file_local (mode : irep_idt) (self : goto_convertt)
    (habsent : symbol_tablet.find self.symbol_table "$exception_flag" = none) :
    ∃ symbol : symbolt,
      symbol_tablet.find (exception_flag mode self).2.symbol_table "$exception_flag"
        = some symbol
      ∧ symbol.is_file_local = false
      ∧ symbol.is_thread_local = true := by
  refine ⟨exception_flag_symbol mode, ?_, rfl, rfl⟩
  rw [exception_flag_absent mode self habsent]
  exact find_append_absent self.symbol_table (exception_flag_symbol mode) habsent

/-- The flag symbol created from the empty symbol table is not file-local. -/
theorem exception_flag_not_file_local_witness :
    ∃ symbol : symbolt,
      symbol_tablet.find (exception_flag "C" initial_state).2.symbol_table "$exception_flag"
        = some symbol
      ∧ symbol.is_file_local = false
      ∧ symbol.is_thread_local = true :=
  exception_flag_not_file_local "C" initial_state (by decide)

/-- C21, as stated, fails: the symbol that the first call of `exception_flag` stores in
the empty symbol table has `is_file_local` false. -/
theorem exception_flag_symbol_is_not_file_local :
    (exception_flag "C" initial_state).2.symbol_table = [exception_flag_symbol "C"]
    ∧ (exception_flag_symbol "C").is_file_local = false
    ∧ ¬ ∃ symbol ∈ (exception_flag "C" initial_state).2.symbol_table,
          symbol.is_file_local = true := by
  refine ⟨by decide, rfl, by decide⟩

/-! ## A leave inside a finally block -/

theorem get_statement_add_source_location (c : codet) (l : source_locationt) :
    (c.add_source_location l).get_statement = c.get_statement := by
  cases c
  rfl

theorem leave_diverges (other : collaboratort) :
    ∀ (fuel : Nat) (lv L : codet) (rest : List codet) (dest : goto_programt)
      (mode : irep_idt) (self : goto_convertt),
      lv.get_statement = ID_msc_leave →
      L.get_statement = ID_msc_leave →
      self.targets.leave_set = true →
      self.targets.destructor_stack.get_destructors
        (some self.targets.leave_stack_node) none = L :: rest →
      convert other fuel lv dest mode self = .error .out_of_fuel := by
  intro fuel
  induction fuel with
  | zero => intro lv L rest dest mode self _ _ _ _; rfl
  | succ n ih =>
    intro lv L rest dest mode self hlv hL hset hlist
    rw [convert_leave_dispatch other n lv dest mode self hlv,
      convert_msc_leave_eq _ lv dest mode self hset, hlist]
    have hL' : (L.add_source_location lv.source_location).get_statement = ID_msc_leave := by
      rw [get_statement_add_source_location, hL]
    simp only [unwind_each, ih (L.add_source_location lv.source_location) L rest dest mode
      self hL' hL hset hlist]

/-- C27 fails on the code: lowering `try { leave; } finally { leave; }` from the state at
the start of a function body does not return for any bound on the depth of nested
lowering calls, whatever the collaborator: the leave unwinds the registered cleanup
`leave`, whose lowering unwinds it again. -/
theorem leave_in_finally_never_returns (other : collaboratort) (fuel : Nat) :
    convert other fuel leave_in_finally [] "C" initial_state = .error .out_of_fuel := by
  cases fuel with
  | zero => rfl
  | succ n =>
    have hd : convert other (n + 1) leave_in_finally [] "C" initial_state
        = convert_msc_try_finally (convert other n) leave_in_finally [] "C" initial_state := by
      have h : leave_in_finally.get_statement = ID_msc_try_finally := rfl
      simp only [convert, h, if_true]
    rw [hd, convert_msc_try_finally_eq _ leave_in_finally sample_leave sample_leave [] "C"
      initial_state rfl]
    rw [leave_diverges other n sample_leave sample_leave [] [] "C"
      (msc_try_state initial_state sample_leave) rfl rfl rfl (by decide)]

/-! ## Handler targets of the structural try/catch -/

theorem mem_handler_region (e : targett) :
    ∀ (frags : List (goto_programt × Nat)) (f : goto_programt × Nat) (x : instructiont),
      f ∈ frags → x ∈ f.1 → x ∈ handler_region e frags := by
  intro frags
  induction frags with
  | nil => intro f x hf; simp at hf
  | cons g gs ih =>
    intro f x hf hx
    simp only [handler_region, List.mem_append]
    rcases List.mem_cons.mp hf with h | h
    · subst h
      exact Or.inl (Or.inl hx)
    · exact Or.inr (ih f x h hx)

/-- C28: in `convert_try_catch` the targets recorded on the CATCH-push instruction are
instructions of the output when every handler lowers to at least one instruction; a
handler that lowers to the empty fragment has the past-the-end position recorded as its
target, and that target denotes no instruction of the output. -/
theorem convert_try_catch_targets_in_dest (convert : convertt) (code S : codet)
    (Hs : List codet) (dest S' : goto_programt) (mode : irep_idt)
    (self selfS self' : goto_convertt) (frags : List (goto_programt × Nat))
    (hops : code.operands = S :: Hs) (hn : Hs ≠ [])
    (hS : convert S (dest ++ [catch_push_initial self.next_address code.source_location]) mode
            self.allocated.allocated
          = .ok (dest ++ [catch_push_initial self.next_address code.source_location] ++ S',
                 selfS))
    (hH : lower_handlers convert mode Hs selfS.allocated.allocated = .ok (frags, self'))
    (huniq : ∀ i ∈ dest ++ S'
                ++ [catch_pop selfS.next_address,
                    goto_at (selfS.next_address + 1) (targett.instruction (self.next_address + 1))]
                ++ handler_region (targett.instruction (self.next_address + 1)) frags,
              i.address ≠ self.next_address) :
    ∃ (dest' : goto_programt) (push : instructiont),
      convert_try_catch convert code dest mode self = .ok (dest', self')
      ∧ dest'[dest.length]? = some push
      ∧ push.targets = frags.map (fun f => f.1.begin)
      ∧ ((∀ f ∈ frags, f.1 ≠ []) →
          ∀ t ∈ push.targets, ∃ x ∈ dest', t = targett.instruction x.address)
      ∧ (∀ (i a : Nat), frags[i]? = some ([], a) →
          push.targets[i]? = some targett.past_the_end
          ∧ goto_programt.position dest' targett.past_the_end = none
          ∧ ∀ x ∈ dest', targett.instruction x.address ≠ targett.past_the_end) := by
  refine ⟨_, catch_push self.next_address code.source_location
      (frags.map (fun f => f.1.begin)) (Hs.map (fun b => b.get ID_exception_id)),
    convert_try_catch_eq convert code S Hs dest S' mode self selfS self' frags hops hn hS hH
      huniq, ?_, ?_, ?_, ?_⟩
  · simp only [List.append_assoc, List.singleton_append]
    exact getElem?_append_cons_length dest _ _
  · rfl
  · intro hne t ht
    simp only [catch_push, List.mem_map] at ht
    obtain ⟨f, hf, hft⟩ := ht
    cases hfl : f.1 with
    | nil => exact absurd hfl (hne f hf)
    | cons x xs =>
      refine ⟨x, ?_, ?_⟩
      · have hx : x ∈ handler_region (targett.instruction (self.next_address + 1)) frags :=
          mem_handler_region _ frags f x hf (by rw [hfl]; exact List.mem_cons_self x xs)
        simp only [List.mem_append]
        exact Or.inl (Or.inr hx)
      · rw [← hft, hfl]
        rfl
  · intro i a hi
    refine ⟨?_, rfl, ?_⟩
    · simp [catch_push, hi, goto_programt.begin]
    · intro x _ h
      cases h

/-- The targets for `try { 1 } catch(KindA) { 2 } catch(KindB) { 3 }`, whose handlers
lower to one instruction each. -/
theorem convert_try_catch_targets_in_dest_witness :
    ∃ (dest' : goto_programt) (push : instructiont),
      convert_try_catch (convert ordinary 1) sample_try_catch [] "C" initial_state
        = .ok (dest', initial_state_at 10)
      ∧ dest'[([] : goto_programt).length]? = some push
      ∧ push.targets
          = [(([other_at 6 (handler "KindA" 2)] : goto_programt), 7),
             ([other_at 8 (handler "KindB" 3)], 9)].map (fun f => goto_programt.begin f.1)
      ∧ ((∀ f ∈ [(([other_at 6 (handler "KindA" 2)] : goto_programt), 7),
                 ([other_at 8 (handler "KindB" 3)], 9)], f.1 ≠ []) →
          ∀ t ∈ push.targets, ∃ x ∈ dest', t = targett.instruction x.address)
      ∧ (∀ (i a : Nat),
          [(([other_at 6 (handler "KindA" 2)] : goto_programt), 7),
           ([other_at 8 (handler "KindB" 3)], 9)][i]? = some ([], a) →
          push.targets[i]? = some targett.past_the_end
          ∧ goto_programt.position dest' targett.past_the_end = none
          ∧ ∀ x ∈ dest', targett.instruction x.address ≠ targett.past_the_end) :=
  convert_try_catch_targets_in_dest (convert ordinary 1) sample_try_catch
    (expression_statement 1) [handler "KindA" 2, handler "KindB" 3] []
    [other_at 3 (expression_statement 1)] "C"
    initial_state (initial_state_at 4) (initial_state_at 10)
    [([other_at 6 (handler "KindA" 2)], 7), ([other_at 8 (handler "KindB" 3)], 9)]
    rfl (by simp) (by decide) (by decide) (by decide)

/-! ## Frame of unwinding -/

theorem unwind_each_congr (convert convert' : convertt) (location : source_locationt)
    (mode : irep_idt) :
    ∀ (stack : List codet) (dest : goto_programt) (self : goto_convertt),
      (∀ c ∈ stack, ∀ d s, convert' (c.add_source_location location) d mode s
          = convert (c.add_source_location location) d mode s) →
      unwind_each convert' location mode stack dest self
        = unwind_each convert location mode stack dest self := by
  intro stack
  induction stack with
  | nil => intro dest self _; rfl
  | cons c cs ih =>
    intro dest self h
    simp only [unwind_each, h c (List.mem_cons_self c cs)]
    cases convert (c.add_source_location location) dest mode self with
    | error e => rfl
    | ok r => exact ih r.1 r.2 (fun c' hc' => h c' (List.mem_cons_of_mem c hc'))

theorem source_location_add_source_location (c : codet) (l : source_locationt) :
    (c.add_source_location l).source_location = l := by
  cases c
  rfl

/-- C26: `unwind_destructor_stack` hands to the nested lowering only copies of the
cleanups of its list with the source location replaced by the location argument (its
result depends on the nested lowering through those statements alone, and each carries
exactly that location); and when the nested lowering keeps the destructor stack, unwind
returns with the destructor stack it was entered with: the stored statements, with their
own locations, and the current node. -/
theorem unwind_destructor_stack_frame (convert : convertt) (location : source_locationt)
    (dest : goto_programt) (mode : irep_idt)
    (destructor_end_point destructor_start_point : Option node_indext)
    (self : goto_convertt) (r : Bool × goto_programt × goto_convertt)
    (hkeep : ∀ c d s q, convert c d mode s = .ok q
              → q.2.targets.destructor_stack = s.targets.destructor_stack)
    (hr : unwind_destructor_stack convert location dest mode destructor_end_point
            destructor_start_point self = .ok r) :
    r.2.2.targets.destructor_stack = self.targets.destructor_stack
    ∧ r.2.2.targets.destructor_stack.current_node
        = self.targets.destructor_stack.current_node
    ∧ r.2.2.targets.destructor_stack.get_destructors destructor_end_point
          destructor_start_point
        = self.targets.destructor_stack.get_destructors destructor_end_point
            destructor_start_point
    ∧ (∀ c : codet, (c.add_source_location location).source_location = location)
    ∧ (∀ convert' : convertt,
        (∀ c ∈ self.targets.destructor_stack.get_destructors destructor_end_point
                destructor_start_point,
          ∀ d s, convert' (c.add_source_location location) d mode s
            = convert (c.add_source_location location) d mode s) →
        unwind_destructor_stack convert' location dest mode destructor_end_point
            destructor_start_point self
          = unwind_destructor_stack convert location dest mode destructor_end_point
              destructor_start_point self) := by
  have hstack : r.2.2.targets.destructor_stack = self.targets.destructor_stack := by
    simp only [unwind_destructor_stack, unwind_destructor_stack_on] at hr
    split at hr
    · simp at hr
    · rename_i q hq
      simp only [Except.ok.injEq] at hr
      subst hr
      exact unwind_each_preserves (fun s => s.targets.destructor_stack) convert location mode
        hkeep _ dest self q hq
  refine ⟨hstack, by rw [hstack], by rw [hstack],
    fun c => source_location_add_source_location c location, ?_⟩
  intro convert' h
  simp only [unwind_destructor_stack, unwind_destructor_stack_on]
  rw [unwind_each_congr convert convert' location mode _ dest self h]

/-- Unwinding a stack of two cleanups with a nested lowering that passes statements
through. -/
theorem unwind_destructor_stack_frame_witness :
    ((true, [other_at 1 ((expression_statement 2).add_source_location (some 60)),
             other_at 2 ((expression_statement 1).add_source_location (some 60))],
        two_cleanups_state.allocated.allocated)
          : Bool × goto_programt × goto_convertt).2.2.targets.destructor_stack
        = two_cleanups_state.targets.destructor_stack
    ∧ ((true, [other_at 1 ((expression_statement 2).add_source_location (some 60)),
               other_at 2 ((expression_statement 1).add_source_location (some 60))],
          two_cleanups_state.allocated.allocated)
            : Bool × goto_programt × goto_convertt).2.2.targets.destructor_stack.current_node
        = two_cleanups_state.targets.destructor_stack.current_node
    ∧ ((true, [other_at 1 ((expression_statement 2).add_source_location (some 60)),
               other_at 2 ((expression_statement 1).add_source_location (some 60))],
          two_cleanups_state.allocated.allocated)
            : Bool × goto_programt × goto_convertt).2.2.targets.destructor_stack.get_destructors
          none none
        = two_cleanups_state.targets.destructor_stack.get_destructors none none
    ∧ (∀ c : codet, (c.add_source_location (some 60)).source_location = some 60)
    ∧ (∀ convert' : convertt,
        (∀ c ∈ two_cleanups_state.targets.destructor_stack.get_destructors none none,
          ∀ d s, convert' (c.add_source_location (some 60)) d "C" s
            = lower_as_other (c.add_source_location (some 60)) d "C" s) →
        unwind_destructor_stack convert' (some 60) [] "C" none none two_cleanups_state
          = unwind_destructor_stack lower_as_other (some 60) [] "C" none none
              two_cleanups_state) :=
  unwind_destructor_stack_frame lower_as_other (some 60) [] "C" none none two_cleanups_state
    _ (fun _ _ _ _ h => by cases h; rfl) (by decide)

/-! ## Leave after a sibling try/finally -/

theorem convert_CPROVER_try_finally_eq (convert : convertt) (code S F : codet)
    (dest : goto_programt) (mode : irep_idt) (self : goto_convertt)
    (hops : code.operands = [S, F]) :
    convert_CPROVER_try_finally convert code dest mode self
      = match convert S dest mode (CPROVER_finally_try_state self F) with
        | .error e => .error e
        | .ok r => convert F r.1 mode (CPROVER_finally_state self r.2) := by
  have hlen : ¬ (code.operands.length ≠ 2) := by simp [hops]
  have hop0 : code.op0 = S := by simp [codet.op0, hops]
  have hop1 : code.op1 = F := by simp [codet.op1, hops]
  unfold convert_CPROVER_try_finally
  rw [if_neg hlen]
  simp only [hop0, hop1]
  rfl

/-- C30: `convert_CPROVER_try_finally` appends exactly the lowering of the guarded block
`S` followed by the lowering of the finally block `F`, with no join.  `F` is the
innermost cleanup while `S` is lowered and is off the path again when `F` itself is
lowered; the procedure writes neither the leave nor the throw target.  So a leave lowered
in the guarded block emits the lowered `F` first, then the cleanups pending in the
enclosing scope since its leave target was established, then a GOTO to that enclosing
leave target. -/
theorem convert_CPROVER_try_finally_emits (other : collaboratort) (fuel : Nat)
    (code S F lv : codet) (dest S' F' d Fu : goto_programt) (mode : irep_idt)
    (self selfS selfF s1 selfU : goto_convertt) (rest : List goto_programt)
    (hops : code.operands = [S, F])
    (hS : convert other (fuel + 1) S dest mode (CPROVER_finally_try_state self F)
          = .ok (dest ++ S', selfS))
    (hF : convert other (fuel + 1) F (dest ++ S') mode (CPROVER_finally_state self selfS)
          = .ok (dest ++ S' ++ F', selfF))
    (hset : self.targets.leave_set = true)
    (hnode : self.targets.leave_stack_node ≤ self.targets.destructor_stack.nodes.length)
    (hlv : lv.get_statement = ID_msc_leave)
    (hFu : convert other fuel (F.add_source_location lv.source_location) d mode
            (CPROVER_finally_try_state self F) = .ok (d ++ Fu, s1))
    (hrest : lowered_in_order (convert other fuel) mode
              ((self.targets.destructor_stack.get_destructors
                  (some self.targets.leave_stack_node) none).map
                (fun c => c.add_source_location lv.source_location))
              rest (d ++ Fu) s1 selfU)
    (hUl : selfU.targets.leave_target = self.targets.leave_target) :
    convert_CPROVER_try_finally (convert other (fuel + 1)) code dest mode self
      = .ok (dest ++ S' ++ F', selfF)
    ∧ ambient_targets (CPROVER_finally_try_state self F) = ambient_targets self
    ∧ ambient_targets (CPROVER_finally_state self selfS) = ambient_targets selfS
    ∧ (CPROVER_finally_try_state self F).targets.destructor_stack.get_destructors none none
        = F :: self.targets.destructor_stack.get_destructors none none
    ∧ (CPROVER_finally_state self selfS).targets.destructor_stack.current_node
        = self.targets.destructor_stack.current_node
    ∧ (CPROVER_finally_try_state self F).targets.destructor_stack.get_destructors
          (some (CPROVER_finally_try_state self F).targets.leave_stack_node) none
        = F :: self.targets.destructor_stack.get_destructors
                (some self.targets.leave_stack_node) none
    ∧ convert other (fuel + 1) lv d mode (CPROVER_finally_try_state self F)
        = .ok (d ++ Fu ++ concat_fragments rest
                ++ [goto_located selfU.next_address self.targets.leave_target
                      lv.source_location],
               selfU.allocated)
    ∧ cbmc.convert ordinary 4 sample_CPROVER_try_finally [] "C" enclosed_state
        = .ok (sample_CPROVER_try_finally_output,
               enclosed_state_after [{ parent := 1, destructor := expression_statement 2 }]
                 [] 6) := by
  have hlist : (CPROVER_finally_try_state self F).targets.destructor_stack.get_destructors
        (some (CPROVER_finally_try_state self F).targets.leave_stack_node) none
      = F :: self.targets.destructor_stack.get_destructors
              (some self.targets.leave_stack_node) none :=
    get_destructors_add _ _ _ hnode
  refine ⟨?_, rfl, rfl, get_destructors_add_root _ _, rfl, hlist, ?_, by decide!⟩
  · exact (convert_CPROVER_try_finally_eq _ code S F dest mode self hops).trans
      (by simp only [hS]; exact hF)
  · have hset' : (CPROVER_finally_try_state self F).targets.leave_set = true := hset
    rw [convert_leave_dispatch other fuel lv d mode _ hlv,
      convert_msc_leave_eq _ lv d mode _ hset', hlist]
    have hU : lowered_in_order (convert other fuel) mode
        ((F :: self.targets.destructor_stack.get_destructors
            (some self.targets.leave_stack_node) none).map
          (fun c => c.add_source_location lv.source_location))
        (Fu :: rest) d (CPROVER_finally_try_state self F) selfU := ⟨s1, hFu, hrest⟩
    rw [unwind_each_eq _ lv.source_location mode _ (Fu :: rest) _ _ selfU hU]
    simp only [hUl, concat_fragments, List.append_assoc]

/-- The construct `CPROVER_try_finally { 1 } { 2 }` and a leave lowered in its guarded
block, inside an enclosing scope. -/
theorem convert_CPROVER_try_finally_emits_witness :
    convert_CPROVER_try_finally (convert ordinary (1 + 1)) sample_CPROVER_try_finally_plain
        [] "C" enclosed_state
      = .ok ([] ++ [other_at 2 (expression_statement 1)]
              ++ [other_at 3 (expression_statement 2)],
             (CPROVER_finally_state enclosed_state
               (CPROVER_finally_try_state enclosed_state
                 (expression_statement 2)).allocated).allocated)
    ∧ ambient_targets (CPROVER_finally_try_state enclosed_state (expression_statement 2))
        = ambient_targets enclosed_state
    ∧ ambient_targets
        (CPROVER_finally_state enclosed_state
          (CPROVER_finally_try_state enclosed_state (expression_statement 2)).allocated)
        = ambient_targets
            (CPROVER_finally_try_state enclosed_state (expression_statement 2)).allocated
    ∧ (CPROVER_finally_try_state enclosed_state
          (expression_statement 2)).targets.destructor_stack.get_destructors none none
        = expression_statement 2
            :: enclosed_state.targets.destructor_stack.get_destructors none none
    ∧ (CPROVER_finally_state enclosed_state
          (CPROVER_finally_try_state enclosed_state
            (expression_statement 2)).allocated).targets.destructor_stack.current_node
        = enclosed_state.targets.destructor_stack.current_node
    ∧ (CPROVER_finally_try_state enclosed_state
          (expression_statement 2)).targets.destructor_stack.get_destructors
          (some (CPROVER_finally_try_state enclosed_state
            (expression_statement 2)).targets.leave_stack_node) none
        = expression_statement 2
            :: enclosed_state.targets.destructor_stack.get_destructors
                (some enclosed_state.targets.leave_stack_node) none
    ∧ convert ordinary (1 + 1) sample_leave [] "C"
          (CPROVER_finally_try_state enclosed_state (expression_statement 2))
        = .ok ([] ++ [other_at 2 ((expression_statement 2).add_source_location (some 50))]
                ++ concat_fragments
                    [[other_at 3 ((expression_statement 9).add_source_location (some 50))]]
                ++ [goto_located
                      (CPROVER_finally_try_state enclosed_state
                        (expression_statement 2)).allocated.allocated.next_address
                      enclosed_state.targets.leave_target sample_leave.source_location],
               (CPROVER_finally_try_state enclosed_state
                 (expression_statement 2)).allocated.allocated.allocated)
    ∧ convert ordinary 4 sample_CPROVER_try_finally [] "C" enclosed_state
        = .ok (sample_CPROVER_try_finally_output,
               enclosed_state_after [{ parent := 1, destructor := expression_statement 2 }]
                 [] 6) :=
  convert_CPROVER_try_finally_emits ordinary 1 sample_CPROVER_try_finally_plain
    (expression_statement 1) (expression_statement 2) sample_leave []
    [other_at 2 (expression_statement 1)] [other_at 3 (expression_statement 2)] []
    [other_at 2 ((expression_statement 2).add_source_location (some 50))] "C"
    enclosed_state
    (CPROVER_finally_try_state enclosed_state (expression_statement 2)).allocated
    (CPROVER_finally_state enclosed_state
      (CPROVER_finally_try_state enclosed_state (expression_statement 2)).allocated).allocated
    (CPROVER_finally_try_state enclosed_state (expression_statement 2)).allocated
    (CPROVER_finally_try_state enclosed_state (expression_statement 2)).allocated.allocated
    [[other_at 3 ((expression_statement 9).add_source_location (some 50))]]
    rfl (by decide) (by decide) rfl (by decide) rfl (by decide)
    ⟨(CPROVER_finally_try_state enclosed_state (expression_statement 2)).allocated.allocated,
      by decide, rfl⟩
    rfl

/-! ## Throw across nested scopes -/

theorem exception_flag_stable (mode mode' : irep_idt) (self s : goto_convertt)
    (h : s.symbol_table = (exception_flag mode self).2.symbol_table) :
    exception_flag mode' s = (symbol_exprt "$exception_flag" bool_typet, s) := by
  cases hf : symbol_tablet.find self.symbol_table "$exception_flag" with
  | none =>
    rw [exception_flag_absent mode self hf] at h
    have hfind := find_append_absent self.symbol_table (exception_flag_symbol mode) hf
    have hs : symbol_tablet.find s.symbol_table "$exception_flag"
        = some (exception_flag_symbol mode) := by rw [h]; exact hfind
    exact exception_flag_present mode' s _ hs
  | some x =>
    rw [exception_flag_present mode self x hf] at h
    have hs : symbol_tablet.find s.symbol_table "$exception_flag" = some x := by
      rw [h]; exact hf
    exact exception_flag_present mode' s _ hs

theorem convert_msc_try_finally_dispatch (other : collaboratort) (fuel : Nat) (c : codet)
    (dest : goto_programt) (mode : irep_idt) (self : goto_convertt)
    (hc : c.get_statement = ID_msc_try_finally) :
    convert other (fuel + 1) c dest mode self
      = convert_msc_try_finally (convert other fuel) c dest mode self := by
  simp only [convert, hc, if_true]

theorem convert_CPROVER_try_catch_dispatch (other : collaboratort) (fuel : Nat) (c : codet)
    (dest : goto_programt) (mode : irep_idt) (self : goto_convertt)
    (hc : c.get_statement = ID_CPROVER_try_catch) :
    convert other (fuel + 1) c dest mode self
      = convert_CPROVER_try_catch (convert other fuel) c dest mode self := by
  have h1 : ID_CPROVER_try_catch ≠ ID_msc_try_finally := by decide
  have h2 : ID_CPROVER_try_catch ≠ ID_msc_try_except := by decide
  have h3 : ID_CPROVER_try_catch ≠ ID_msc_leave := by decide
  have h4 : ID_CPROVER_try_catch ≠ ID_try_catch := by decide
  simp only [convert, hc, if_neg h1, if_neg h2, if_neg h3, if_neg h4, if_true]

theorem convert_CPROVER_throw_dispatch (other : collaboratort) (fuel : Nat) (c : codet)
    (dest : goto_programt) (mode : irep_idt) (self : goto_convertt)
    (hc : c.get_statement = ID_CPROVER_throw) :
    convert other (fuel + 1) c dest mode self
      = convert_CPROVER_throw (convert other fuel) c dest mode self := by
  have h1 : ID_CPROVER_throw ≠ ID_msc_try_finally := by decide
  have h2 : ID_CPROVER_throw ≠ ID_msc_try_except := by decide
  have h3 : ID_CPROVER_throw ≠ ID_msc_leave := by decide
  have h4 : ID_CPROVER_throw ≠ ID_try_catch := by decide
  have h5 : ID_CPROVER_throw ≠ ID_CPROVER_try_catch := by decide
  simp only [convert, hc, if_neg h1, if_neg h2, if_neg h3, if_neg h4, if_neg h5, if_true]

theorem get_destructors_add_add (t : destructor_treet) (c1 c2 : codet)
    (hvalid : t.current_node ≤ t.nodes.length) :
    ((t.add c1).add c2).get_destructors (some t.current_node) none = [c2, c1] := by
  have h1 : t.current_node ≤ (t.add c1).nodes.length := Nat.le_succ_of_le hvalid
  rw [get_destructors_add (t.add c1) c2 t.current_node h1,
    get_destructors_add t c1 t.current_node hvalid]
  simp [destructor_treet.get_destructors, destructors_between_self]

/-- C25: in `CPROVER_try_catch { msc_try_finally { throw } { F } } { H }` the throw is
lowered with the finally block `F` and then the conditional handler `if (flag) H` as the
only cleanups up to the node of the throw target, and that target is the join of this
`CPROVER_try_catch`, whatever throw target and cleanups the enclosing scope has.  So the
throw emits the ASSIGN to the flag, the lowered `F`, the lowered conditional and a GOTO
to the join of the `CPROVER_try_catch`, which is the last instruction of the whole
output. -/
theorem nested_throw_unwinds_inner_first (other : collaboratort) (fuel : Nat)
    (code inner tw F H : codet) (dest Ff Hf Ffall : goto_programt) (mode : irep_idt)
    (self s1 selfU selfF : goto_convertt)
    (hcode : code.get_statement = ID_CPROVER_try_catch)
    (hops : code.operands = [inner, H])
    (hinner : inner.get_statement = ID_msc_try_finally)
    (hiops : inner.operands = [tw, F])
    (htw : tw.get_statement = ID_CPROVER_throw)
    (hvalid : self.targets.destructor_stack.current_node
                ≤ self.targets.destructor_stack.nodes.length)
    (hF : convert other fuel (F.add_source_location tw.source_location)
            (dest ++ [assign_flag_at (self.next_address + 2) tw.source_location]) mode
            (msc_try_state (CPROVER_try_state self code.source_location H mode) F).allocated
          = .ok (dest ++ [assign_flag_at (self.next_address + 2) tw.source_location] ++ Ff,
                 s1))
    (hH : convert other fuel
            ((catch_cleanup H code.source_location).add_source_location tw.source_location)
            (dest ++ [assign_flag_at (self.next_address + 2) tw.source_location] ++ Ff)
            mode s1
          = .ok (dest ++ [assign_flag_at (self.next_address + 2) tw.source_location] ++ Ff
                  ++ Hf, selfU))
    (hUt : selfU.targets.throw_target = targett.instruction self.next_address)
    (hFall : convert other (fuel + 1) F
              (dest ++ [assign_flag_at (self.next_address + 2) tw.source_location] ++ Ff
                ++ Hf
                ++ [goto_located selfU.next_address (targett.instruction self.next_address)
                      tw.source_location])
              mode
              (msc_finally_state (CPROVER_try_state self code.source_location H mode)
                selfU.allocated)
            = .ok (dest ++ [assign_flag_at (self.next_address + 2) tw.source_location] ++ Ff
                    ++ Hf
                    ++ [goto_located selfU.next_address
                          (targett.instruction self.next_address) tw.source_location]
                    ++ Ffall, selfF)) :
    (msc_try_state (CPROVER_try_state self code.source_location H mode)
        F).targets.throw_target = targett.instruction self.next_address
    ∧ (msc_try_state (CPROVER_try_state self code.source_location H mode)
        F).targets.destructor_stack.get_destructors
          (some (msc_try_state (CPROVER_try_state self code.source_location H mode)
            F).targets.throw_stack_node) none
        = [F, catch_cleanup H code.source_location]
    ∧ convert other (fuel + 1) tw dest mode
          (msc_try_state (CPROVER_try_state self code.source_location H mode) F)
        = .ok (dest ++ [assign_flag_at (self.next_address + 2) tw.source_location] ++ Ff
                ++ Hf
                ++ [goto_located selfU.next_address (targett.instruction self.next_address)
                      tw.source_location],
               selfU.allocated)
    ∧ convert other (fuel + 3) code dest mode self
        = .ok (dest ++ [assign_flag_at (self.next_address + 2) tw.source_location] ++ Ff
                ++ Hf
                ++ [goto_located selfU.next_address (targett.instruction self.next_address)
                      tw.source_location]
                ++ Ffall
                ++ [skip_at (self.next_address + 1) inner.source_location]
                ++ [skip_at self.next_address code.source_location],
               CPROVER_catch_end_state self selfF)
    ∧ cbmc.convert ordinary 6 sample_outer_catch [] "C" initial_state
        = .ok (sample_outer_catch_output, sample_outer_catch_state) := by
  have hlist : (msc_try_state (CPROVER_try_state self code.source_location H mode)
        F).targets.destructor_stack.get_destructors
          (some (msc_try_state (CPROVER_try_state self code.source_location H mode)
            F).targets.throw_stack_node) none
        = [F, catch_cleanup H code.source_location] :=
    get_destructors_add_add self.targets.destructor_stack _ F hvalid
  have hthrow : convert other (fuel + 1) tw dest mode
          (msc_try_state (CPROVER_try_state self code.source_location H mode) F)
        = .ok (dest ++ [assign_flag_at (self.next_address + 2) tw.source_location] ++ Ff
                ++ Hf
                ++ [goto_located selfU.next_address (targett.instruction self.next_address)
                      tw.source_location],
               selfU.allocated) := by
    have hset : (msc_try_state (CPROVER_try_state self code.source_location H mode)
        F).targets.throw_set = true := rfl
    have hflag : (exception_flag mode
        (msc_try_state (CPROVER_try_state self code.source_location H mode) F).allocated).2
        = (msc_try_state (CPROVER_try_state self code.source_location H mode) F).allocated := by
      rw [exception_flag_stable mode mode self
        (msc_try_state (CPROVER_try_state self code.source_location H mode) F).allocated rfl]
    have hU : lowered_in_order (convert other fuel) mode
        ([F, catch_cleanup H code.source_location].map
          (fun c => c.add_source_location tw.source_location))
        [Ff, Hf] (dest ++ [assign_flag_at (self.next_address + 2) tw.source_location])
        (msc_try_state (CPROVER_try_state self code.source_location H mode) F).allocated
        selfU := ⟨s1, hF, selfU, hH, rfl⟩
    rw [convert_CPROVER_throw_dispatch other fuel tw dest mode _ htw,
      convert_CPROVER_throw_eq, hset, if_pos rfl, hlist, hflag]
    have hn : (msc_try_state (CPROVER_try_state self code.source_location H mode)
        F).next_address = self.next_address + 2 := rfl
    rw [hn, unwind_each_eq _ tw.source_location mode _ [Ff, Hf] _ _ selfU hU]
    simp only [if_pos, hUt, concat_fragments, List.append_assoc, List.append_nil]
  refine ⟨rfl, hlist, hthrow, ?_, by decide!⟩
  rw [convert_CPROVER_try_catch_dispatch other (fuel + 2) code dest mode self hcode,
    convert_CPROVER_try_catch_eq _ code inner H dest mode self hops,
    convert_msc_try_finally_dispatch other (fuel + 1) inner dest mode _ hinner,
    convert_msc_try_finally_eq _ inner tw F dest mode _ hiops, hthrow]
  simp only [hFall]
  rfl

/-- The statement `CPROVER_try_catch { __try { throw; } __finally { 1 } } { 3 }` lowered
inside the guarded block of an enclosing internal try/catch. -/
theorem nested_throw_unwinds_inner_first_witness :
    nested_throw_state.targets.throw_target = targett.instruction 2
    ∧ nested_throw_state.targets.destructor_stack.get_destructors
          (some nested_throw_state.targets.throw_stack_node) none
        = [expression_statement 1, catch_cleanup (expression_statement 3) (some 80)]
    ∧ convert ordinary (1 + 1) sample_CPROVER_throw [] "C" nested_throw_state
        = .ok ([] ++ [assign_flag_at (2 + 2) (some 60)]
                ++ [other_at 5 ((expression_statement 1).add_source_location (some 60))]
                ++ [other_at 6 ((catch_cleanup (expression_statement 3)
                      (some 80)).add_source_location (some 60))]
                ++ [goto_located 7 (targett.instruction 2) (some 60)],
               nested_throw_state.allocated.allocated.allocated.allocated)
    ∧ convert ordinary (1 + 3) sample_catch_finally_throw [] "C" catching_state
        = .ok ([] ++ [assign_flag_at (2 + 2) (some 60)]
                ++ [other_at 5 ((expression_statement 1).add_source_location (some 60))]
                ++ [other_at 6 ((catch_cleanup (expression_statement 3)
                      (some 80)).add_source_location (some 60))]
                ++ [goto_located 7 (targett.instruction 2) (some 60)]
                ++ [other_at 8 (expression_statement 1)]
                ++ [skip_at (2 + 1) (some 70)]
                ++ [skip_at 2 (some 80)],
               CPROVER_catch_end_state catching_state
                 (msc_finally_state
                   (CPROVER_try_state catching_state (some 80) (expression_statement 3) "C")
                   nested_throw_state.allocated.allocated.allocated.allocated).allocated)
    ∧ convert ordinary 6 sample_outer_catch [] "C" initial_state
        = .ok (sample_outer_catch_output, sample_outer_catch_state) :=
  nested_throw_unwinds_inner_first ordinary 1 sample_catch_finally_throw sample_finally_throw
    sample_CPROVER_throw (expression_statement 1) (expression_statement 3) []
    [other_at 5 ((expression_statement 1).add_source_location (some 60))]
    [other_at 6 ((catch_cleanup (expression_statement 3)
      (some 80)).add_source_location (some 60))]
    [other_at 8 (expression_statement 1)] "C" catching_state
    nested_throw_state.allocated.allocated
    nested_throw_state.allocated.allocated.allocated
    (msc_finally_state
      (CPROVER_try_state catching_state (some 80) (expression_statement 3) "C")
      nested_throw_state.allocated.allocated.allocated.allocated).allocated
    (by decide) rfl (by decide) rfl (by decide) (by decide) (by decide) (by decide) rfl
    (by decide)

/-! ## Mode independence of the procedures -/

theorem same_up_to_mode_refl (s : goto_convertt) : same_up_to_mode s s := ⟨rfl, rfl, rfl⟩

theorem without_flag_mode_name (s : symbolt) : s.without_flag_mode.name = s.name := by
  unfold symbolt.without_flag_mode
  split <;> rfl

theorem find_without_flag_mode (t : symbol_tablet) (id : irep_idt) :
    symbol_tablet.find t.without_flag_mode id
      = (symbol_tablet.find t id).map symbolt.without_flag_mode := by
  induction t with
  | nil => rfl
  | cons x xs ih =>
    simp only [symbol_tablet.find, symbol_tablet.without_flag_mode, List.map_cons,
      List.find?_cons, without_flag_mode_name] at ih ⊢
    by_cases hx : x.name = id
    · simp [hx]
    · simp only [hx, decide_False]
      exact ih

theorem exception_flag_same (m1 m2 : irep_idt) (s1 s2 : goto_convertt)
    (h : same_up_to_mode s1 s2) :
    same_up_to_mode (exception_flag m1 s1).2 (exception_flag m2 s2).2 := by
  obtain ⟨ht, hn, hs⟩ := h
  have hfind := congrArg (fun t => symbol_tablet.find t "$exception_flag") hs
  simp only [find_without_flag_mode] at hfind
  cases h1 : symbol_tablet.find s1.symbol_table "$exception_flag" with
  | none =>
    cases h2 : symbol_tablet.find s2.symbol_table "$exception_flag" with
    | none =>
      rw [exception_flag_absent m1 s1 h1, exception_flag_absent m2 s2 h2]
      refine ⟨ht, hn, ?_⟩
      simp only [symbol_tablet.without_flag_mode, List.map_append] at hs ⊢
      rw [hs]
      rfl
    | some y => rw [h1, h2] at hfind; simp at hfind
  | some x =>
    cases h2 : symbol_tablet.find s2.symbol_table "$exception_flag" with
    | none => rw [h1, h2] at hfind; simp at hfind
    | some y =>
      rw [exception_flag_present m1 s1 x h1, exception_flag_present m2 s2 y h2]
      exact ⟨ht, hn, hs⟩

theorem same_result_match (a1 a2 : resultt)
    (k1 k2 : goto_programt × goto_convertt → resultt) :
    same_result a1 a2 →
    (∀ r1 r2, r1.1 = r2.1 → same_up_to_mode r1.2 r2.2 → same_result (k1 r1) (k2 r2)) →
    same_result
      (match a1 with
        | .error e => .error e
        | .ok r => k1 r)
      (match a2 with
        | .error e => .error e
        | .ok r => k2 r) := by
  intro h hk
  cases a1 with
  | error e1 =>
    cases a2 with
    | error e2 => exact h
    | ok r2 => exact False.elim h
  | ok r1 =>
    cases a2 with
    | error e2 => exact False.elim h
    | ok r2 => exact hk r1 r2 h.1 h.2

theorem unwind_each_mode_independent (conv : convertt) (hconv : mode_independent conv)
    (location : source_locationt) (m1 m2 : irep_idt) :
    ∀ (stack : List codet) (dest : goto_programt) (s1 s2 : goto_convertt),
      same_up_to_mode s1 s2 →
      same_result (unwind_each conv location m1 stack dest s1)
        (unwind_each conv location m2 stack dest s2) := by
  intro stack
  induction stack with
  | nil => intro dest s1 s2 h; exact ⟨rfl, h⟩
  | cons c cs ih =>
    intro dest s1 s2 h
    simp only [unwind_each]
    refine same_result_match _ _ _ _ (hconv _ dest m1 m2 s1 s2 h) ?_
    intro r1 r2 hd hs
    rw [hd]
    exact ih _ _ _ hs

theorem convert_sequence_mode_independent (conv : convertt) (hconv : mode_independent conv)
    (m1 m2 : irep_idt) :
    ∀ (cs : List codet) (dest : goto_programt) (s1 s2 : goto_convertt),
      same_up_to_mode s1 s2 →
      same_result (convert_sequence conv m1 cs dest s1) (convert_sequence conv m2 cs dest s2) := by
  intro cs
  induction cs with
  | nil => intro dest s1 s2 h; exact ⟨rfl, h⟩
  | cons c cs ih =>
    intro dest s1 s2 h
    simp only [convert_sequence]
    refine same_result_match _ _ _ _ (hconv _ dest m1 m2 s1 s2 h) ?_
    intro r1 r2 hd hs
    rw [hd]
    exact ih _ _ _ hs

theorem ordinary_mode_independent (conv : convertt) (hconv : mode_independent conv) :
    mode_independent (ordinary conv) := by
  intro code dest m1 m2 s1 s2 h
  unfold ordinary
  split
  · exact convert_sequence_mode_independent conv hconv m1 m2 _ _ _ _ h
  · exact ⟨by rw [h.2.1], h.1, by simp [goto_convertt.allocated, h.2.1], h.2.2⟩

theorem lower_as_other_mode_independent : mode_independent lower_as_other := by
  intro code dest m1 m2 s1 s2 h
  exact ⟨by rw [h.2.1], h.1, by simp [goto_convertt.allocated, h.2.1], h.2.2⟩

theorem unwind_destructor_stack_mode_independent (conv : convertt)
    (hconv : mode_independent conv) (location : source_locationt) (dest : goto_programt)
    (m1 m2 : irep_idt) (e b : Option node_indext) (s1 s2 : goto_convertt)
    (h : same_up_to_mode s1 s2) :
    same_unwind_result (unwind_destructor_stack conv location dest m1 e b s1)
      (unwind_destructor_stack conv location dest m2 e b s2) := by
  have hu := unwind_each_mode_independent conv hconv location m1 m2
    (s1.targets.destructor_stack.get_destructors e b) dest s1 s2 h
  simp only [unwind_destructor_stack, unwind_destructor_stack_on, ← h.1]
  revert hu
  cases unwind_each conv location m1 (s1.targets.destructor_stack.get_destructors e b) dest s1
    <;> cases unwind_each conv location m2 (s1.targets.destructor_stack.get_destructors e b)
          dest s2
    <;> intro hu
  · exact hu
  · exact False.elim hu
  · exact False.elim hu
  · exact ⟨rfl, hu.1, hu.2⟩

theorem same_result_after_unwind
    (u1 u2 : Except errort (Bool × goto_programt × goto_convertt))
    (k1 k2 : Bool × goto_programt × goto_convertt → resultt) :
    same_unwind_result u1 u2 →
    (∀ r1 r2, r1.1 = r2.1 → r1.2.1 = r2.2.1 → same_up_to_mode r1.2.2 r2.2.2 →
      same_result (k1 r1) (k2 r2)) →
    same_result
      (match u1 with
        | .error e => .error e
        | .ok r => k1 r)
      (match u2 with
        | .error e => .error e
        | .ok r => k2 r) := by
  intro h hk
  cases u1 with
  | error e1 =>
    cases u2 with
    | error e2 => exact h
    | ok r2 => exact False.elim h
  | ok r1 =>
    cases u2 with
    | error e2 => exact False.elim h
    | ok r2 => exact hk r1 r2 h.1 h.2.1 h.2.2

theorem same_up_to_mode_allocated (s1 s2 : goto_convertt) (h : same_up_to_mode s1 s2) :
    same_up_to_mode s1.allocated s2.allocated :=
  ⟨h.1, by simp [goto_convertt.allocated, h.2.1], h.2.2⟩

theorem same_up_to_mode_targets (s1 s2 : goto_convertt) (f : targetst → targetst)
    (h : same_up_to_mode s1 s2) :
    same_up_to_mode { s1 with targets := f s1.targets } { s2 with targets := f s2.targets } :=
  ⟨by rw [h.1], h.2.1, h.2.2⟩

theorem convert_msc_try_finally_mode_independent (conv : convertt)
    (hconv : mode_independent conv) : mode_independent (convert_msc_try_finally conv) := by
  intro code dest m1 m2 s1 s2 h
  unfold convert_msc_try_finally
  split
  · rfl
  · obtain ⟨ht, hn, hs⟩ := h
    refine same_result_match _ _ _ _ (hconv _ dest m1 m2 _ _ ?_) ?_
    · exact ⟨by simp [goto_convertt.allocated, ht, hn], by simp [goto_convertt.allocated, hn], hs⟩
    · intro r1 r2 hd hr
      rw [hd]
      refine same_result_match _ _ _ _ (hconv _ _ m1 m2 _ _ ?_) ?_
      · exact ⟨by simp [goto_convertt.allocated, ht, hn, hr.1], hr.2.1, hr.2.2⟩
      · intro q1 q2 hqd hq
        exact ⟨by simp [hqd, hn, goto_convertt.allocated], hq⟩

theorem convert_msc_try_except_mode_independent (conv : convertt)
    (hconv : mode_independent conv) : mode_independent (convert_msc_try_except conv) := by
  intro code dest m1 m2 s1 s2 h
  unfold convert_msc_try_except
  split
  · rfl
  · exact hconv _ _ _ _ _ _ h

theorem convert_msc_leave_mode_independent (conv : convertt)
    (hconv : mode_independent conv) : mode_independent (convert_msc_leave conv) := by
  intro code dest m1 m2 s1 s2 h
  unfold convert_msc_leave
  rw [← h.1]
  split
  · rfl
  · have hu := unwind_destructor_stack_mode_independent conv hconv code.source_location dest
      m1 m2 (some s1.targets.leave_stack_node) none s1 s2 h
    refine same_result_after_unwind _ _ _ _ hu ?_
    intro r1 r2 _ hd hr
    exact ⟨by simp [hd, hr.1, hr.2.1], same_up_to_mode_allocated _ _ hr⟩

theorem convert_CPROVER_try_finally_mode_independent (conv : convertt)
    (hconv : mode_independent conv) : mode_independent (convert_CPROVER_try_finally conv) := by
  intro code dest m1 m2 s1 s2 h
  unfold convert_CPROVER_try_finally
  split
  · rfl
  · obtain ⟨ht, hn, hs⟩ := h
    refine same_result_match _ _ _ _ (hconv _ dest m1 m2 _ _ ?_) ?_
    · exact ⟨by simp [ht], hn, hs⟩
    · intro r1 r2 hd hr
      rw [hd]
      exact hconv _ _ m1 m2 _ _ ⟨by simp [ht, hr.1], hr.2.1, hr.2.2⟩

theorem convert_CPROVER_throw_mode_independent (conv : convertt)
    (hconv : mode_independent conv) : mode_independent (convert_CPROVER_throw conv) := by
  intro code dest m1 m2 s1 s2 h
  have hf := exception_flag_same m1 m2 _ _ (same_up_to_mode_allocated _ _ h)
  unfold convert_CPROVER_throw
  simp only [exception_flag_expression, ← h.2.1, ← hf.1]
  split
  · have hu := unwind_destructor_stack_mode_independent conv hconv code.source_location
      (goto_programt.add dest s1.next_address
        { instructiont.default with
          type := ASSIGN, source_location := code.source_location,
          code := code_assignt (symbol_exprt "$exception_flag" bool_typet) true_exprt })
      m1 m2 (some (exception_flag m1 s1.allocated).2.targets.throw_stack_node) none _ _ hf
    refine same_result_after_unwind _ _ _ _ hu ?_
    intro r1 r2 _ hd hr
    exact ⟨by simp [hd, hr.1, hr.2.1], same_up_to_mode_allocated _ _ hr⟩
  · have hu := unwind_destructor_stack_mode_independent conv hconv code.source_location
      (goto_programt.add dest s1.next_address
        { instructiont.default with
          type := ASSIGN, source_location := code.source_location,
          code := code_assignt (symbol_exprt "$exception_flag" bool_typet) true_exprt })
      m1 m2 none none _ _ hf
    refine same_result_after_unwind _ _ _ _ hu ?_
    intro r1 r2 _ hd hr
    exact ⟨by simp [hd, hr.1, hr.2.1], same_up_to_mode_allocated _ _ hr⟩

theorem same_result_handlers
    (a1 a2 : Except errort (List irep_idt × goto_programt × goto_convertt))
    (k1 k2 : List irep_idt × goto_programt × goto_convertt → resultt) :
    same_handlers_result a1 a2 →
    (∀ r1 r2, r1.1 = r2.1 → r1.2.1 = r2.2.1 → same_up_to_mode r1.2.2 r2.2.2 →
      same_result (k1 r1) (k2 r2)) →
    same_result
      (match a1 with
        | .error e => .error e
        | .ok r => k1 r)
      (match a2 with
        | .error e => .error e
        | .ok r => k2 r) := by
  intro h hk
  cases a1 with
  | error e1 =>
    cases a2 with
    | error e2 => exact h
    | ok r2 => exact False.elim h
  | ok r1 =>
    cases a2 with
    | error e2 => exact False.elim h
    | ok r2 => exact hk r1 r2 h.1 h.2.1 h.2.2

theorem convert_try_catch_handlers_mode_independent (conv : convertt)
    (hconv : mode_independent conv) (a : Nat) (e : targett) (m1 m2 : irep_idt) :
    ∀ (Hs : List codet) (el : List irep_idt) (dest : goto_programt) (s1 s2 : goto_convertt),
      same_up_to_mode s1 s2 →
      same_handlers_result (convert_try_catch_handlers conv a e m1 Hs el dest s1)
        (convert_try_catch_handlers conv a e m2 Hs el dest s2) := by
  intro Hs
  induction Hs with
  | nil => intro el dest s1 s2 h; exact ⟨rfl, rfl, h⟩
  | cons b rest ih =>
    intro el dest s1 s2 h
    simp only [convert_try_catch_handlers]
    have hb := hconv b [] m1 m2 s1 s2 h
    revert hb
    cases conv b [] m1 s1 <;> cases conv b [] m2 s2 <;> intro hb
    · exact hb
    · exact False.elim hb
    · exact False.elim hb
    · rename_i r1 r2
      simp only [hb.1, hb.2.2.1]
      exact ih _ _ _ _ (same_up_to_mode_allocated _ _ hb.2)

theorem convert_try_catch_mode_independent (conv : convertt)
    (hconv : mode_independent conv) : mode_independent (convert_try_catch conv) := by
  intro code dest m1 m2 s1 s2 h
  unfold convert_try_catch
  split
  · rfl
  · simp only [goto_convertt.allocated, h.2.1]
    refine same_result_match _ _ _ _ (hconv _ _ m1 m2 _ _ ?_) ?_
    · exact ⟨h.1, rfl, h.2.2⟩
    · intro r1 r2 hd hr
      simp only [hd, hr.2.1]
      refine same_result_handlers _ _ _ _
        (convert_try_catch_handlers_mode_independent conv hconv _ _ m1 m2 _ _ _ _ _ ?_) ?_
      · exact ⟨hr.1, rfl, hr.2.2⟩
      · intro q1 q2 hl hqd hq
        exact ⟨by simp [hl, hqd], hq⟩

theorem convert_CPROVER_try_catch_mode_independent (conv : convertt)
    (hconv : mode_independent conv) : mode_independent (convert_CPROVER_try_catch conv) := by
  intro code dest m1 m2 s1 s2 h
  have hset : same_up_to_mode
      { s1.allocated with
        targets := s1.allocated.targets.set_throw (targett.instruction s1.next_address) }
      { s2.allocated with
        targets := s2.allocated.targets.set_throw (targett.instruction s1.next_address) } :=
    same_up_to_mode_targets _ _ (fun t => t.set_throw (targett.instruction s1.next_address))
      (same_up_to_mode_allocated _ _ h)
  have hf := exception_flag_same m1 m2 _ _ hset
  unfold convert_CPROVER_try_catch
  split
  · rfl
  · simp only [exception_flag_expression, ← h.2.1]
    refine same_result_match _ _ _ _ (hconv _ dest m1 m2 _ _ ?_) ?_
    · exact same_up_to_mode_targets _ _
        (fun t => { t with
          destructor_stack := t.destructor_stack.add
            ((code_ifthenelset (symbol_exprt "$exception_flag" bool_typet)
              code.op1).add_source_location code.source_location) }) hf
    · intro r1 r2 hd hr
      refine ⟨by rw [hd], ?_, hr.2.1, hr.2.2⟩
      simp only [exception_flag_targets, goto_convertt.allocated, hr.1, h.1]

theorem convert_mode_independent (other : collaboratort)
    (hother : ∀ conv, mode_independent conv → mode_independent (other conv)) :
    ∀ fuel, mode_independent (convert other fuel) := by
  intro fuel
  induction fuel with
  | zero => intro code dest m1 m2 s1 s2 _; rfl
  | succ n ih =>
    intro code dest m1 m2 s1 s2 h
    simp only [convert]
    split
    · exact convert_msc_try_finally_mode_independent _ ih _ _ _ _ _ _ h
    · split
      · exact convert_msc_try_except_mode_independent _ ih _ _ _ _ _ _ h
      · split
        · exact convert_msc_leave_mode_independent _ ih _ _ _ _ _ _ h
        · split
          · exact convert_try_catch_mode_independent _ ih _ _ _ _ _ _ h
          · split
            · exact convert_CPROVER_try_catch_mode_independent _ ih _ _ _ _ _ _ h
            · split
              · exact convert_CPROVER_throw_mode_independent _ ih _ _ _ _ _ _ h
              · split
                · exact convert_CPROVER_try_finally_mode_independent _ ih _ _ _ _ _ _ h
                · exact hother _ ih _ _ _ _ _ _ h

/-- C22: the mode does not affect the control-flow shape.  For two modes and two states
that agree except possibly in the mode field of the flag symbol, and a nested lowering
that is itself `mode_independent`, each conversion procedure, the unwinding and the
dispatcher over a mode-independent collaborator fail alike or emit the same instruction
sequence and leave the same targets, destructor stack and allocator, with symbol tables
that differ at most in the mode field of the flag symbol.  `exception_flag` returns the
identical symbol expression; once the flag symbol exists the mode is not observable at
all, and on first creation it is stored in the mode field of the new symbol. -/
theorem mode_does_not_affect_shape (other : collaboratort)
    (hother : ∀ conv, mode_independent conv → mode_independent (other conv))
    (conv : convertt) (hconv : mode_independent conv)
    (m1 m2 : irep_idt) (s1 s2 : goto_convertt) (h : same_up_to_mode s1 s2) :
    (∀ (code : codet) (dest : goto_programt),
      same_result (convert_msc_try_finally conv code dest m1 s1)
        (convert_msc_try_finally conv code dest m2 s2))
    ∧ (∀ (code : codet) (dest : goto_programt),
      same_result (convert_msc_try_except conv code dest m1 s1)
        (convert_msc_try_except conv code dest m2 s2))
    ∧ (∀ (code : codet) (dest : goto_programt),
      same_result (convert_msc_leave conv code dest m1 s1)
        (convert_msc_leave conv code dest m2 s2))
    ∧ (∀ (code : codet) (dest : goto_programt),
      same_result (convert_try_catch conv code dest m1 s1)
        (convert_try_catch conv code dest m2 s2))
    ∧ (∀ (code : codet) (dest : goto_programt),
      same_result (convert_CPROVER_try_catch conv code dest m1 s1)
        (convert_CPROVER_try_catch conv code dest m2 s2))
    ∧ (∀ (code : codet) (dest : goto_programt),
      same_result (convert_CPROVER_throw conv code dest m1 s1)
        (convert_CPROVER_throw conv code dest m2 s2))
    ∧ (∀ (code : codet) (dest : goto_programt),
      same_result (convert_CPROVER_try_finally conv code dest m1 s1)
        (convert_CPROVER_try_finally conv code dest m2 s2))
    ∧ (∀ (location : source_locationt) (dest : goto_programt) (e b : Option node_indext),
      same_unwind_result (unwind_destructor_stack conv location dest m1 e b s1)
        (unwind_destructor_stack conv location dest m2 e b s2))
    ∧ (∀ (fuel : Nat) (code : codet) (dest : goto_programt),
      same_result (cbmc.convert other fuel code dest m1 s1)
        (cbmc.convert other fuel code dest m2 s2))
    ∧ (exception_flag m1 s1).1 = (exception_flag m2 s2).1
    ∧ same_up_to_mode (exception_flag m1 s1).2 (exception_flag m2 s2).2
    ∧ (∀ x, symbol_tablet.find s1.symbol_table "$exception_flag" = some x →
      exception_flag m1 s1 = exception_flag m2 s1)
    ∧ (symbol_tablet.find s1.symbol_table "$exception_flag" = none →
      (exception_flag m1 s1).2
        = { s1 with
            symbol_table := s1.symbol_table ++ [exception_flag_symbol m1] })
    ∧ cbmc.convert ordinary 4 sample_CPROVER_try_catch [] "cpp" initial_state
        = (cbmc.convert ordinary 4 sample_CPROVER_try_catch [] "C" initial_state).map
            (fun r => (r.1, { r.2 with symbol_table := [exception_flag_symbol "cpp"] })) := by
  refine ⟨?_, ?_, ?_, ?_, ?_, ?_, ?_, ?_, ?_, ?_, exception_flag_same m1 m2 s1 s2 h, ?_, ?_,
    by decide!⟩
  · exact fun code dest => convert_msc_try_finally_mode_independent conv hconv _ _ _ _ _ _ h
  · exact fun code dest => convert_msc_try_except_mode_independent conv hconv _ _ _ _ _ _ h
  · exact fun code dest => convert_msc_leave_mode_independent conv hconv _ _ _ _ _ _ h
  · exact fun code dest => convert_try_catch_mode_independent conv hconv _ _ _ _ _ _ h
  · exact fun code dest => convert_CPROVER_try_catch_mode_independent conv hconv _ _ _ _ _ _ h
  · exact fun code dest => convert_CPROVER_throw_mode_independent conv hconv _ _ _ _ _ _ h
  · exact fun code dest => convert_CPROVER_try_finally_mode_independent conv hconv _ _ _ _ _ _ h
  · exact fun location dest e b =>
      unwind_destructor_stack_mode_independent conv hconv location dest m1 m2 e b s1 s2 h
  · exact fun fuel code dest => convert_mode_independent other hother fuel _ _ _ _ _ _ h
  · rw [exception_flag_expression, exception_flag_expression]
  · intro x hx
    rw [exception_flag_present m1 s1 x hx, exception_flag_present m2 s1 x hx]
  · intro hnone
    rw [exception_flag_absent m1 s1 hnone]

/-- The modes `C` and `cpp` from the state at the start of a function, with the sample
collaborator. -/
theorem mode_does_not_affect_shape_witness :
    (∀ (code : codet) (dest : goto_programt),
      same_result (convert_msc_try_finally lower_as_other code dest "C" initial_state)
        (convert_msc_try_finally lower_as_other code dest "cpp" initial_state))
    ∧ (∀ (code : codet) (dest : goto_programt),
      same_result (convert_msc_try_except lower_as_other code dest "C" initial_state)
        (convert_msc_try_except lower_as_other code dest "cpp" initial_state))
    ∧ (∀ (code : codet) (dest : goto_programt),
      same_result (convert_msc_leave lower_as_other code dest "C" initial_state)
        (convert_msc_leave lower_as_other code dest "cpp" initial_state))
    ∧ (∀ (code : codet) (dest : goto_programt),
      same_result (convert_try_catch lower_as_other code dest "C" initial_state)
        (convert_try_catch lower_as_other code dest "cpp" initial_state))
    ∧ (∀ (code : codet) (dest : goto_programt),
      same_result (convert_CPROVER_try_catch lower_as_other code dest "C" initial_state)
        (convert_CPROVER_try_catch lower_as_other code dest "cpp" initial_state))
    ∧ (∀ (code : codet) (dest : goto_programt),
      same_result (convert_CPROVER_throw lower_as_other code dest "C" initial_state)
        (convert_CPROVER_throw lower_as_other code dest "cpp" initial_state))
    ∧ (∀ (code : codet) (dest : goto_programt),
      same_result (convert_CPROVER_try_finally lower_as_other code dest "C" initial_state)
        (convert_CPROVER_try_finally lower_as_other code dest "cpp" initial_state))
    ∧ (∀ (location : source_locationt) (dest : goto_programt) (e b : Option node_indext),
      same_unwind_result (unwind_destructor_stack lower_as_other location dest "C" e b initial_state)
        (unwind_destructor_stack lower_as_other location dest "cpp" e b initial_state))
    ∧ (∀ (fuel : Nat) (code : codet) (dest : goto_programt),
      same_result (convert ordinary fuel code dest "C" initial_state)
        (convert ordinary fuel code dest "cpp" initial_state))
    ∧ (exception_flag "C" initial_state).1 = (exception_flag "cpp" initial_state).1
    ∧ same_up_to_mode (exception_flag "C" initial_state).2 (exception_flag "cpp" initial_state).2
    ∧ (∀ x, symbol_tablet.find initial_state.symbol_table "$exception_flag" = some x →
      exception_flag "C" initial_state = exception_flag "cpp" initial_state)
    ∧ (symbol_tablet.find initial_state.symbol_table "$exception_flag" = none →
      (exception_flag "C" initial_state).2
        = { initial_state with
            symbol_table := initial_state.symbol_table ++ [exception_flag_symbol "C"] })
    ∧ convert ordinary 4 sample_CPROVER_try_catch [] "cpp" initial_state
        = (convert ordinary 4 sample_CPROVER_try_catch [] "C" initial_state).map
            (fun r => (r.1, { r.2 with symbol_table := [exception_flag_symbol "cpp"] })) :=
  mode_does_not_affect_shape ordinary ordinary_mode_independent lower_as_other
    lower_as_other_mode_independent "C" "cpp" initial_state initial_state
    (same_up_to_mode_refl initial_state)

/-! ## Failure at an entry check -/

theorem forget_match (a : traced_resultt) (k : goto_programt × goto_convertt → traced_resultt) :
    traced_resultt.forget
        (match a with
          | .error f => .error f
          | .ok r => k r)
      = match traced_resultt.forget a with
        | .error e => .error e
        | .ok r => traced_resultt.forget (k r) := by
  cases a <;> rfl

theorem unwind_each_traced_forget (convert : traced_convertt)
    (location : source_locationt) (mode : irep_idt) :
    ∀ (stack : List codet) (dest : goto_programt) (self : goto_convertt),
      traced_resultt.forget (unwind_each_traced convert location mode stack dest self)
        = unwind_each convert.forget location mode stack dest self := by
  intro stack
  induction stack with
  | nil => intro dest self; rfl
  | cons c cs ih =>
    intro dest self
    simp only [unwind_each_traced, unwind_each, forget_match, traced_convertt.forget, ih]
    try rfl

theorem convert_msc_try_finally_traced_forget (convert : traced_convertt) (code : codet)
    (dest : goto_programt) (mode : irep_idt) (self : goto_convertt) :
    traced_resultt.forget (convert_msc_try_finally_traced convert code dest mode self)
      = convert_msc_try_finally convert.forget code dest mode self := by
  unfold convert_msc_try_finally_traced convert_msc_try_finally
  split
  · rfl
  · simp only [forget_match, traced_convertt.forget]
    try rfl

theorem convert_msc_try_except_traced_forget (convert : traced_convertt) (code : codet)
    (dest : goto_programt) (mode : irep_idt) (self : goto_convertt) :
    traced_resultt.forget (convert_msc_try_except_traced convert code dest mode self)
      = convert_msc_try_except convert.forget code dest mode self := by
  unfold convert_msc_try_except_traced convert_msc_try_except
  split <;> rfl

theorem convert_CPROVER_try_finally_traced_forget (convert : traced_convertt) (code : codet)
    (dest : goto_programt) (mode : irep_idt) (self : goto_convertt) :
    traced_resultt.forget (convert_CPROVER_try_finally_traced convert code dest mode self)
      = convert_CPROVER_try_finally convert.forget code dest mode self := by
  unfold convert_CPROVER_try_finally_traced convert_CPROVER_try_finally
  split
  · rfl
  · simp only [forget_match, traced_convertt.forget]
    try rfl

theorem convert_CPROVER_try_catch_traced_forget (convert : traced_convertt) (code : codet)
    (dest : goto_programt) (mode : irep_idt) (self : goto_convertt) :
    traced_resultt.forget (convert_CPROVER_try_catch_traced convert code dest mode self)
      = convert_CPROVER_try_catch convert.forget code dest mode self := by
  unfold convert_CPROVER_try_catch_traced convert_CPROVER_try_catch
  split
  · rfl
  · simp only [forget_match, traced_convertt.forget]
    try rfl

theorem convert_msc_leave_traced_forget (convert : traced_convertt) (code : codet)
    (dest : goto_programt) (mode : irep_idt) (self : goto_convertt) :
    traced_resultt.forget (convert_msc_leave_traced convert code dest mode self)
      = convert_msc_leave convert.forget code dest mode self := by
  unfold convert_msc_leave_traced convert_msc_leave
  split
  · rfl
  · simp only [unwind_destructor_stack_traced, unwind_destructor_stack_on_traced,
      unwind_destructor_stack, unwind_destructor_stack_on,
      ← unwind_each_traced_forget convert]
    cases unwind_each_traced convert code.source_location mode
      (self.targets.destructor_stack.get_destructors (some self.targets.leave_stack_node) none)
      dest self <;> rfl

theorem convert_try_catch_handlers_traced_forget (convert : traced_convertt) (a : Nat)
    (e : targett) (mode : irep_idt) :
    ∀ (Hs : List codet) (el : List irep_idt) (dest : goto_programt) (self : goto_convertt),
      Except.mapError failuret.error
          (convert_try_catch_handlers_traced convert a e mode Hs el dest self)
        = convert_try_catch_handlers convert.forget a e mode Hs el dest self := by
  intro Hs
  induction Hs with
  | nil => intro el dest self; rfl
  | cons b rest ih =>
    intro el dest self
    simp only [convert_try_catch_handlers_traced, convert_try_catch_handlers,
      traced_convertt.forget]
    cases convert b [] mode self with
    | error f => rfl
    | ok r => exact ih _ _ _

theorem convert_try_catch_traced_forget (convert : traced_convertt) (code : codet)
    (dest : goto_programt) (mode : irep_idt) (self : goto_convertt) :
    traced_resultt.forget (convert_try_catch_traced convert code dest mode self)
      = convert_try_catch convert.forget code dest mode self := by
  unfold convert_try_catch_traced convert_try_catch
  split
  · rfl
  · simp only [traced_convertt.forget, ← convert_try_catch_handlers_traced_forget convert]
    cases convert code.op0
        (goto_programt.add dest self.next_address
          { instructiont.default.make_catch with source_location := code.source_location })
        mode self.allocated.allocated with
    | error f => rfl
    | ok r =>
      simp only [traced_resultt.forget]
      cases convert_try_catch_handlers_traced convert self.next_address
          (targett.instruction self.allocated.next_address) mode code.operands.tail []
          (goto_programt.add
            (goto_programt.add r.1 r.2.next_address
              { instructiont.default.make_catch with code := code_pop_catcht })
            r.2.allocated.next_address
            (make_goto (targett.instruction self.allocated.next_address) none))
          r.2.allocated.allocated with
      | error f => rfl
      | ok q => rfl

/-- C29: failure at an entry check is atomic.  When the operand-count check of
`convert_msc_try_finally`, `convert_msc_try_except`, `convert_try_catch`,
`convert_CPROVER_try_catch` or `convert_CPROVER_try_finally` fails, or
`convert_msc_leave` finds no leave target, the failure is raised with `dest` and the
whole converter state (leave and throw targets, destructor stack, symbol table) exactly
as at entry, whatever the nested lowering is.  A failure of a nested lowering, by
contrast, is raised after effects. -/
theorem entry_check_failure_is_atomic (convert : traced_convertt) (code : codet)
    (dest : goto_programt) (mode : irep_idt) (self : goto_convertt) :
    (code.operands.length ≠ 2 →
      convert_msc_try_finally_traced convert code dest mode self
        = .error
            { error := .invariant_violation "msc_try_finally expects two arguments",
              dest := dest, self := self })
    ∧ (code.operands.length ≠ 3 →
      convert_msc_try_except_traced convert code dest mode self
        = .error
            { error := .invariant_violation "msc_try_except expects three arguments",
              dest := dest, self := self })
    ∧ (code.operands.length < 2 →
      convert_try_catch_traced convert code dest mode self
        = .error
            { error := .invariant_violation "try_catch expects at least two arguments",
              dest := dest, self := self })
    ∧ (code.operands.length ≠ 2 →
      convert_CPROVER_try_catch_traced convert code dest mode self
        = .error
            { error := .invariant_violation "CPROVER_try_catch expects two arguments",
              dest := dest, self := self })
    ∧ (code.operands.length ≠ 2 →
      convert_CPROVER_try_finally_traced convert code dest mode self
        = .error
            { error := .invariant_violation "CPROVER_try_finally expects two arguments",
              dest := dest, self := self })
    ∧ (self.targets.leave_set = false →
      convert_msc_leave_traced convert code dest mode self
        = .error
            { error := .invariant_violation "leave without target",
              dest := dest, self := self })
    ∧ traced_resultt.forget (convert_msc_try_finally_traced convert code dest mode self)
        = convert_msc_try_finally convert.forget code dest mode self
    ∧ traced_resultt.forget (convert_msc_try_except_traced convert code dest mode self)
        = convert_msc_try_except convert.forget code dest mode self
    ∧ traced_resultt.forget (convert_try_catch_traced convert code dest mode self)
        = convert_try_catch convert.forget code dest mode self
    ∧ traced_resultt.forget (convert_CPROVER_try_catch_traced convert code dest mode self)
        = convert_CPROVER_try_catch convert.forget code dest mode self
    ∧ traced_resultt.forget (convert_CPROVER_try_finally_traced convert code dest mode self)
        = convert_CPROVER_try_finally convert.forget code dest mode self
    ∧ traced_resultt.forget (convert_msc_leave_traced convert code dest mode self)
        = convert_msc_leave convert.forget code dest mode self
    ∧ convert_msc_try_finally_traced failing_on_zero
failing_guarded_block [] "C"
          initial_state
        = .error
            { error := .invariant_violation "nested failure",
              dest := [other_at 2 (expression_statement 0)],
              self := (msc_try_state initial_state (expression_statement 2)).allocated } := by
  refine ⟨?_, ?_, ?_, ?_, ?_, ?_,
    convert_msc_try_finally_traced_forget convert code dest mode self,
    convert_msc_try_except_traced_forget convert code dest mode self,
    convert_try_catch_traced_forget convert code dest mode self,
    convert_CPROVER_try_catch_traced_forget convert code dest mode self,
    convert_CPROVER_try_finally_traced_forget convert code dest mode self,
    convert_msc_leave_traced_forget convert code dest mode self, by decide⟩
  · intro h
    unfold convert_msc_try_finally_traced
    rw [if_pos h]
  · intro h
    unfold convert_msc_try_except_traced
    rw [if_pos h]
  · intro h
    unfold convert_try_catch_traced
    rw [if_pos h]
  · intro h
    unfold convert_CPROVER_try_catch_traced
    rw [if_pos h]
  · intro h
    unfold convert_CPROVER_try_finally_traced
    rw [if_pos h]
  · intro h
    unfold convert_msc_leave_traced
    rw [if_pos h]

/-- The statement `__try { 1 }` with one operand, lowered by each procedure from the
state at the start of a function, where no leave target is set. -/
theorem entry_check_failure_is_atomic_witness :
    convert_msc_try_finally_traced failing_on_zero one_operand_try
          [other_at 0 (expression_statement 5)] "C" initial_state
        = .error
            { error := .invariant_violation "msc_try_finally expects two arguments",
              dest := [other_at 0 (expression_statement 5)], self := initial_state }
    ∧ convert_msc_try_except_traced failing_on_zero one_operand_try
          [other_at 0 (expression_statement 5)] "C" initial_state
        = .error
            { error := .invariant_violation "msc_try_except expects three arguments",
              dest := [other_at 0 (expression_statement 5)], self := initial_state }
    ∧ convert_try_catch_traced failing_on_zero one_operand_try
          [other_at 0 (expression_statement 5)] "C" initial_state
        = .error
            { error := .invariant_violation "try_catch expects at least two arguments",
              dest := [other_at 0 (expression_statement 5)], self := initial_state }
    ∧ convert_CPROVER_try_catch_traced failing_on_zero one_operand_try
          [other_at 0 (expression_statement 5)] "C" initial_state
        = .error
            { error := .invariant_violation "CPROVER_try_catch expects two arguments",
              dest := [other_at 0 (expression_statement 5)], self := initial_state }
    ∧ convert_CPROVER_try_finally_traced failing_on_zero one_operand_try
          [other_at 0 (expression_statement 5)] "C" initial_state
        = .error
            { error := .invariant_violation "CPROVER_try_finally expects two arguments",
              dest := [other_at 0 (expression_statement 5)], self := initial_state }
    ∧ convert_msc_leave_traced failing_on_zero one_operand_try
          [other_at 0 (expression_statement 5)] "C" initial_state
        = .error
            { error := .invariant_violation "leave without target",
              dest := [other_at 0 (expression_statement 5)], self := initial_state } :=
  ⟨(entry_check_failure_is_atomic failing_on_zero one_operand_try
      [other_at 0 (expression_statement 5)] "C" initial_state).1 (by decide),
   (entry_check_failure_is_atomic failing_on_zero one_operand_try
      [other_at 0 (expression_statement 5)] "C" initial_state).2.1 (by decide),
   (entry_check_failure_is_atomic failing_on_zero one_operand_try
      [other_at 0 (expression_statement 5)] "C" initial_state).2.2.1 (by decide),
   (entry_check_failure_is_atomic failing_on_zero one_operand_try
      [other_at 0 (expression_statement 5)] "C" initial_state).2.2.2.1 (by decide),
   (entry_check_failure_is_atomic failing_on_zero one_operand_try
      [other_at 0 (expression_statement 5)] "C" initial_state).2.2.2.2.1 (by decide),
   (entry_check_failure_is_atomic failing_on_zero one_operand_try
      [other_at 0 (expression_statement 5)] "C" initial_state).2.2.2.2.2.1 (by decide)⟩

/-! ## The exception flag is never reset -/

theorem class_of_assignments_assigns_flag : class_of_assignments assigns_flag := by
  refine ⟨?_, ?_, ?_⟩
  · intro i h
    simp [assigns_flag, h]
  · intro i j ht hc
    simp [assigns_flag, ht, hc]
  · intro i el
    have h : (code_push_catcht el).get_statement ≠ ID_assign := by
      have hs : (code_push_catcht el).get_statement = ID_push_catch := rfl
      rw [hs]
      decide
    simp [assigns_flag, flag_assignment, h]

theorem class_of_assignments_clears_flag : class_of_assignments clears_flag := by
  refine ⟨?_, ?_, ?_⟩
  · intro i h
    simp [clears_flag, assigns_flag, h]
  · intro i j ht hc
    simp [clears_flag, assigns_flag, ht, hc]
  · intro i el
    have h : (code_push_catcht el).get_statement ≠ ID_assign := by
      have hs : (code_push_catcht el).get_statement = ID_push_catch := rfl
      rw [hs]
      decide
    simp [clears_flag, assigns_flag, flag_assignment, h]

theorem free_of_append (bad : instructiont → Bool) (p q : goto_programt)
    (hp : free_of bad p) (hq : free_of bad q) : free_of bad (p ++ q) := by
  intro i hi
  rcases List.mem_append.mp hi with h | h
  · exact hp i h
  · exact hq i h

theorem free_of_add (bad : instructiont → Bool) (hbad : class_of_assignments bad)
    (p : goto_programt) (a : Nat) (x : instructiont) (hp : free_of bad p)
    (hx : x.type ≠ ASSIGN) : free_of bad (goto_programt.add p a x) := by
  refine free_of_append bad p _ hp ?_
  intro i hi
  simp only [List.mem_singleton] at hi
  subst hi
  exact hbad.1 _ hx

theorem free_of_update_targets (bad : instructiont → Bool) (hbad : class_of_assignments bad)
    (p : goto_programt) (a : Nat) (g : instructiont → List targett) (hp : free_of bad p) :
    free_of bad (goto_programt.update p a (fun i => { i with targets := g i })) := by
  intro i hi
  simp only [goto_programt.update, List.mem_map] at hi
  obtain ⟨j, hj, hji⟩ := hi
  subst hji
  split
  · have h := hbad.2.1 { j with targets := g j } j rfl rfl
    rw [h]
    exact hp j hj
  · exact hp j hj

theorem free_of_update_code (bad : instructiont → Bool) (hbad : class_of_assignments bad)
    (p : goto_programt) (a : Nat) (exception_list : List irep_idt) (hp : free_of bad p) :
    free_of bad
      (goto_programt.update p a (fun i => { i with code := code_push_catcht exception_list })) := by
  intro i hi
  simp only [goto_programt.update, List.mem_map] at hi
  obtain ⟨j, hj, hji⟩ := hi
  subst hji
  split
  · exact hbad.2.2 j exception_list
  · exact hp j hj

theorem unwind_each_emits_none (bad : instructiont → Bool) (conv : convertt)
    (hconv : emits_none bad conv) (location : source_locationt) (mode : irep_idt) :
    ∀ (stack : List codet) (dest : goto_programt) (self : goto_convertt)
      (r : goto_programt × goto_convertt),
      free_of bad dest → unwind_each conv location mode stack dest self = .ok r →
      free_of bad r.1 := by
  intro stack
  induction stack with
  | nil =>
    intro dest self r hd hr
    simp only [unwind_each, Except.ok.injEq] at hr
    subst hr
    exact hd
  | cons c cs ih =>
    intro dest self r hd hr
    simp only [unwind_each] at hr
    split at hr
    · simp at hr
    · rename_i q hq
      exact ih _ _ r (hconv _ _ _ _ q hd hq) hr

theorem unwind_destructor_stack_emits_none (bad : instructiont → Bool) (conv : convertt)
    (hconv : emits_none bad conv) (location : source_locationt) (dest : goto_programt)
    (mode : irep_idt) (e b : Option node_indext) (self : goto_convertt)
    (r : Bool × goto_programt × goto_convertt) (hd : free_of bad dest)
    (hr : unwind_destructor_stack conv location dest mode e b self = .ok r) :
    free_of bad r.2.1 := by
  simp only [unwind_destructor_stack, unwind_destructor_stack_on] at hr
  split at hr
  · simp at hr
  · rename_i q hq
    simp only [Except.ok.injEq] at hr
    subst hr
    exact unwind_each_emits_none bad conv hconv location mode _ dest self q hd hq

theorem convert_msc_try_finally_emits_none (bad : instructiont → Bool)
    (hbad : class_of_assignments bad) (conv : convertt) (hconv : emits_none bad conv) :
    emits_none bad (convert_msc_try_finally conv) := by
  intro code dest mode self r hd hr
  unfold convert_msc_try_finally at hr
  split at hr
  · simp at hr
  · simp only at hr
    split at hr
    · simp at hr
    · rename_i q hq
      split at hr
      · simp at hr
      · rename_i p hp
        simp only [Except.ok.injEq] at hr
        subst hr
        refine free_of_append bad _ _ (hconv _ _ _ _ p (hconv _ _ _ _ q hd hq) hp) ?_
        exact free_of_add bad hbad [] _ _ (fun _ h => by cases h) (by intro h; cases h)

theorem convert_msc_try_except_emits_none (bad : instructiont → Bool) (conv : convertt)
    (hconv : emits_none bad conv) : emits_none bad (convert_msc_try_except conv) := by
  intro code dest mode self r hd hr
  unfold convert_msc_try_except at hr
  split at hr
  · simp at hr
  · exact hconv _ _ _ _ r hd hr

theorem convert_msc_leave_emits_none (bad : instructiont → Bool)
    (hbad : class_of_assignments bad) (conv : convertt) (hconv : emits_none bad conv) :
    emits_none bad (convert_msc_leave conv) := by
  intro code dest mode self r hd hr
  unfold convert_msc_leave at hr
  split at hr
  · simp at hr
  · simp only at hr
    split at hr
    · simp at hr
    · rename_i q hq
      simp only [Except.ok.injEq] at hr
      subst hr
      exact free_of_add bad hbad _ _ _
        (unwind_destructor_stack_emits_none bad conv hconv _ dest mode _ _ self q hd hq)
        (by intro h; cases h)

theorem convert_CPROVER_try_finally_emits_none (bad : instructiont → Bool) (conv : convertt)
    (hconv : emits_none bad conv) : emits_none bad (convert_CPROVER_try_finally conv) := by
  intro code dest mode self r hd hr
  unfold convert_CPROVER_try_finally at hr
  split at hr
  · simp at hr
  · simp only at hr
    split at hr
    · simp at hr
    · rename_i q hq
      exact hconv _ _ _ _ r (hconv _ _ _ _ q hd hq) hr

theorem convert_CPROVER_try_catch_emits_none (bad : instructiont → Bool)
    (hbad : class_of_assignments bad) (conv : convertt) (hconv : emits_none bad conv) :
    emits_none bad (convert_CPROVER_try_catch conv) := by
  intro code dest mode self r hd hr
  unfold convert_CPROVER_try_catch at hr
  split at hr
  · simp at hr
  · simp only at hr
    split at hr
    · simp at hr
    · rename_i q hq
      simp only [Except.ok.injEq] at hr
      subst hr
      refine free_of_append bad _ _ (hconv _ _ _ _ q hd hq) ?_
      exact free_of_add bad hbad [] _ _ (fun _ h => by cases h) (by intro h; cases h)

theorem convert_CPROVER_throw_emits_none (bad : instructiont → Bool)
    (hbad : class_of_assignments bad) (hassign : ∀ a l, bad (assign_flag_at a l) = false)
    (conv : convertt) (hconv : emits_none bad conv) :
    emits_none bad (convert_CPROVER_throw conv) := by
  intro code dest mode self r hd hr
  rw [convert_CPROVER_throw_eq] at hr
  split at hr
  · simp at hr
  · rename_i q hq
    simp only [Except.ok.injEq] at hr
    subst hr
    have h0 : free_of bad (dest ++ [assign_flag_at self.next_address code.source_location]) := by
      refine free_of_append bad dest _ hd ?_
      intro i hi
      simp only [List.mem_singleton] at hi
      subst hi
      exact hassign _ _
    have hq' := unwind_each_emits_none bad conv hconv _ mode _ _ _ q h0 hq
    refine free_of_append bad _ _ hq' ?_
    intro i hi
    simp only [List.mem_singleton] at hi
    subst hi
    exact hbad.1 _ (by intro h; cases h)

theorem convert_try_catch_handlers_emits_none (bad : instructiont → Bool)
    (hbad : class_of_assignments bad) (conv : convertt) (hconv : emits_none bad conv)
    (a : Nat) (e : targett) (mode : irep_idt) :
    ∀ (Hs : List codet) (el : List irep_idt) (dest : goto_programt) (self : goto_convertt)
      (r : List irep_idt × goto_programt × goto_convertt),
      free_of bad dest → convert_try_catch_handlers conv a e mode Hs el dest self = .ok r →
      free_of bad r.2.1 := by
  intro Hs
  induction Hs with
  | nil =>
    intro el dest self r hd hr
    simp only [convert_try_catch_handlers, Except.ok.injEq] at hr
    subst hr
    exact hd
  | cons b rest ih =>
    intro el dest self r hd hr
    simp only [convert_try_catch_handlers] at hr
    split at hr
    · simp at hr
    · rename_i q hq
      refine ih _ _ _ r ?_ hr
      refine free_of_add bad hbad _ _ _ ?_ (by intro h; cases h)
      refine free_of_append bad _ _ ?_ (hconv _ _ _ _ q (fun _ h => by cases h) hq)
      exact free_of_update_targets bad hbad dest a _ hd

theorem convert_try_catch_emits_none (bad : instructiont → Bool)
    (hbad : class_of_assignments bad) (conv : convertt) (hconv : emits_none bad conv) :
    emits_none bad (convert_try_catch conv) := by
  intro code dest mode self r hd hr
  unfold convert_try_catch at hr
  split at hr
  · simp at hr
  · simp only at hr
    split at hr
    · simp at hr
    · rename_i q hq
      split at hr
      · simp at hr
      · rename_i p hp
        simp only [Except.ok.injEq] at hr
        subst hr
        have h0 : free_of bad (goto_programt.add dest self.next_address
            { instructiont.default.make_catch with source_location := code.source_location }) :=
          free_of_add bad hbad dest _ _ hd (by intro h; cases h)
        have h1 := hconv _ _ _ _ q h0 hq
        have h2 := convert_try_catch_handlers_emits_none bad hbad conv hconv _ _ mode _ _ _ _ p
          (free_of_add bad hbad _ _ _
            (free_of_add bad hbad _ _ _ h1 (by intro h; cases h)) (by intro h; cases h)) hp
        refine free_of_append bad _ _ (free_of_update_code bad hbad _ _ _ h2) ?_
        exact free_of_add bad hbad [] _ _ (fun _ h => by cases h) (by intro h; cases h)

theorem convert_emits_none (bad : instructiont → Bool) (hbad : class_of_assignments bad)
    (hassign : ∀ a l, bad (assign_flag_at a l) = false) (other : collaboratort)
    (hother : ∀ conv, emits_none bad conv → emits_none bad (other conv)) :
    ∀ fuel, emits_none bad (convert other fuel) := by
  intro fuel
  induction fuel with
  | zero =>
    intro code dest mode self r _ hr
    simp [convert] at hr
  | succ n ih =>
    intro code dest mode self r hd hr
    simp only [convert] at hr
    split at hr
    · exact convert_msc_try_finally_emits_none bad hbad _ ih _ _ _ _ r hd hr
    · split at hr
      · exact convert_msc_try_except_emits_none bad _ ih _ _ _ _ r hd hr
      · split at hr
        · exact convert_msc_leave_emits_none bad hbad _ ih _ _ _ _ r hd hr
        · split at hr
          · exact convert_try_catch_emits_none bad hbad _ ih _ _ _ _ r hd hr
          · split at hr
            · exact convert_CPROVER_try_catch_emits_none bad hbad _ ih _ _ _ _ r hd hr
            · split at hr
              · exact convert_CPROVER_throw_emits_none bad hbad hassign _ ih _ _ _ _ r hd hr
              · split at hr
                · exact convert_CPROVER_try_finally_emits_none bad _ ih _ _ _ _ r hd hr
                · exact hother _ ih _ _ _ _ r hd hr

theorem convert_sequence_emits_none (bad : instructiont → Bool) (conv : convertt)
    (hconv : emits_none bad conv) (mode : irep_idt) :
    ∀ (cs : List codet) (dest : goto_programt) (self : goto_convertt)
      (r : goto_programt × goto_convertt),
      free_of bad dest → convert_sequence conv mode cs dest self = .ok r → free_of bad r.1 := by
  intro cs
  induction cs with
  | nil =>
    intro dest self r hd hr
    simp only [convert_sequence, Except.ok.injEq] at hr
    subst hr
    exact hd
  | cons c cs ih =>
    intro dest self r hd hr
    simp only [convert_sequence] at hr
    split at hr
    · simp at hr
    · rename_i q hq
      exact ih _ _ r (hconv _ _ _ _ q hd hq) hr

theorem ordinary_emits_none (bad : instructiont → Bool) (hbad : class_of_assignments bad)
    (conv : convertt) (hconv : emits_none bad conv) : emits_none bad (ordinary conv) := by
  intro code dest mode self r hd hr
  unfold ordinary at hr
  split at hr
  · exact convert_sequence_emits_none bad conv hconv mode _ _ _ r hd hr
  · simp only [Except.ok.injEq] at hr
    subst hr
    exact free_of_add bad hbad dest _ _ hd (by intro h; cases h)

theorem lower_as_other_emits_none (bad : instructiont → Bool)
    (hbad : class_of_assignments bad) : emits_none bad lower_as_other := by
  intro code dest mode self r hd hr
  simp only [lower_as_other, Except.ok.injEq] at hr
  subst hr
  refine free_of_append bad dest _ hd ?_
  intro i hi
  simp only [List.mem_singleton] at hi
  subst hi
  exact hbad.1 _ (by intro h; cases h)

theorem assigns_flag_assign_flag_at (a : Nat) (l : source_locationt) :
    assigns_flag (assign_flag_at a l) = true := by
  have h : (decide (ASSIGN = ASSIGN)
      && flag_assignment
          (code_assignt (symbol_exprt "$exception_flag" bool_typet) true_exprt)) = true := by
    decide
  exact h

theorem clears_flag_assign_flag_at (a : Nat) (l : source_locationt) :
    clears_flag (assign_flag_at a l) = false := by
  have h : (code_assignt (symbol_exprt "$exception_flag" bool_typet) true_exprt).op1
      = true_exprt := rfl
  simp [clears_flag, assign_flag_at, h]

/-- C31: the engine never resets the exception flag.  Relative to a nested lowering that
emits no assignment to the flag, `convert_msc_try_finally`, `convert_msc_try_except`,
`convert_msc_leave`, `convert_try_catch`, `convert_CPROVER_try_catch` and
`convert_CPROVER_try_finally` emit none either; `convert_CPROVER_throw` puts the ASSIGN of
true, unwinds, and puts a GOTO, and emits no assignment of another value to the flag.
The cleanup `convert_CPROVER_try_catch` registers is the conditional on the flag with no
else branch.  So over a collaborator that does not reset the flag, no lowering of the
engine puts a reset of the flag into an instruction list free of them. -/
theorem exception_flag_never_cleared (other : collaboratort)
    (hother : ∀ conv, emits_none clears_flag conv → emits_none clears_flag (other conv))
    (conv : convertt) (hassigns : emits_none assigns_flag conv)
    (hclears : emits_none clears_flag conv)
    (code : codet) (dest : goto_programt) (mode : irep_idt) (self : goto_convertt)
    (H : codet) (l : source_locationt) (a : Nat) :
    emits_none assigns_flag (convert_msc_try_finally conv)
    ∧ emits_none assigns_flag (convert_msc_try_except conv)
    ∧ emits_none assigns_flag (convert_msc_leave conv)
    ∧ emits_none assigns_flag (convert_try_catch conv)
    ∧ emits_none assigns_flag (convert_CPROVER_try_catch conv)
    ∧ emits_none assigns_flag (convert_CPROVER_try_finally conv)
    ∧ emits_none clears_flag (convert_CPROVER_throw conv)
    ∧ assigns_flag (assign_flag_at a l) = true
    ∧ (assign_flag_at a l).code.op1 = true_exprt
    ∧ clears_flag (assign_flag_at a l) = false
    ∧ convert_CPROVER_throw conv code dest mode self
        = (match unwind_each conv code.source_location mode
              (self.targets.destructor_stack.get_destructors
                (if self.targets.throw_set then some self.targets.throw_stack_node
                 else none) none)
              (dest ++ [assign_flag_at self.next_address code.source_location])
              (exception_flag mode self.allocated).2 with
          | .error e => .error e
          | .ok r =>
            .ok (r.1 ++ [goto_located r.2.next_address
                          (if self.targets.throw_set then r.2.targets.throw_target
                           else r.2.targets.return_target)
                          code.source_location], r.2.allocated))
    ∧ (CPROVER_try_state self l H mode).targets.destructor_stack.get_destructors
          none none
        = catch_cleanup H l :: self.targets.destructor_stack.get_destructors none none
    ∧ (catch_cleanup H l).operands
        = [symbol_exprt "$exception_flag" bool_typet, H, codet.nil]
    ∧ flag_assignment (catch_cleanup H l) = false
    ∧ (∀ fuel, emits_none clears_flag (cbmc.convert other fuel))
    ∧ cbmc.convert ordinary 6 throw_after_catch [] "C" initial_state
        = .ok (throw_after_catch_output, throw_after_catch_state)
    ∧ throw_after_catch_output.filter assigns_flag
        = [assign_flag_at 3 (some 60), assign_flag_at 6 (some 60)]
    ∧ throw_after_catch_output.filter clears_flag = [] := by
  have hclass := class_of_assignments_assigns_flag
  have hclass' := class_of_assignments_clears_flag
  refine ⟨convert_msc_try_finally_emits_none _ hclass conv hassigns,
    convert_msc_try_except_emits_none _ conv hassigns,
    convert_msc_leave_emits_none _ hclass conv hassigns,
    convert_try_catch_emits_none _ hclass conv hassigns,
    convert_CPROVER_try_catch_emits_none _ hclass conv hassigns,
    convert_CPROVER_try_finally_emits_none _ conv hassigns,
    convert_CPROVER_throw_emits_none _ hclass' clears_flag_assign_flag_at conv hclears,
    assigns_flag_assign_flag_at a l, rfl, clears_flag_assign_flag_at a l,
    convert_CPROVER_throw_eq conv code dest mode self,
    get_destructors_add_root _ _, ?_, ?_,
    convert_emits_none _ hclass' clears_flag_assign_flag_at other hother,
    by decide!, by decide, by decide⟩
  · cases H
    rfl
  · cases H
    rfl

/-- The sample collaborator, a throw at the start of a function body, and the handler
`3` of a statement located at `80`. -/
theorem exception_flag_never_cleared_witness :
    emits_none assigns_flag (convert_msc_try_finally lower_as_other)
    ∧ emits_none assigns_flag (convert_msc_try_except lower_as_other)
    ∧ emits_none assigns_flag (convert_msc_leave lower_as_other)
    ∧ emits_none assigns_flag (convert_try_catch lower_as_other)
    ∧ emits_none assigns_flag (convert_CPROVER_try_catch lower_as_other)
    ∧ emits_none assigns_flag (convert_CPROVER_try_finally lower_as_other)
    ∧ emits_none clears_flag (convert_CPROVER_throw lower_as_other)
    ∧ assigns_flag (assign_flag_at 4 (some 80)) = true
    ∧ (assign_flag_at 4 (some 80)).code.op1 = true_exprt
    ∧ clears_flag (assign_flag_at 4 (some 80)) = false
    ∧ convert_CPROVER_throw lower_as_other sample_CPROVER_throw [] "C" initial_state
        = (match unwind_each lower_as_other sample_CPROVER_throw.source_location "C"
              (initial_state.targets.destructor_stack.get_destructors
                (if initial_state.targets.throw_set then some initial_state.targets.throw_stack_node
                 else none) none)
              ([] ++ [assign_flag_at initial_state.next_address sample_CPROVER_throw.source_location])
              (exception_flag "C" initial_state.allocated).2 with
          | .error e => .error e
          | .ok r =>
            .ok (r.1 ++ [goto_located r.2.next_address
                          (if initial_state.targets.throw_set then r.2.targets.throw_target
                           else r.2.targets.return_target)
                          sample_CPROVER_throw.source_location], r.2.allocated))
    ∧ (CPROVER_try_state initial_state (some 80) (expression_statement 3) "C").targets.destructor_stack.get_destructors
          none none
        = catch_cleanup (expression_statement 3) (some 80) :: initial_state.targets.destructor_stack.get_destructors none none
    ∧ (catch_cleanup (expression_statement 3) (some 80)).operands
        = [symbol_exprt "$exception_flag" bool_typet, (expression_statement 3), codet.nil]
    ∧ flag_assignment (catch_cleanup (expression_statement 3) (some 80)) = false
    ∧ (∀ fuel, emits_none clears_flag (convert ordinary fuel))
    ∧ convert ordinary 6 throw_after_catch [] "C" initial_state
        = .ok (throw_after_catch_output, throw_after_catch_state)
    ∧ throw_after_catch_output.filter assigns_flag
        = [assign_flag_at 3 (some 60), assign_flag_at 6 (some 60)]
    ∧ throw_after_catch_output.filter clears_flag = [] :=
  exception_flag_never_cleared ordinary
    (ordinary_emits_none clears_flag class_of_assignments_clears_flag)
    lower_as_other
    (lower_as_other_emits_none assigns_flag class_of_assignments_assigns_flag)
    (lower_as_other_emits_none clears_flag class_of_assignments_clears_flag)
    sample_CPROVER_throw [] "C" initial_state (expression_statement 3) (some 80) 4

end cbmc
